import Mathlib

/-!
# DXVA2 renderer (`app/streaming/video/ffmpeg-renderers/dxva2.cpp`)

A shallow embedding of the decision logic of `DXVA2Renderer` and the
properties proved about it.

Conventions of the embedding

* C integers are natural numbers or integers; the quantities modelled here
  (counters, identifiers, format codes) never come near their machine width.
* A COM pointer is modelled by what the code asks of it: `nullptr` tests
  become `Option`/`Bool`, and calls into Direct3D become fields holding the
  answer the platform gives.
* `SDL_Log*` calls have no influence on any value and are left out.
-/

namespace DXVA2

/-! ## Definitions -/

/-! ### Decode surface pool (`ffPoolAlloc`, lines 86-99) -/

/-- A decode surface pointer (`LPDIRECT3DSURFACE9`), identified by its address. -/
abbrev LPDIRECT3DSURFACE9 := Nat

/-- The buffer reference built by `av_buffer_create(data, size, free, opaque, flags)`:
it wraps the `data` pointer it was given. -/
structure AVBufferRef where
  data : LPDIRECT3DSURFACE9
  deriving DecidableEq, Repr

/-- FFmpeg's `av_buffer_create(data, size, free, opaque, flags)`, applied to a
surface pointer: a reference wrapping `data`, or `NULL` (`none`) when FFmpeg
cannot allocate the reference. `allocates` is whether that allocation
succeeds. -/
def av_buffer_create (data : LPDIRECT3DSURFACE9) (allocates : Bool) : Option AVBufferRef :=
  if allocates then some ⟨data⟩ else none

/-- The two members of `DXVA2Renderer` that `ffPoolAlloc` touches: the fixed
array `m_DecSurfaces` (its length is `ARRAYSIZE(m_DecSurfaces)`) and the
cursor `m_SurfacesUsed`. -/
structure SurfacePool where
  m_DecSurfaces : List LPDIRECT3DSURFACE9
  m_SurfacesUsed : Nat
  deriving DecidableEq, Repr

/-- The pool as the constructor leaves it: `m_SurfacesUsed(0)`. -/
def SurfacePool.fresh (surfaces : List LPDIRECT3DSURFACE9) : SurfacePool :=
  { m_DecSurfaces := surfaces, m_SurfacesUsed := 0 }

/-- `DXVA2Renderer::ffPoolAlloc`: the returned buffer (`none` is `NULL`) and the
renderer state after the call. On the surface branch the argument
`m_DecSurfaces[m_SurfacesUsed++]` is evaluated, and the cursor advanced, before
`av_buffer_create` is called, and the function returns whatever
`av_buffer_create` returns; `allocates` is whether its allocation succeeds. -/
def ffPoolAlloc (me : SurfacePool) (allocates : Bool) : Option AVBufferRef × SurfacePool :=
  if h : me.m_SurfacesUsed < me.m_DecSurfaces.length then
    (av_buffer_create (me.m_DecSurfaces.get ⟨me.m_SurfacesUsed, h⟩) allocates,
     { me with m_SurfacesUsed := me.m_SurfacesUsed + 1 })
  else
    (none, me)

/-- The pool after `n` successive calls of `ffPoolAlloc`; `allocates k` is
whether the allocation of `av_buffer_create` succeeds in call number `k + 1`. -/
def ffPoolAllocState (me : SurfacePool) (allocates : Nat → Bool) : Nat → SurfacePool
  | 0 => me
  | n + 1 => (ffPoolAlloc (ffPoolAllocState me allocates n) (allocates n)).2

/-- What call number `n + 1` of `ffPoolAlloc` returns (calls are counted from
one, so `ffPoolAllocNth me allocates 0` is the first call). -/
def ffPoolAllocNth (me : SurfacePool) (allocates : Nat → Bool) (n : Nat) :
    Option AVBufferRef :=
  (ffPoolAlloc (ffPoolAllocState me allocates n) (allocates n)).1

/-- The return values of the first `n` calls of `ffPoolAlloc`, in call order. -/
def ffPoolAllocResults (me : SurfacePool) (allocates : Nat → Bool) (n : Nat) :
    List (Option AVBufferRef) :=
  (List.range n).map (ffPoolAllocNth me allocates)

/-- The index at which a call of `ffPoolAlloc` reads `m_DecSurfaces`
(`me->m_DecSurfaces[me->m_SurfacesUsed++]`, line 94): the cursor as it is before
the increment, on the branch guarded by line 90; `none` when the call reads no
element. -/
def ffPoolAlloc_indexRead (me : SurfacePool) : Option Nat :=
  if me.m_SurfacesUsed < me.m_DecSurfaces.length then
    some me.m_SurfacesUsed
  else
    none

/-! ### Windows and Direct3D vocabulary -/

/-- A Windows `HRESULT`, as a signed integer. -/
abbrev HRESULT := Int

/-- The Windows `SUCCEEDED(hr)` test: `hr >= 0`. -/
def SUCCEEDED (hr : HRESULT) : Bool := decide (0 ≤ hr)

/-- The Windows `FAILED(hr)` test: `hr < 0`. -/
def FAILED (hr : HRESULT) : Bool := decide (hr < 0)

/-- The Windows `HIWORD(l)` accessor: `(l >> 16) & 0xffff`. -/
def HIWORD (l : Nat) : Nat := (l >>> 16) &&& 0xFFFF

/-- The Windows `LOWORD(l)` accessor: `l & 0xffff`. -/
def LOWORD (l : Nat) : Nat := l &&& 0xFFFF

/-- A Windows `LARGE_INTEGER`, by its two 32-bit halves. -/
structure LARGE_INTEGER where
  HighPart : Nat
  LowPart : Nat
  deriving DecidableEq, Repr

/-- The fields of `D3DADAPTER_IDENTIFIER9` that the renderer reads. -/
structure D3DADAPTER_IDENTIFIER9 where
  VendorId : Nat
  DeviceId : Nat
  DriverVersion : LARGE_INTEGER
  deriving DecidableEq, Repr

/-- What the Direct3D device `m_Device` answers to the adapter queries issued by
the two blacklist functions: the `HRESULT` of `GetDirect3D`, of `GetDeviceCaps`
and of `GetAdapterIdentifier`, and the identifier the last one fills in. -/
structure IDirect3DDevice9Ex where
  GetDirect3D : HRESULT
  GetDeviceCaps : HRESULT
  GetAdapterIdentifier : HRESULT
  id : D3DADAPTER_IDENTIFIER9
  deriving DecidableEq, Repr

/-- The process environment as `qgetenv` reads it: a variable that is not set
reads as the empty byte array. -/
abbrev Environment := String → String

/-- Qt's `qputenv(varName, value)`: the environment in which `varName` has the
given value and every other variable is as before. -/
def qputenv (qgetenv : Environment) (varName value : String) : Environment :=
  fun name => if name = varName then value else qgetenv name

/-- Qt's `qunsetenv(varName)`: the environment in which `varName` is not set, so
that `qgetenv` gives the empty byte array for it. -/
def qunsetenv (qgetenv : Environment) (varName : String) : Environment :=
  fun name => if name = varName then "" else qgetenv name

/-- The constants of moonlight-common-c's `Limelight.h` that the renderer names.
That header lives outside the renderer sources, so the functions below take the
constants as a parameter. -/
structure Limelight where
  VIDEO_FORMAT_H264 : Nat
  VIDEO_FORMAT_H265 : Nat
  VIDEO_FORMAT_H265_MAIN10 : Nat
  VIDEO_FORMAT_MASK_H265 : Nat
  COLORSPACE_REC_601 : Int
  COLORSPACE_REC_709 : Int
  deriving DecidableEq, Repr

/-- What the names of the video format constants promise: both HEVC formats
carry a bit of the HEVC mask, H.264 carries none, and the two HEVC formats are
different codes. -/
def Limelight.WellFormed (c : Limelight) : Prop :=
  c.VIDEO_FORMAT_H264 &&& c.VIDEO_FORMAT_MASK_H265 = 0 ∧
  c.VIDEO_FORMAT_H265 &&& c.VIDEO_FORMAT_MASK_H265 ≠ 0 ∧
  c.VIDEO_FORMAT_H265_MAIN10 &&& c.VIDEO_FORMAT_MASK_H265 ≠ 0 ∧
  c.VIDEO_FORMAT_H265 ≠ c.VIDEO_FORMAT_H265_MAIN10

instance (c : Limelight) : Decidable c.WellFormed := by
  unfold Limelight.WellFormed
  infer_instance

/-- The values `Limelight.h` gives the constants: formats `0x0001`, `0x0100`,
`0x0200`, HEVC mask `0xFF00`, colorspaces `0` and `1`. -/
def limelightH : Limelight :=
  { VIDEO_FORMAT_H264 := 0x0001
    VIDEO_FORMAT_H265 := 0x0100
    VIDEO_FORMAT_H265_MAIN10 := 0x0200
    VIDEO_FORMAT_MASK_H265 := 0xFF00
    COLORSPACE_REC_601 := 0
    COLORSPACE_REC_709 := 1 }

/-- The requested codec is one of the three the renderer negotiates. -/
def Limelight.IsCodec (c : Limelight) (videoFormat : Nat) : Prop :=
  videoFormat = c.VIDEO_FORMAT_H264 ∨ videoFormat = c.VIDEO_FORMAT_H265 ∨
  videoFormat = c.VIDEO_FORMAT_H265_MAIN10

/-- The requested codec is an HEVC variant: HEVC Main or HEVC Main10. -/
def Limelight.IsHEVC (c : Limelight) (videoFormat : Nat) : Prop :=
  videoFormat = c.VIDEO_FORMAT_H265 ∨ videoFormat = c.VIDEO_FORMAT_H265_MAIN10

/-! ### Colour metadata: FFmpeg's `libavutil/pixfmt.h` and `dxva2api.h` -/

/-- FFmpeg's `AVCOL_RANGE_MPEG` (limited range). -/
def AVCOL_RANGE_MPEG : Int := 1
/-- FFmpeg's `AVCOL_RANGE_JPEG` (full range). -/
def AVCOL_RANGE_JPEG : Int := 2

/-- FFmpeg's `AVCOL_PRI_BT709`. -/
def AVCOL_PRI_BT709 : Int := 1
/-- FFmpeg's `AVCOL_PRI_BT470M`. -/
def AVCOL_PRI_BT470M : Int := 4
/-- FFmpeg's `AVCOL_PRI_BT470BG`. -/
def AVCOL_PRI_BT470BG : Int := 5
/-- FFmpeg's `AVCOL_PRI_SMPTE170M`. -/
def AVCOL_PRI_SMPTE170M : Int := 6
/-- FFmpeg's `AVCOL_PRI_SMPTE240M`. -/
def AVCOL_PRI_SMPTE240M : Int := 7

/-- FFmpeg's `AVCOL_TRC_BT709`. -/
def AVCOL_TRC_BT709 : Int := 1
/-- FFmpeg's `AVCOL_TRC_GAMMA22`. -/
def AVCOL_TRC_GAMMA22 : Int := 4
/-- FFmpeg's `AVCOL_TRC_GAMMA28`. -/
def AVCOL_TRC_GAMMA28 : Int := 5
/-- FFmpeg's `AVCOL_TRC_SMPTE170M`. -/
def AVCOL_TRC_SMPTE170M : Int := 6
/-- FFmpeg's `AVCOL_TRC_SMPTE240M`. -/
def AVCOL_TRC_SMPTE240M : Int := 7
/-- FFmpeg's `AVCOL_TRC_LINEAR`. -/
def AVCOL_TRC_LINEAR : Int := 8
/-- FFmpeg's `AVCOL_TRC_IEC61966_2_1` (sRGB). -/
def AVCOL_TRC_IEC61966_2_1 : Int := 13

/-- FFmpeg's `AVCOL_SPC_BT709`. -/
def AVCOL_SPC_BT709 : Int := 1
/-- FFmpeg's `AVCOL_SPC_BT470BG`. -/
def AVCOL_SPC_BT470BG : Int := 5
/-- FFmpeg's `AVCOL_SPC_SMPTE170M`. -/
def AVCOL_SPC_SMPTE170M : Int := 6
/-- FFmpeg's `AVCOL_SPC_SMPTE240M`. -/
def AVCOL_SPC_SMPTE240M : Int := 7

/-- FFmpeg's `AVCHROMA_LOC_LEFT`. -/
def AVCHROMA_LOC_LEFT : Int := 1
/-- FFmpeg's `AVCHROMA_LOC_CENTER`. -/
def AVCHROMA_LOC_CENTER : Int := 2
/-- FFmpeg's `AVCHROMA_LOC_TOPLEFT`. -/
def AVCHROMA_LOC_TOPLEFT : Int := 3

/-- `DXVA2_NominalRange_Unknown`. -/
def DXVA2_NominalRange_Unknown : Nat := 0
/-- `DXVA2_NominalRange_0_255`. -/
def DXVA2_NominalRange_0_255 : Nat := 1
/-- `DXVA2_NominalRange_16_235`. -/
def DXVA2_NominalRange_16_235 : Nat := 2

/-- `DXVA2_VideoPrimaries_Unknown`. -/
def DXVA2_VideoPrimaries_Unknown : Nat := 0
/-- `DXVA2_VideoPrimaries_BT709`. -/
def DXVA2_VideoPrimaries_BT709 : Nat := 2
/-- `DXVA2_VideoPrimaries_BT470_2_SysM`. -/
def DXVA2_VideoPrimaries_BT470_2_SysM : Nat := 3
/-- `DXVA2_VideoPrimaries_BT470_2_SysBG`. -/
def DXVA2_VideoPrimaries_BT470_2_SysBG : Nat := 4
/-- `DXVA2_VideoPrimaries_SMPTE170M`. -/
def DXVA2_VideoPrimaries_SMPTE170M : Nat := 5
/-- `DXVA2_VideoPrimaries_SMPTE240M`. -/
def DXVA2_VideoPrimaries_SMPTE240M : Nat := 6

/-- `DXVA2_VideoTransFunc_Unknown`. -/
def DXVA2_VideoTransFunc_Unknown : Nat := 0
/-- `DXVA2_VideoTransFunc_10` (linear, gamma 1.0). -/
def DXVA2_VideoTransFunc_10 : Nat := 1
/-- `DXVA2_VideoTransFunc_22` (gamma 2.2). -/
def DXVA2_VideoTransFunc_22 : Nat := 4
/-- `DXVA2_VideoTransFunc_709`. -/
def DXVA2_VideoTransFunc_709 : Nat := 5
/-- `DXVA2_VideoTransFunc_240M`. -/
def DXVA2_VideoTransFunc_240M : Nat := 6
/-- `DXVA2_VideoTransFunc_sRGB`. -/
def DXVA2_VideoTransFunc_sRGB : Nat := 7
/-- `DXVA2_VideoTransFunc_28` (gamma 2.8). -/
def DXVA2_VideoTransFunc_28 : Nat := 8

/-- `DXVA2_VideoTransferMatrix_Unknown`. -/
def DXVA2_VideoTransferMatrix_Unknown : Nat := 0
/-- `DXVA2_VideoTransferMatrix_BT709`. -/
def DXVA2_VideoTransferMatrix_BT709 : Nat := 1
/-- `DXVA2_VideoTransferMatrix_BT601`. -/
def DXVA2_VideoTransferMatrix_BT601 : Nat := 2
/-- `DXVA2_VideoTransferMatrix_SMPTE240M`. -/
def DXVA2_VideoTransferMatrix_SMPTE240M : Nat := 3

/-- `DXVA2_VideoChromaSubsampling_Unknown`. -/
def DXVA2_VideoChromaSubsampling_Unknown : Nat := 0
/-- `DXVA2_VideoChromaSubsampling_Vertically_AlignedChromaPlanes`. -/
def DXVA2_VideoChromaSubsampling_Vertically_AlignedChromaPlanes : Nat := 0x1
/-- `DXVA2_VideoChromaSubsampling_Vertically_Cosited`. -/
def DXVA2_VideoChromaSubsampling_Vertically_Cosited : Nat := 0x2
/-- `DXVA2_VideoChromaSubsampling_Horizontally_Cosited`. -/
def DXVA2_VideoChromaSubsampling_Horizontally_Cosited : Nat := 0x4

/-- `DXVA2_VideoLighting_Unknown`. -/
def DXVA2_VideoLighting_Unknown : Nat := 0
/-- `DXVA2_SampleProgressiveFrame`. -/
def DXVA2_SampleProgressiveFrame : Nat := 2

/-- The `DXVA2_ExtendedFormat` colour description. -/
structure DXVA2_ExtendedFormat where
  SampleFormat : Nat := 0
  VideoChromaSubsampling : Nat := 0
  NominalRange : Nat := 0
  VideoTransferMatrix : Nat := 0
  VideoLighting : Nat := 0
  VideoPrimaries : Nat := 0
  VideoTransferFunction : Nat := 0
  deriving DecidableEq, Repr

/-- The fields of `DXVA2_VideoDesc` that the renderer sets. `SampleWidth` and
`SampleHeight` are `UINT`. -/
structure DXVA2_VideoDesc where
  SampleWidth : Int := 0
  SampleHeight : Int := 0
  SampleFormat : DXVA2_ExtendedFormat := {}
  Format : Nat := 0
  deriving DecidableEq, Repr

/-- An `SDL_Rect`. -/
structure SDL_Rect where
  x : Int := 0
  y : Int := 0
  w : Int := 0
  h : Int := 0
  deriving DecidableEq, Repr

/-- A Windows `RECT`. -/
structure RECT where
  left : Int := 0
  top : Int := 0
  right : Int := 0
  bottom : Int := 0
  deriving DecidableEq, Repr

/-- The fields of FFmpeg's `dxva_context` that `initializeDecoder` writes. -/
structure dxva_context where
  workaround : Nat := 0
  deriving DecidableEq, Repr

/-! ### Decoder profiles (`dxva2api.h`, `libavcodec/dxva2.h` and line 20) -/

/-- A Windows `GUID`; `IsEqualGUID` is equality of the four parts. -/
structure GUID where
  Data1 : Nat := 0
  Data2 : Nat := 0
  Data3 : Nat := 0
  Data4 : List Nat := []
  deriving DecidableEq, Repr

/-- `DXVA2_ModeH264_E`. -/
def DXVA2_ModeH264_E : GUID :=
  ⟨0x1b81be68, 0xa0c7, 0x11d3, [0xb9, 0x84, 0x00, 0xc0, 0x4f, 0x2e, 0x73, 0xc5]⟩
/-- `DXVA2_ModeH264_F`. -/
def DXVA2_ModeH264_F : GUID :=
  ⟨0x1b81be69, 0xa0c7, 0x11d3, [0xb9, 0x84, 0x00, 0xc0, 0x4f, 0x2e, 0x73, 0xc5]⟩
/-- `DXVA2_ModeHEVC_VLD_Main`. -/
def DXVA2_ModeHEVC_VLD_Main : GUID :=
  ⟨0x5b11d51b, 0x2f4c, 0x4452, [0xbc, 0xc3, 0x09, 0xf2, 0xa1, 0x16, 0x0c, 0xc0]⟩
/-- `DXVA2_ModeHEVC_VLD_Main10`. -/
def DXVA2_ModeHEVC_VLD_Main10 : GUID :=
  ⟨0x107af0e0, 0xef1a, 0x4d19, [0xab, 0xa8, 0x67, 0xa1, 0x63, 0x07, 0x3d, 0x13]⟩
/-- `DXVA2_NoEncrypt`. -/
def DXVA2_NoEncrypt : GUID :=
  ⟨0x1b81bed0, 0xa0c7, 0x11d3, [0xb9, 0x84, 0x00, 0xc0, 0x4f, 0x2e, 0x73, 0xc5]⟩
/-- `DXVADDI_Intel_ModeH264_E`, the `DEFINE_GUID` of line 20. -/
def DXVADDI_Intel_ModeH264_E : GUID :=
  ⟨0x604F8E68, 0x4951, 0x4C54, [0x88, 0xFE, 0xAB, 0xD2, 0x5C, 0x15, 0xB3, 0xD6]⟩

/-- FFmpeg's `FF_DXVA2_WORKAROUND_INTEL_CLEARVIDEO`. -/
def FF_DXVA2_WORKAROUND_INTEL_CLEARVIDEO : Nat := 2

/-- The fields of `DXVA2_ConfigPictureDecode` that `initializeDecoder` reads. -/
structure DXVA2_ConfigPictureDecode where
  guidConfigBitstreamEncryption : GUID := {}
  ConfigBitstreamRaw : Nat := 0
  deriving DecidableEq, Repr

/-! ### Overlay types (`overlaymanager.h`) -/

/-- An `Overlay::OverlayType`, as the array index the renderer uses it for. -/
abbrev OverlayType := Nat

/-- Modelled from the spec: `Overlay::OverlayDebug` of `overlaymanager.h`, the
debug-statistics overlay, first of the overlay types. -/
def OverlayDebug : OverlayType := 0

/-- Modelled from the spec: `Overlay::OverlayStatusUpdate` of `overlaymanager.h`,
the status overlay, second of the overlay types. -/
def OverlayStatusUpdate : OverlayType := 1

/-- Modelled from the spec: `Overlay::OverlayMax` of `overlaymanager.h`, the
number of overlay types (one layer per type). -/
def OverlayMax : Nat := 2

/-- An overlay texture pointer (`IDirect3DTexture9*`), identified by its address. -/
abbrev IDirect3DTexture9 := Nat

/-- An overlay vertex buffer pointer (`IDirect3DVertexBuffer9*`), identified by
its address. -/
abbrev IDirect3DVertexBuffer9 := Nat

/-! ### Renderer state -/

/-- A video processor pointer (`IDirectXVideoProcessor*`), identified by its address. -/
abbrev IDirectXVideoProcessor := Nat

/-- The members of `DXVA2Renderer` read or written by the blacklist functions,
`getDecoderColorspace`, `renderFrame`, the `initialize` family and
`notifyOverlayUpdated`. A null pointer is `none`. The members after
`m_BlockingPresent` start zeroed, as `RtlZeroMemory` leaves them; the two
overlay arrays have `Overlay::OverlayMax` entries, indexed by overlay type. -/
structure DXVA2Renderer where
  m_Device : IDirect3DDevice9Ex
  m_VideoFormat : Nat
  m_Processor : Option IDirectXVideoProcessor
  m_FrameIndex : Nat
  m_BlockingPresent : Bool
  m_VideoWidth : Int := 0
  m_VideoHeight : Int := 0
  m_DisplayWidth : Int := 0
  m_DisplayHeight : Int := 0
  m_Desc : DXVA2_VideoDesc := {}
  m_DXVAContext : dxva_context := {}
  m_Config : DXVA2_ConfigPictureDecode := {}
  m_OverlayTextures : List (Option IDirect3DTexture9) := List.replicate OverlayMax none
  m_OverlayVertexBuffers : List (Option IDirect3DVertexBuffer9) := List.replicate OverlayMax none
  deriving DecidableEq, Repr

/-! ### GPU capability policy (lines 369-571) -/

/-- `DXVA2Renderer::isDXVideoProcessorAPIBlacklisted`. The local `result`
starts as `false` and keeps that value on every path that does not assign it. -/
def isDXVideoProcessorAPIBlacklisted (qgetenv : Environment) (me : DXVA2Renderer) : Bool :=
  if qgetenv "DXVA2_DISABLE_VIDPROC_BLACKLIST" = "1" then
    false
  else if SUCCEEDED me.m_Device.GetDirect3D then
    if SUCCEEDED me.m_Device.GetDeviceCaps then
      if SUCCEEDED me.m_Device.GetAdapterIdentifier then
        if me.m_Device.id.VendorId = 0x8086 then
          true
        else if me.m_Device.id.VendorId = 0x4d4f4351 then
          true
        else
          false
      else
        false
    else
      false
  else
    false

/-- `DXVA2Renderer::isDecoderBlacklisted`. The local `result` starts as `false`
and keeps that value on every path that does not assign it (failed queries,
unrecognised vendor). In the Intel `switch`, `case 0x1900` leaves through its
own `break` only for HEVC Main10 and otherwise runs into `default`. -/
def isDecoderBlacklisted (c : Limelight) (qgetenv : Environment) (me : DXVA2Renderer) : Bool :=
  if qgetenv "DXVA2_DISABLE_DECODER_BLACKLIST" = "1" then
    false
  else if SUCCEEDED me.m_Device.GetDirect3D then
    if SUCCEEDED me.m_Device.GetDeviceCaps then
      if SUCCEEDED me.m_Device.GetAdapterIdentifier then
        let id := me.m_Device.id
        if id.VendorId = 0x8086 then
          let series := id.DeviceId &&& 0xFF00
          if series = 0x0400 ∨ series = 0x0A00 ∨ series = 0x0D00 ∨ series = 0x1600
              ∨ series = 0x2200 then
            decide (me.m_VideoFormat &&& c.VIDEO_FORMAT_MASK_H265 ≠ 0)
          else if series = 0x1900 ∧ me.m_VideoFormat = c.VIDEO_FORMAT_H265_MAIN10 then
            false
          else if HIWORD id.DriverVersion.LowPart < 100
              ∧ LOWORD id.DriverVersion.LowPart < 4836 then
            decide (me.m_VideoFormat &&& c.VIDEO_FORMAT_MASK_H265 ≠ 0)
          else
            false
        else if id.VendorId = 0x10DE then
          if (0x1180 ≤ id.DeviceId ∧ id.DeviceId ≤ 0x11BF) ∨
              (0x11C0 ≤ id.DeviceId ∧ id.DeviceId ≤ 0x11FF) ∨
              (0x0FC0 ≤ id.DeviceId ∧ id.DeviceId ≤ 0x0FFF) ∨
              (0x1000 ≤ id.DeviceId ∧ id.DeviceId ≤ 0x103F) ∨
              (0x1280 ≤ id.DeviceId ∧ id.DeviceId ≤ 0x12BF) ∨
              (0x1340 ≤ id.DeviceId ∧ id.DeviceId ≤ 0x137F) ∨
              (0x1380 ≤ id.DeviceId ∧ id.DeviceId ≤ 0x13BF) ∨
              (0x13C0 ≤ id.DeviceId ∧ id.DeviceId ≤ 0x13FF) ∨
              (0x1617 ≤ id.DeviceId ∧ id.DeviceId ≤ 0x161A) ∨
              (id.DeviceId = 0x1667) ∨
              (0x17C0 ≤ id.DeviceId ∧ id.DeviceId ≤ 0x17FF) then
            decide (me.m_VideoFormat &&& c.VIDEO_FORMAT_MASK_H265 ≠ 0)
          else
            false
        else if id.VendorId = 0x1002 then
          false
        else
          false
      else
        false
    else
      false
  else
    false

/-- `DXVA2Renderer::getDecoderColorspace`. -/
def getDecoderColorspace (c : Limelight) (qgetenv : Environment) (me : DXVA2Renderer) : Int :=
  if isDXVideoProcessorAPIBlacklisted qgetenv me then
    c.COLORSPACE_REC_601
  else
    c.COLORSPACE_REC_709

/-- The three adapter queries of the blacklist functions all succeed. -/
def AdapterQueriesSucceed (d : IDirect3DDevice9Ex) : Prop :=
  SUCCEEDED d.GetDirect3D = true ∧ SUCCEEDED d.GetDeviceCaps = true ∧
  SUCCEEDED d.GetAdapterIdentifier = true

instance (d : IDirect3DDevice9Ex) : Decidable (AdapterQueriesSucceed d) := by
  unfold AdapterQueriesSucceed
  infer_instance

/-! ### Rendering a frame (`renderFrame`, lines 1004-1225) -/

/-- The fields of the decoded `AVFrame` that `renderFrame` reads: `data3` is
`frame->data[3]`, the decode surface; the colour fields are C enums, read as
integers. The defaults are FFmpeg's `*_UNSPECIFIED` values. -/
structure AVFrame where
  data3 : LPDIRECT3DSURFACE9
  color_range : Int := 0
  color_primaries : Int := 2
  color_trc : Int := 2
  colorspace : Int := 2
  chroma_location : Int := 0
  deriving DecidableEq, Repr

/-- The `switch (frame->color_range)` of `renderFrame` (lines 1014-1024): the
value stored in `m_Desc.SampleFormat.NominalRange`. -/
def SampleFormat_NominalRange (color_range : Int) : Nat :=
  if color_range = AVCOL_RANGE_JPEG then DXVA2_NominalRange_0_255
  else if color_range = AVCOL_RANGE_MPEG then DXVA2_NominalRange_16_235
  else DXVA2_NominalRange_Unknown

/-- The `switch (frame->color_primaries)` of `renderFrame` (lines 1026-1045):
the value stored in `m_Desc.SampleFormat.VideoPrimaries`. -/
def SampleFormat_VideoPrimaries (color_primaries : Int) : Nat :=
  if color_primaries = AVCOL_PRI_BT709 then DXVA2_VideoPrimaries_BT709
  else if color_primaries = AVCOL_PRI_BT470M then DXVA2_VideoPrimaries_BT470_2_SysM
  else if color_primaries = AVCOL_PRI_BT470BG then DXVA2_VideoPrimaries_BT470_2_SysBG
  else if color_primaries = AVCOL_PRI_SMPTE170M then DXVA2_VideoPrimaries_SMPTE170M
  else if color_primaries = AVCOL_PRI_SMPTE240M then DXVA2_VideoPrimaries_SMPTE240M
  else DXVA2_VideoPrimaries_Unknown

/-- The `switch (frame->color_trc)` of `renderFrame` (lines 1047-1070): the
value stored in `m_Desc.SampleFormat.VideoTransferFunction`. -/
def SampleFormat_VideoTransferFunction (color_trc : Int) : Nat :=
  if color_trc = AVCOL_TRC_SMPTE170M ∨ color_trc = AVCOL_TRC_BT709 then DXVA2_VideoTransFunc_709
  else if color_trc = AVCOL_TRC_LINEAR then DXVA2_VideoTransFunc_10
  else if color_trc = AVCOL_TRC_GAMMA22 then DXVA2_VideoTransFunc_22
  else if color_trc = AVCOL_TRC_GAMMA28 then DXVA2_VideoTransFunc_28
  else if color_trc = AVCOL_TRC_SMPTE240M then DXVA2_VideoTransFunc_240M
  else if color_trc = AVCOL_TRC_IEC61966_2_1 then DXVA2_VideoTransFunc_sRGB
  else DXVA2_VideoTransFunc_Unknown

/-- The `switch (frame->colorspace)` of `renderFrame` (lines 1072-1086): the
value stored in `m_Desc.SampleFormat.VideoTransferMatrix`. -/
def SampleFormat_VideoTransferMatrix (colorspace : Int) : Nat :=
  if colorspace = AVCOL_SPC_BT709 then DXVA2_VideoTransferMatrix_BT709
  else if colorspace = AVCOL_SPC_BT470BG ∨ colorspace = AVCOL_SPC_SMPTE170M then
    DXVA2_VideoTransferMatrix_BT601
  else if colorspace = AVCOL_SPC_SMPTE240M then DXVA2_VideoTransferMatrix_SMPTE240M
  else DXVA2_VideoTransferMatrix_Unknown

/-- The `switch (frame->chroma_location)` of `renderFrame` (lines 1088-1103):
the value stored in `m_Desc.SampleFormat.VideoChromaSubsampling`. -/
def SampleFormat_VideoChromaSubsampling (chroma_location : Int) : Nat :=
  if chroma_location = AVCHROMA_LOC_LEFT then
    DXVA2_VideoChromaSubsampling_Horizontally_Cosited |||
      DXVA2_VideoChromaSubsampling_Vertically_AlignedChromaPlanes
  else if chroma_location = AVCHROMA_LOC_CENTER then
    DXVA2_VideoChromaSubsampling_Vertically_AlignedChromaPlanes
  else if chroma_location = AVCHROMA_LOC_TOPLEFT then
    DXVA2_VideoChromaSubsampling_Horizontally_Cosited |||
      DXVA2_VideoChromaSubsampling_Vertically_Cosited
  else DXVA2_VideoChromaSubsampling_Unknown

/-- Lines 1014-1103 of `renderFrame`: the five switches write five fields of
`m_Desc.SampleFormat` and leave its other fields as they are. -/
def renderFrame_SampleFormat (frame : AVFrame) (old : DXVA2_ExtendedFormat) :
    DXVA2_ExtendedFormat :=
  { old with
    NominalRange := SampleFormat_NominalRange frame.color_range
    VideoPrimaries := SampleFormat_VideoPrimaries frame.color_primaries
    VideoTransferFunction := SampleFormat_VideoTransferFunction frame.color_trc
    VideoTransferMatrix := SampleFormat_VideoTransferMatrix frame.colorspace
    VideoChromaSubsampling := SampleFormat_VideoChromaSubsampling frame.chroma_location }

/-- The fields of the `DXVA2_VideoSample` that `renderFrame` fills in
(`PlanarAlpha` is the constant opaque alpha). -/
structure DXVA2_VideoSample where
  Start : Nat
  End : Nat
  SampleFormat : DXVA2_ExtendedFormat
  SrcSurface : LPDIRECT3DSURFACE9
  SrcRect : RECT
  DstRect : RECT
  deriving DecidableEq, Repr

/-- The fields of the `DXVA2_VideoProcessBltParams` that vary from frame to
frame (the others are constants and the default proc-amp values). -/
structure DXVA2_VideoProcessBltParams where
  TargetFrame : Nat
  TargetRect : RECT
  deriving DecidableEq, Repr

/-- Direct3D's `D3DERR_WASSTILLDRAWING`, `MAKE_D3DHRESULT(540)`: the 32-bit
pattern `0x8876021C` read as a signed `HRESULT`. -/
def D3DERR_WASSTILLDRAWING : HRESULT := 0x8876021C - 0x100000000

/-- Direct3D's `D3DPRESENT_DONOTWAIT` flag. -/
def D3DPRESENT_DONOTWAIT : Nat := 1

/-- What the platform answers to the device calls of one `renderFrame`.
`PresentEx` lists the answers of the successive `PresentEx` calls of the
present loop. -/
structure FrameAnswers where
  Clear : HRESULT
  BeginScene : HRESULT
  VideoProcessBlt : HRESULT
  StretchRect : HRESULT
  EndScene : HRESULT
  PresentEx : List HRESULT
  deriving DecidableEq, Repr

/-- The outward actions of `renderFrame`, in the order it performs them.
`renderOverlay type` stands for the call `renderOverlay(type)`, which returns
nothing to `renderFrame` and writes none of the members of `DXVA2Renderer`
modelled here. -/
inductive Action where
  | Clear
  | BeginScene
  | VideoProcessBlt (processor : IDirectXVideoProcessor)
      (bltParams : DXVA2_VideoProcessBltParams) (sample : DXVA2_VideoSample)
  | ReleaseProcessor (processor : IDirectXVideoProcessor)
  | StretchRect (surface : LPDIRECT3DSURFACE9) (SrcRect DstRect : RECT)
  | renderOverlay (type : OverlayType)
  | EndScene
  | PresentEx (flags : Nat)
  | SDL_Delay (ms : Nat)
  | SDL_PushEvent_RENDER_TARGETS_RESET
  deriving DecidableEq, Repr

/-- The `do { hr = PresentEx(...); if (hr == D3DERR_WASSTILLDRAWING) SDL_Delay(1); }
while (hr == D3DERR_WASSTILLDRAWING)` loop of `renderFrame`, fed the successive
answers of `PresentEx`: the `hr` it leaves with and its actions, or `none` when
every answer supplied says the device is still drawing (the loop is still
running). -/
def presentLoop (flags : Nat) : List HRESULT → Option (HRESULT × List Action)
  | [] => none
  | hr :: rest =>
    if hr = D3DERR_WASSTILLDRAWING then
      (presentLoop flags rest).map
        (fun r => (r.1, Action.PresentEx flags :: Action.SDL_Delay 1 :: r.2))
    else
      some (hr, [Action.PresentEx flags])

/-- Lines 1105-1128 of `renderFrame`: the `DXVA2_VideoSample` built for the
frame. `scaleSourceToDestinationSurface` is the `StreamUtils` helper, which
lives outside the renderer sources: it is given `src` and `dst` and its value is
the `dst` it leaves. -/
def renderFrame_sample (scaleSourceToDestinationSurface : SDL_Rect → SDL_Rect → SDL_Rect)
    (me : DXVA2Renderer) (frame : AVFrame) : DXVA2_VideoSample :=
  let src : SDL_Rect := { x := 0, y := 0, w := me.m_VideoWidth, h := me.m_VideoHeight }
  let dst : SDL_Rect := scaleSourceToDestinationSurface src
    { x := 0, y := 0, w := me.m_DisplayWidth, h := me.m_DisplayHeight }
  { Start := me.m_FrameIndex
    End := me.m_FrameIndex + 1
    SampleFormat := me.m_Desc.SampleFormat
    SrcSurface := frame.data3
    SrcRect := { left := 0, top := 0, right := me.m_VideoWidth, bottom := me.m_VideoHeight }
    DstRect := { left := dst.x, right := dst.x + dst.w, top := dst.y, bottom := dst.y + dst.h } }

/-- Lines 1167-1176 of `renderFrame`:
`if (m_Processor) { hr = VideoProcessBlt(...); if (FAILED(hr)) { Release(); m_Processor = nullptr; } }`. -/
def renderFrame_processor (me : DXVA2Renderer) (bltParams : DXVA2_VideoProcessBltParams)
    (sample : DXVA2_VideoSample) (hr : HRESULT) : DXVA2Renderer × List Action :=
  match me.m_Processor with
  | some p =>
    if FAILED hr then
      ({ me with m_Processor := none },
       [Action.VideoProcessBlt p bltParams sample, Action.ReleaseProcessor p])
    else
      (me, [Action.VideoProcessBlt p bltParams sample])
  | none => (me, [])

/-- Lines 1178-1225 of `renderFrame`, from `if (!m_Processor)` to the end:
the raw copy, the overlays, `EndScene` and the present loop. `done` holds the
actions performed so far. -/
def renderFrame_finish (me : DXVA2Renderer) (sample : DXVA2_VideoSample) (a : FrameAnswers)
    (done : List Action) : Option (DXVA2Renderer × List Action) :=
  -- `if (!m_Processor) { hr = StretchRect(...); if (FAILED(hr)) { ...; return; } }`
  if me.m_Processor.isNone ∧ FAILED a.StretchRect then
    some (me, done ++ [Action.StretchRect sample.SrcSurface sample.SrcRect sample.DstRect,
                       Action.SDL_PushEvent_RENDER_TARGETS_RESET])
  else
    let done :=
      if me.m_Processor.isNone then
        done ++ [Action.StretchRect sample.SrcSurface sample.SrcRect sample.DstRect]
      else done
    -- `for (int i = 0; i < Overlay::OverlayMax; i++) renderOverlay(i);`
    let done := done ++ (List.range OverlayMax).map Action.renderOverlay
    if FAILED a.EndScene then
      some (me, done ++ [Action.EndScene, Action.SDL_PushEvent_RENDER_TARGETS_RESET])
    else
      match presentLoop (if me.m_BlockingPresent then D3DPRESENT_DONOTWAIT else 0)
          a.PresentEx with
      | none => none
      | some (hr, presented) =>
        if FAILED hr then
          some (me, done ++ [Action.EndScene] ++ presented
                      ++ [Action.SDL_PushEvent_RENDER_TARGETS_RESET])
        else
          some (me, done ++ [Action.EndScene] ++ presented)

/-- The renderer after lines 1014-1103 of `renderFrame`: the colour description
of the frame stamped into `m_Desc.SampleFormat`. -/
def renderFrame_stamped (me : DXVA2Renderer) (frame : AVFrame) : DXVA2Renderer :=
  { me with m_Desc := { me.m_Desc with
      SampleFormat := renderFrame_SampleFormat frame me.m_Desc.SampleFormat } }

/-- Lines 1130-1133 of `renderFrame`: the per-frame fields of `bltParams`, read
before `m_FrameIndex++` takes effect. -/
def renderFrame_bltParams (me : DXVA2Renderer) (sample : DXVA2_VideoSample) :
    DXVA2_VideoProcessBltParams :=
  { TargetFrame := me.m_FrameIndex, TargetRect := sample.DstRect }

/-- The renderer as `renderFrame` has it when it issues its first device call
for a non-null frame: colour description stamped and `m_FrameIndex` advanced by
`bltParams.TargetFrame = m_FrameIndex++` (line 1132). -/
def renderFrame_prepared (me : DXVA2Renderer) (frame : AVFrame) : DXVA2Renderer :=
  { renderFrame_stamped me frame with m_FrameIndex := me.m_FrameIndex + 1 }

/-- `DXVA2Renderer::renderFrame`: the renderer after the call and the actions
performed, or `none` when the present loop has not left. A null `frame` is
`none`. The video sample is built from the stamped colour description and the
frame index before its increment; the surface `frame->data[3]` is the sample's
`SrcSurface`. -/
def renderFrame (scaleSourceToDestinationSurface : SDL_Rect → SDL_Rect → SDL_Rect)
    (me : DXVA2Renderer) (frame : Option AVFrame) (a : FrameAnswers) :
    Option (DXVA2Renderer × List Action) :=
  match frame with
  | none => some (me, [])
  | some frame =>
    let sample := renderFrame_sample scaleSourceToDestinationSurface
      (renderFrame_stamped me frame) frame
    let bltParams := renderFrame_bltParams (renderFrame_stamped me frame) sample
    let me := renderFrame_prepared me frame
    if FAILED a.Clear then
      some (me, [Action.Clear, Action.SDL_PushEvent_RENDER_TARGETS_RESET])
    else if FAILED a.BeginScene then
      some (me, [Action.Clear, Action.BeginScene, Action.SDL_PushEvent_RENDER_TARGETS_RESET])
    else
      let blt := renderFrame_processor me bltParams sample a.VideoProcessBlt
      renderFrame_finish blt.1 sample a ([Action.Clear, Action.BeginScene] ++ blt.2)

/-- A sequence of `renderFrame` calls, each with its frame and the answers of
the platform: the renderer after the last call and the actions of each call,
or `none` when one of the calls has not returned. -/
def renderFrames (scale : SDL_Rect → SDL_Rect → SDL_Rect) (me : DXVA2Renderer) :
    List (Option AVFrame × FrameAnswers) → Option (DXVA2Renderer × List (List Action))
  | [] => some (me, [])
  | (frame, a) :: rest =>
    match renderFrame scale me frame a with
    | none => none
    | some (me', actions) =>
      (renderFrames scale me' rest).map (fun r => (r.1, actions :: r.2))

/-- The actions `renderFrame` has performed when it reaches `EndScene`: those
done before the raw copy, the raw copy when there is no processor, and the
overlay loop. -/
def drawnActions (me : DXVA2Renderer) (sample : DXVA2_VideoSample) (done : List Action) :
    List Action :=
  (if me.m_Processor.isNone then
      done ++ [Action.StretchRect sample.SrcSurface sample.SrcRect sample.DstRect]
    else done) ++ (List.range OverlayMax).map Action.renderOverlay

/-- The flags `renderFrame` passes to `PresentEx`:
`m_BlockingPresent ? D3DPRESENT_DONOTWAIT : 0`. -/
def presentFlags (me : DXVA2Renderer) : Nat :=
  if me.m_BlockingPresent then D3DPRESENT_DONOTWAIT else 0

/-- One of the calls before `PresentEx` fails: `Clear`, `BeginScene`, the raw
copy `StretchRect` (issued when `afterProcessor`, the renderer as the
`VideoProcessBlt` step leaves it, has no processor) or `EndScene`. -/
def FailsBeforePresent (afterProcessor : DXVA2Renderer) (a : FrameAnswers) : Prop :=
  FAILED a.Clear = true ∨ FAILED a.BeginScene = true
  ∨ (afterProcessor.m_Processor = none ∧ FAILED a.StretchRect = true)
  ∨ FAILED a.EndScene = true

/-- The present loop leaves with a failure. -/
def PresentFails (afterProcessor : DXVA2Renderer) (a : FrameAnswers) : Prop :=
  ∃ (hr : HRESULT) (pt : List Action),
    presentLoop (presentFlags afterProcessor) a.PresentEx = some (hr, pt) ∧ FAILED hr = true

/-- The number of render-targets-reset events among the actions of a call. -/
def resetEvents (actions : List Action) : Nat :=
  actions.count Action.SDL_PushEvent_RENDER_TARGETS_RESET

/-- The action is a `PresentEx` call. -/
def Action.isPresentEx : Action → Bool
  | Action.PresentEx _ => true
  | _ => false

/-- The action is a `VideoProcessBlt` call. -/
def Action.isVideoProcessBlt : Action → Bool
  | Action.VideoProcessBlt _ _ _ => true
  | _ => false

/-- The frame of a call was successfully presented: `PresentEx` was reached and
no render-targets-reset event was emitted. -/
def wasPresented (actions : List Action) : Bool :=
  actions.any Action.isPresentEx && resetEvents actions == 0

/-- How a call of a sequence draws its frame when it draws at all: it never
invokes `VideoProcessBlt`, and when the frame is non-null and `Clear` and
`BeginScene` succeed it issues the raw copy `StretchRect` of the frame's surface
with the given source and destination rectangles. -/
def DrawnByRawCopy (SrcRect DstRect : RECT) (input : Option AVFrame × FrameAnswers)
    (actions : List Action) : Prop :=
  (∀ x ∈ actions, x.isVideoProcessBlt = false)
  ∧ (∀ f : AVFrame, input.1 = some f → FAILED input.2.Clear = false →
      FAILED input.2.BeginScene = false →
      Action.StretchRect f.data3 SrcRect DstRect ∈ actions)

/-- Two renderers have the same video and display dimensions. -/
def SameGeometry (m m' : DXVA2Renderer) : Prop :=
  m'.m_VideoWidth = m.m_VideoWidth ∧ m'.m_VideoHeight = m.m_VideoHeight
  ∧ m'.m_DisplayWidth = m.m_DisplayWidth ∧ m'.m_DisplayHeight = m.m_DisplayHeight

/-- The number of non-null frames among the inputs of a call sequence. -/
def nonNullFrames (inputs : List (Option AVFrame × FrameAnswers)) : Nat :=
  (inputs.filter (fun i => i.1.isSome)).length

/-- The device-id ranges named for vendor `0x10DE`: `0x0FC0-0x0FFF`,
`0x1000-0x103F`, `0x1180-0x11BF`, `0x11C0-0x11FF`, `0x1280-0x12BF`,
`0x1340-0x137F`, `0x1380-0x13BF`, `0x13C0-0x13FF`, `0x1617-0x161A`, `0x1667`,
`0x17C0-0x17FF`. -/
def InNvidiaHybridRanges (deviceId : Nat) : Prop :=
  (0x0FC0 ≤ deviceId ∧ deviceId ≤ 0x0FFF) ∨ (0x1000 ≤ deviceId ∧ deviceId ≤ 0x103F) ∨
  (0x1180 ≤ deviceId ∧ deviceId ≤ 0x11BF) ∨ (0x11C0 ≤ deviceId ∧ deviceId ≤ 0x11FF) ∨
  (0x1280 ≤ deviceId ∧ deviceId ≤ 0x12BF) ∨ (0x1340 ≤ deviceId ∧ deviceId ≤ 0x137F) ∨
  (0x1380 ≤ deviceId ∧ deviceId ≤ 0x13BF) ∨ (0x13C0 ≤ deviceId ∧ deviceId ≤ 0x13FF) ∨
  (0x1617 ≤ deviceId ∧ deviceId ≤ 0x161A) ∨ deviceId = 0x1667 ∨
  (0x17C0 ≤ deviceId ∧ deviceId ≤ 0x17FF)

instance (deviceId : Nat) : Decidable (InNvidiaHybridRanges deviceId) := by
  unfold InNvidiaHybridRanges
  infer_instance

/-- The driver is below the buggy-driver threshold of the Intel branch: third
version component below 100 and fourth below 4836. -/
def BelowIntelDriverThreshold (id : D3DADAPTER_IDENTIFIER9) : Prop :=
  HIWORD id.DriverVersion.LowPart < 100 ∧ LOWORD id.DriverVersion.LowPart < 4836

instance (id : D3DADAPTER_IDENTIFIER9) : Decidable (BelowIntelDriverThreshold id) := by
  unfold BelowIntelDriverThreshold
  infer_instance

/-- The same renderer on an adapter that reports another driver version. -/
def DXVA2Renderer.withDriverVersion (me : DXVA2Renderer) (v : LARGE_INTEGER) : DXVA2Renderer :=
  { me with m_Device := { me.m_Device with id := { me.m_Device.id with DriverVersion := v } } }

/-! ### Device bring-up (`initializeDevice`, lines 573-732) -/

/-- SDL's `SDL_WINDOW_FULLSCREEN`. -/
def SDL_WINDOW_FULLSCREEN : Nat := 0x00000001
/-- SDL's `SDL_WINDOW_FULLSCREEN_DESKTOP`: `SDL_WINDOW_FULLSCREEN | 0x00001000`. -/
def SDL_WINDOW_FULLSCREEN_DESKTOP : Nat := 0x00001001
/-- Direct3D's `D3DPRESENT_INTERVAL_ONE`. -/
def D3DPRESENT_INTERVAL_ONE : Nat := 0x00000001
/-- Direct3D's `D3DPRESENT_INTERVAL_IMMEDIATE`. -/
def D3DPRESENT_INTERVAL_IMMEDIATE : Nat := 0x80000000
/-- Direct3D's `D3DSWAPEFFECT_DISCARD`. -/
def D3DSWAPEFFECT_DISCARD : Nat := 1
/-- Direct3D's `D3DSWAPEFFECT_FLIPEX`. -/
def D3DSWAPEFFECT_FLIPEX : Nat := 5
/-- Direct3D's `D3DPRESENTFLAG_VIDEO`. -/
def D3DPRESENTFLAG_VIDEO : Nat := 0x00000010
/-- Direct3D's `D3DFMT_UNKNOWN`. -/
def D3DFMT_UNKNOWN : Nat := 0
/-- Direct3D's `D3DFMT_A2R10G10B10`. -/
def D3DFMT_A2R10G10B10 : Nat := 35
/-- Direct3D's `D3DCREATE_MULTITHREADED`. -/
def D3DCREATE_MULTITHREADED : Nat := 0x00000004
/-- Direct3D's `D3DCREATE_SOFTWARE_VERTEXPROCESSING`. -/
def D3DCREATE_SOFTWARE_VERTEXPROCESSING : Nat := 0x00000020
/-- Direct3D's `D3DCREATE_HARDWARE_VERTEXPROCESSING`. -/
def D3DCREATE_HARDWARE_VERTEXPROCESSING : Nat := 0x00000040
/-- Direct3D's `D3DDEVCAPS_HWTRANSFORMANDLIGHT`. -/
def D3DDEVCAPS_HWTRANSFORMANDLIGHT : Nat := 0x00010000

/-- The fields of `D3DDISPLAYMODEEX` that `initializeDevice` reads. -/
structure D3DDISPLAYMODEEX where
  Width : Nat := 0
  Height : Nat := 0
  RefreshRate : Nat := 0
  Format : Nat := 0
  deriving DecidableEq, Repr

/-- Direct3D's `D3DPRESENT_PARAMETERS`, zero-initialised by `d3dpp = {}`. -/
structure D3DPRESENT_PARAMETERS where
  BackBufferWidth : Nat := 0
  BackBufferHeight : Nat := 0
  BackBufferFormat : Nat := 0
  BackBufferCount : Nat := 0
  SwapEffect : Nat := 0
  hDeviceWindow : Nat := 0
  Windowed : Bool := false
  Flags : Nat := 0
  FullScreen_RefreshRateInHz : Nat := 0
  PresentationInterval : Nat := 0
  deriving DecidableEq, Repr

/-- What the platform answers to the calls of `initializeDevice`: the results of
`Direct3DCreate9Ex`, `SDL_GetWindowFlags`, `GetDeviceCaps` (its `DevCaps`),
`GetAdapterDisplayModeEx`, `CheckDeviceType`, `SDL_GetWindowSize`, the window
handle, `DwmIsCompositionEnabled`, `CreateDeviceEx` with the device it creates,
and `SetMaximumFrameLatency`. -/
structure DeviceAnswers where
  Direct3DCreate9Ex : HRESULT
  windowFlags : Nat
  DevCaps : Nat
  currentMode : D3DDISPLAYMODEEX
  CheckDeviceType : HRESULT
  windowWidth : Nat
  windowHeight : Nat
  window : Nat
  dwmEnabled : Bool
  CreateDeviceEx : HRESULT
  device : IDirect3DDevice9Ex
  SetMaximumFrameLatency : HRESULT
  deriving DecidableEq, Repr

/-- The arguments `initializeDevice` hands to `CreateDeviceEx`: the device
flags, the present parameters, and the full-screen display mode (`nullptr`, here
`none`, when windowed). -/
structure CreateDeviceExCall where
  deviceFlags : Nat
  d3dpp : D3DPRESENT_PARAMETERS
  fullscreenMode : Option D3DDISPLAYMODEEX
  deriving DecidableEq, Repr

/-- Lines 599-637 of `initializeDevice`: the present parameters after the
window-mode branch, and `currentMode` as that branch leaves it. -/
def initializeDevice_windowMode (c : Limelight) (me : DXVA2Renderer) (a : DeviceAnswers) :
    D3DPRESENT_PARAMETERS × D3DDISPLAYMODEEX :=
  let d3dpp : D3DPRESENT_PARAMETERS :=
    { hDeviceWindow := a.window, Flags := D3DPRESENTFLAG_VIDEO }
  if a.windowFlags &&& SDL_WINDOW_FULLSCREEN_DESKTOP = SDL_WINDOW_FULLSCREEN then
    let d3dpp := { d3dpp with
      Windowed := false
      BackBufferWidth := a.currentMode.Width
      BackBufferHeight := a.currentMode.Height
      FullScreen_RefreshRateInHz := a.currentMode.RefreshRate }
    if me.m_VideoFormat = c.VIDEO_FORMAT_H265_MAIN10 then
      ({ d3dpp with BackBufferFormat := D3DFMT_A2R10G10B10 },
       { a.currentMode with Format := D3DFMT_A2R10G10B10 })
    else
      ({ d3dpp with BackBufferFormat := a.currentMode.Format }, a.currentMode)
  else
    ({ d3dpp with
        Windowed := true
        BackBufferFormat := D3DFMT_UNKNOWN
        BackBufferWidth := a.windowWidth
        BackBufferHeight := a.windowHeight }, a.currentMode)

/-- Lines 639-687 of `initializeDevice`: the swap-chain decision. Given the
present parameters of the window-mode branch, whether DWM composition is
enabled and whether V-sync was asked for, the present parameters with
`PresentationInterval`, `SwapEffect` and `BackBufferCount` set, and the value
stored in `m_BlockingPresent`. -/
def initializeDevice_swapChain (d3dpp : D3DPRESENT_PARAMETERS) (dwmEnabled enableVsync : Bool) :
    D3DPRESENT_PARAMETERS × Bool :=
  if d3dpp.Windowed ∧ dwmEnabled then
    if enableVsync then
      ({ d3dpp with
          PresentationInterval := D3DPRESENT_INTERVAL_IMMEDIATE
          SwapEffect := D3DSWAPEFFECT_FLIPEX
          BackBufferCount := 2 }, false)
    else
      ({ d3dpp with
          PresentationInterval := D3DPRESENT_INTERVAL_IMMEDIATE
          SwapEffect := D3DSWAPEFFECT_DISCARD
          BackBufferCount := 1 }, false)
  else if enableVsync then
    ({ d3dpp with
        PresentationInterval := D3DPRESENT_INTERVAL_ONE
        SwapEffect := D3DSWAPEFFECT_DISCARD
        BackBufferCount := 1 }, true)
  else
    ({ d3dpp with
        PresentationInterval := D3DPRESENT_INTERVAL_IMMEDIATE
        SwapEffect := D3DSWAPEFFECT_DISCARD
        BackBufferCount := 1 }, false)

/-- `DXVA2Renderer::initializeDevice`: its return value, the renderer after the
call, and the `CreateDeviceEx` call it issued (`none` when it returned before).
`m_BlockingPresent` is written before `CreateDeviceEx`; `m_Device` is the
created device when `CreateDeviceEx` succeeds. -/
def initializeDevice (c : Limelight) (me : DXVA2Renderer) (a : DeviceAnswers)
    (enableVsync : Bool) : Bool × DXVA2Renderer × Option CreateDeviceExCall :=
  if FAILED a.Direct3DCreate9Ex then
    (false, me, none)
  else if me.m_VideoFormat = c.VIDEO_FORMAT_H265_MAIN10 ∧ FAILED a.CheckDeviceType then
    (false, me, none)
  else
    let mode := initializeDevice_windowMode c me a
    let swap := initializeDevice_swapChain mode.1 a.dwmEnabled enableVsync
    let d3dpp := swap.1
    let me := { me with m_BlockingPresent := swap.2 }
    let deviceFlags :=
      if a.DevCaps &&& D3DDEVCAPS_HWTRANSFORMANDLIGHT ≠ 0 then
        D3DCREATE_MULTITHREADED ||| D3DCREATE_HARDWARE_VERTEXPROCESSING
      else
        D3DCREATE_MULTITHREADED ||| D3DCREATE_SOFTWARE_VERTEXPROCESSING
    let call : CreateDeviceExCall :=
      { deviceFlags := deviceFlags
        d3dpp := d3dpp
        fullscreenMode := if d3dpp.Windowed then none else some mode.2 }
    if FAILED a.CreateDeviceEx then
      (false, me, some call)
    else
      let me := { me with m_Device := a.device }
      if FAILED a.SetMaximumFrameLatency then
        (false, me, some call)
      else
        (true, me, some call)

/-! ### Decoder negotiation (`initializeDecoder`, lines 148-268) -/

/-- What the platform answers to the calls of `initializeDecoder`: the results
of `DXVA2CreateVideoService`, `GetDecoderDeviceGuids` with the enumerated
profile identifiers, `GetDecoderConfigurations` with the enumerated
configurations, `CreateSurface` and `CreateVideoDecoder`. -/
structure DecoderAnswers where
  DXVA2CreateVideoService : HRESULT
  GetDecoderDeviceGuids : HRESULT
  guids : List GUID
  GetDecoderConfigurations : HRESULT
  configs : List DXVA2_ConfigPictureDecode
  CreateSurface : HRESULT
  CreateVideoDecoder : HRESULT
  deriving DecidableEq, Repr

/-- The profile loop of `initializeDecoder` (lines 176-202) over the identifiers
not yet visited: the `chosenDeviceGuid` it breaks with and the value of
`m_DXVAContext.workaround` at that point, or `none` when it runs to
`i == guidCount`. -/
def initializeDecoder_chooseGuid (c : Limelight) (m_VideoFormat : Nat) (workaround : Nat) :
    List GUID → Option (GUID × Nat)
  | [] => none
  | guid :: rest =>
    if m_VideoFormat = c.VIDEO_FORMAT_H264 then
      if guid = DXVA2_ModeH264_E ∨ guid = DXVA2_ModeH264_F then
        some (guid, workaround)
      else if guid = DXVADDI_Intel_ModeH264_E then
        some (guid, workaround ||| FF_DXVA2_WORKAROUND_INTEL_CLEARVIDEO)
      else initializeDecoder_chooseGuid c m_VideoFormat workaround rest
    else if m_VideoFormat = c.VIDEO_FORMAT_H265 then
      if guid = DXVA2_ModeHEVC_VLD_Main then
        some (guid, workaround)
      else initializeDecoder_chooseGuid c m_VideoFormat workaround rest
    else if m_VideoFormat = c.VIDEO_FORMAT_H265_MAIN10 then
      if guid = DXVA2_ModeHEVC_VLD_Main10 then
        some (guid, workaround)
      else initializeDecoder_chooseGuid c m_VideoFormat workaround rest
    else initializeDecoder_chooseGuid c m_VideoFormat workaround rest

/-- The configuration loop of `initializeDecoder` (lines 222-228): the first
configuration with raw bitstream mode 1 or 2 and no encryption. -/
def initializeDecoder_chooseConfig :
    List DXVA2_ConfigPictureDecode → Option DXVA2_ConfigPictureDecode
  | [] => none
  | config :: rest =>
    if (config.ConfigBitstreamRaw = 1 ∨ config.ConfigBitstreamRaw = 2)
        ∧ config.guidConfigBitstreamEncryption = DXVA2_NoEncrypt then
      some config
    else initializeDecoder_chooseConfig rest

/-- The conditions of the two `SDL_assert` of `initializeDecoder`
(lines 239-240). -/
def initializeDecoder_asserts (me : DXVA2Renderer) : Prop :=
  me.m_Desc.SampleWidth % 16 = 0 ∧ me.m_Desc.SampleHeight % 16 = 0

/-- `DXVA2Renderer::initializeDecoder`: its return value, the renderer after the
call, and the local `chosenDeviceGuid` once the profile loop has chosen one.
The surfaces `CreateSurface` stores in `m_DecSurfaces` belong to the surface
pool and are not part of this record. -/
def initializeDecoder (c : Limelight) (qgetenv : Environment) (me : DXVA2Renderer)
    (a : DecoderAnswers) : Bool × DXVA2Renderer × Option GUID :=
  if isDecoderBlacklisted c qgetenv me then
    (false, me, none)
  else if FAILED a.DXVA2CreateVideoService then
    (false, me, none)
  else if FAILED a.GetDecoderDeviceGuids then
    (false, me, none)
  else
    match initializeDecoder_chooseGuid c me.m_VideoFormat me.m_DXVAContext.workaround a.guids with
    | none => (false, me, none)
    | some (chosenDeviceGuid, workaround) =>
      let me := { me with m_DXVAContext := { me.m_DXVAContext with workaround := workaround } }
      if FAILED a.GetDecoderConfigurations then
        (false, me, some chosenDeviceGuid)
      else
        match initializeDecoder_chooseConfig a.configs with
        | none => (false, me, some chosenDeviceGuid)
        | some config =>
          let me := { me with m_Config := config }
          if FAILED a.CreateSurface then
            (false, me, some chosenDeviceGuid)
          else if FAILED a.CreateVideoDecoder then
            (false, me, some chosenDeviceGuid)
          else
            (true, me, some chosenDeviceGuid)

/-- A profile identifier is acceptable for a video format: for H.264,
`DXVA2_ModeH264_E`, `DXVA2_ModeH264_F` or the Intel-specific
`DXVADDI_Intel_ModeH264_E`; for HEVC Main, `DXVA2_ModeHEVC_VLD_Main`; for HEVC
Main10, `DXVA2_ModeHEVC_VLD_Main10`. -/
def AcceptableProfile (c : Limelight) (videoFormat : Nat) (guid : GUID) : Prop :=
  (videoFormat = c.VIDEO_FORMAT_H264
    ∧ (guid = DXVA2_ModeH264_E ∨ guid = DXVA2_ModeH264_F ∨ guid = DXVADDI_Intel_ModeH264_E))
  ∨ (videoFormat = c.VIDEO_FORMAT_H265 ∧ guid = DXVA2_ModeHEVC_VLD_Main)
  ∨ (videoFormat = c.VIDEO_FORMAT_H265_MAIN10 ∧ guid = DXVA2_ModeHEVC_VLD_Main10)

instance (c : Limelight) (videoFormat : Nat) (guid : GUID) :
    Decidable (AcceptableProfile c videoFormat guid) := by
  unfold AcceptableProfile
  infer_instance

/-! ### Renderer set-up (`initializeRenderer`, lines 270-367) -/

/-- `DXVA2_VPDev_HardwareDevice`. -/
def DXVA2_VPDev_HardwareDevice : Nat := 0x0001
/-- `DXVA2_VideoProcess_YUV2RGB`. -/
def DXVA2_VideoProcess_YUV2RGB : Nat := 0x0001
/-- `DXVA2_VideoProcess_StretchX`. -/
def DXVA2_VideoProcess_StretchX : Nat := 0x0002
/-- `DXVA2_VideoProcess_StretchY`. -/
def DXVA2_VideoProcess_StretchY : Nat := 0x0004
/-- `DXVA2_VideoProcess_YUV2RGBExtended`. -/
def DXVA2_VideoProcess_YUV2RGBExtended : Nat := 0x0080

/-- The fields of `DXVA2_VideoProcessorCaps` that `initializeRenderer` reads. -/
structure DXVA2_VideoProcessorCaps where
  DeviceCaps : Nat
  VideoProcessorOperations : Nat
  deriving DecidableEq, Repr

/-- What the platform answers to the calls of `initializeRenderer`: the results
of `GetBackBuffer`, the size in the render target's description,
`DXVA2CreateVideoService`, `GetVideoProcessorCaps` with the capabilities it
reports, and `CreateVideoProcessor` with the processor it creates. -/
structure RendererAnswers where
  GetBackBuffer : HRESULT
  renderTargetWidth : Nat
  renderTargetHeight : Nat
  DXVA2CreateVideoService : HRESULT
  GetVideoProcessorCaps : HRESULT
  caps : DXVA2_VideoProcessorCaps
  CreateVideoProcessor : HRESULT
  processor : IDirectXVideoProcessor
  deriving DecidableEq, Repr

/-- `DXVA2Renderer::initializeRenderer`: its return value and the renderer after
the call. The render and sampler states set at the end and the proc-amp ranges
read on the way influence nothing modelled here. -/
def initializeRenderer (qgetenv : Environment) (me : DXVA2Renderer) (a : RendererAnswers) :
    Bool × DXVA2Renderer :=
  if FAILED a.GetBackBuffer then
    (false, me)
  else
    let me := { me with
      m_DisplayWidth := a.renderTargetWidth
      m_DisplayHeight := a.renderTargetHeight }
    if !isDXVideoProcessorAPIBlacklisted qgetenv me then
      if FAILED a.DXVA2CreateVideoService then
        (false, me)
      else if FAILED a.GetVideoProcessorCaps then
        (false, me)
      else if a.caps.DeviceCaps &&& DXVA2_VPDev_HardwareDevice = 0 then
        (false, me)
      else if a.caps.VideoProcessorOperations &&& DXVA2_VideoProcess_YUV2RGB = 0
          ∧ a.caps.VideoProcessorOperations &&& DXVA2_VideoProcess_YUV2RGBExtended = 0 then
        (false, me)
      else if a.caps.VideoProcessorOperations &&& DXVA2_VideoProcess_StretchX = 0
          ∨ a.caps.VideoProcessorOperations &&& DXVA2_VideoProcess_StretchY = 0 then
        (false, me)
      else if FAILED a.CreateVideoProcessor then
        (false, me)
      else
        (true, { me with m_Processor := some a.processor })
    else
      (true, me)

/-- The capability query reports a processor that `initializeRenderer`
rejects: not hardware-backed, or neither YUV-to-RGB operation, or no horizontal
or no vertical stretch. -/
def LacksProcessorCapability (caps : DXVA2_VideoProcessorCaps) : Prop :=
  caps.DeviceCaps &&& DXVA2_VPDev_HardwareDevice = 0
  ∨ (caps.VideoProcessorOperations &&& DXVA2_VideoProcess_YUV2RGB = 0
      ∧ caps.VideoProcessorOperations &&& DXVA2_VideoProcess_YUV2RGBExtended = 0)
  ∨ (caps.VideoProcessorOperations &&& DXVA2_VideoProcess_StretchX = 0
      ∨ caps.VideoProcessorOperations &&& DXVA2_VideoProcess_StretchY = 0)

instance (caps : DXVA2_VideoProcessorCaps) : Decidable (LacksProcessorCapability caps) := by
  unfold LacksProcessorCapability
  infer_instance

/-! ### `initialize` (lines 734-793) -/

/-- FFmpeg's `FFALIGN(x, a)` macro: `(((x)+(a)-1)&~((a)-1))`, on C `int`s. -/
def FFALIGN (x a : Int) : Int := Int.land (x + a - 1) (Int.not (a - 1))

/-- The `D3DFORMAT` `MAKEFOURCC('P','0','1','0')`. -/
def FOURCC_P010 : Nat := 0x30313050
/-- The `D3DFORMAT` `MAKEFOURCC('N','V','1','2')`. -/
def FOURCC_NV12 : Nat := 0x3231564E

/-- The fields of `DECODER_PARAMETERS` that `initialize` reads (the window is
part of the platform's answers). -/
structure DECODER_PARAMETERS where
  videoFormat : Nat
  width : Int
  height : Int
  enableVsync : Bool
  deriving DecidableEq, Repr

/-- The answers of the platform to the three stages of `initialize`. -/
structure InitializeAnswers where
  device : DeviceAnswers
  decoder : DecoderAnswers
  renderer : RendererAnswers
  deriving DecidableEq, Repr

/-- Lines 742-754 of `initialize`: the local `alignment`. -/
def initialize_alignment (c : Limelight) (m_VideoFormat : Nat) : Int :=
  if m_VideoFormat &&& c.VIDEO_FORMAT_MASK_H265 ≠ 0 then 32 else 16

/-- Lines 736-771 of `initialize`: the renderer with the stream parameters
stored and `m_Desc` filled in. `SampleWidth` and `SampleHeight` are `UINT`, so
the `int` value of `FFALIGN` is stored modulo `2^32`. -/
def initialize_desc (c : Limelight) (me : DXVA2Renderer) (params : DECODER_PARAMETERS) :
    DXVA2Renderer :=
  let alignment : Int := initialize_alignment c params.videoFormat
  { me with
    m_VideoFormat := params.videoFormat
    m_VideoWidth := params.width
    m_VideoHeight := params.height
    m_Desc :=
      { SampleWidth := FFALIGN params.width alignment % 2 ^ 32
        SampleHeight := FFALIGN params.height alignment % 2 ^ 32
        SampleFormat :=
          { VideoChromaSubsampling := DXVA2_VideoChromaSubsampling_Unknown
            NominalRange := DXVA2_NominalRange_Unknown
            VideoTransferMatrix := DXVA2_VideoTransferMatrix_Unknown
            VideoLighting := DXVA2_VideoLighting_Unknown
            VideoPrimaries := DXVA2_VideoPrimaries_Unknown
            VideoTransferFunction := DXVA2_VideoTransFunc_Unknown
            SampleFormat := DXVA2_SampleProgressiveFrame }
        Format :=
          if params.videoFormat = c.VIDEO_FORMAT_H265_MAIN10 then FOURCC_P010
          else FOURCC_NV12 } }

/-- `DXVA2Renderer::initialize` (the bare name is reserved in Lean): its return
value and the renderer after the call. -/
def initializeDXVA2 (c : Limelight) (qgetenv : Environment) (me : DXVA2Renderer)
    (params : DECODER_PARAMETERS) (a : InitializeAnswers) : Bool × DXVA2Renderer :=
  let me := initialize_desc c me params
  let dev := initializeDevice c me a.device params.enableVsync
  if !dev.1 then
    (false, dev.2.1)
  else
    let dec := initializeDecoder c qgetenv dev.2.1 a.decoder
    if !dec.1 then
      (false, dec.2.1)
    else
      initializeRenderer qgetenv dec.2.1 a.renderer

/-! ### Overlay update (`notifyOverlayUpdated`, lines 795-930) -/

/-- The fields of an `SDL_Surface` that `notifyOverlayUpdated` reads. -/
structure SDL_Surface where
  w : Int
  h : Int
  pitch : Int
  deriving DecidableEq, Repr

/-- A `VERTEX` of the overlay quad; its coordinates are whole numbers stored in
`float` fields. -/
structure VERTEX where
  x : Int
  y : Int
  z : Int
  rhw : Int
  tu : Int
  tv : Int
  deriving DecidableEq, Repr

/-- What the overlay manager and the platform answer to the calls of one
`notifyOverlayUpdated`: `getUpdatedOverlaySurface` (a null surface is `none`),
`isOverlayEnabled` at line 800 and again at line 817, `CreateTexture` with the
texture it creates, `LockRect` with the pitch of the locked rectangle,
`CreateVertexBuffer` with the buffer it creates, and `Lock`. -/
structure OverlayAnswers where
  getUpdatedOverlaySurface : Option SDL_Surface
  isOverlayEnabled : Bool
  isOverlayEnabledAgain : Bool
  CreateTexture : HRESULT
  newTexture : IDirect3DTexture9
  LockRect : HRESULT
  lockedPitch : Int
  CreateVertexBuffer : HRESULT
  newVertexBuffer : IDirect3DVertexBuffer9
  Lock : HRESULT
  deriving DecidableEq, Repr

/-- The outward actions of `notifyOverlayUpdated`, in the order it performs
them. `SDL_AtomicUnlock` is annotated with the two overlay arrays as they are
when the lock is released. `RtlCopyMemory` carries the byte offsets into
destination and source and the length. -/
inductive OverlayAction where
  | SDL_AtomicLock
  | SDL_AtomicUnlock (m_OverlayTextures : List (Option IDirect3DTexture9))
      (m_OverlayVertexBuffers : List (Option IDirect3DVertexBuffer9))
  | ReleaseTexture (texture : IDirect3DTexture9)
  | ReleaseVertexBuffer (vertexBuffer : IDirect3DVertexBuffer9)
  | SDL_FreeSurface
  | CreateTexture (w h : Int)
  | LockRect
  | RtlCopyMemory (dstOffset srcOffset length : Int)
  | UnlockRect
  | CreateVertexBuffer
  | Lock
  | WriteVertices (verts : List VERTEX)
  | Unlock
  deriving DecidableEq, Repr

/-- `SAFE_COM_RELEASE` on a texture pointer: a release when it is not null. -/
def SAFE_COM_RELEASE_texture : Option IDirect3DTexture9 → List OverlayAction
  | some p => [OverlayAction.ReleaseTexture p]
  | none => []

/-- `SAFE_COM_RELEASE` on a vertex buffer pointer: a release when it is not null. -/
def SAFE_COM_RELEASE_vertexBuffer : Option IDirect3DVertexBuffer9 → List OverlayAction
  | some p => [OverlayAction.ReleaseVertexBuffer p]
  | none => []

/-- Lines 852-864 of `notifyOverlayUpdated`: one copy of `pitch * h` bytes when
the pitches agree, otherwise one copy per row of the smaller pitch. -/
def notifyOverlayUpdated_copyPixels (newSurface : SDL_Surface) (lockedPitch : Int) :
    List OverlayAction :=
  if newSurface.pitch = lockedPitch then
    [OverlayAction.RtlCopyMemory 0 0 (newSurface.pitch * newSurface.h)]
  else
    (List.range newSurface.h.toNat).map (fun i =>
      OverlayAction.RtlCopyMemory (lockedPitch * i) (newSurface.pitch * i)
        (min newSurface.pitch lockedPitch))

/-- Lines 868-894 of `notifyOverlayUpdated`: the quad of the overlay, anchored
bottom left for the status overlay and top left otherwise. -/
def notifyOverlayUpdated_verts (me : DXVA2Renderer) (type : OverlayType)
    (newSurface : SDL_Surface) : List VERTEX :=
  let x : Int := 0
  let y : Int := if type = OverlayStatusUpdate then me.m_DisplayHeight - newSurface.h else 0
  let w := newSurface.w
  let h := newSurface.h
  [⟨x, y, 0, 1, 0, 0⟩, ⟨x, y + h, 0, 1, 0, 1⟩, ⟨x + w, y + h, 0, 1, 1, 1⟩, ⟨x + w, y, 0, 1, 1, 0⟩]

/-- `DXVA2Renderer::notifyOverlayUpdated`: the renderer after the call and the
actions performed. The result is `none` when the function dereferences a null
`newSurface` (no surface, overlay reported disabled at line 800 and enabled at
line 817). -/
def notifyOverlayUpdated (me : DXVA2Renderer) (type : OverlayType) (a : OverlayAnswers) :
    Option (DXVA2Renderer × List OverlayAction) :=
  if a.getUpdatedOverlaySurface.isNone ∧ a.isOverlayEnabled then
    some (me, [])
  else
    let oldTexture := me.m_OverlayTextures.getD type none
    let oldVertexBuffer := me.m_OverlayVertexBuffers.getD type none
    let me := { me with
      m_OverlayTextures := me.m_OverlayTextures.set type none
      m_OverlayVertexBuffers := me.m_OverlayVertexBuffers.set type none }
    let done := [OverlayAction.SDL_AtomicLock,
        OverlayAction.SDL_AtomicUnlock me.m_OverlayTextures me.m_OverlayVertexBuffers]
      ++ SAFE_COM_RELEASE_texture oldTexture ++ SAFE_COM_RELEASE_vertexBuffer oldVertexBuffer
    if !a.isOverlayEnabledAgain then
      some (me, done ++ [OverlayAction.SDL_FreeSurface])
    else
      match a.getUpdatedOverlaySurface with
      | none => none
      | some newSurface =>
        let done := done ++ [OverlayAction.CreateTexture newSurface.w newSurface.h]
        if FAILED a.CreateTexture then
          some (me, done ++ [OverlayAction.SDL_FreeSurface])
        else if FAILED a.LockRect then
          some (me, done ++ [OverlayAction.LockRect, OverlayAction.SDL_FreeSurface,
                             OverlayAction.ReleaseTexture a.newTexture])
        else
          let done := done ++ [OverlayAction.LockRect]
            ++ notifyOverlayUpdated_copyPixels newSurface a.lockedPitch
            ++ [OverlayAction.UnlockRect, OverlayAction.SDL_FreeSurface,
                OverlayAction.CreateVertexBuffer]
          if FAILED a.CreateVertexBuffer then
            some (me, done ++ [OverlayAction.ReleaseTexture a.newTexture])
          else if FAILED a.Lock then
            some (me, done ++ [OverlayAction.Lock, OverlayAction.ReleaseTexture a.newTexture,
                               OverlayAction.ReleaseVertexBuffer a.newVertexBuffer])
          else
            let me := { me with
              m_OverlayVertexBuffers := me.m_OverlayVertexBuffers.set type (some a.newVertexBuffer)
              m_OverlayTextures := me.m_OverlayTextures.set type (some a.newTexture) }
            some (me, done ++ [OverlayAction.Lock,
              OverlayAction.WriteVertices (notifyOverlayUpdated_verts me type newSurface),
              OverlayAction.Unlock, OverlayAction.SDL_AtomicLock,
              OverlayAction.SDL_AtomicUnlock me.m_OverlayTextures me.m_OverlayVertexBuffers])

/-- The live (texture, vertex buffer) pair of an overlay layer. -/
def DXVA2Renderer.overlayLayer (me : DXVA2Renderer) (type : OverlayType) :
    Option IDirect3DTexture9 × Option IDirect3DVertexBuffer9 :=
  (me.m_OverlayTextures.getD type none, me.m_OverlayVertexBuffers.getD type none)

/-- One of the four resource calls of an overlay update fails: texture
creation, texture locking, vertex-buffer creation or vertex-buffer locking. -/
def OverlayResourceFails (a : OverlayAnswers) : Prop :=
  FAILED a.CreateTexture = true ∨ FAILED a.LockRect = true
  ∨ FAILED a.CreateVertexBuffer = true ∨ FAILED a.Lock = true

instance (a : OverlayAnswers) : Decidable (OverlayResourceFails a) := by
  unfold OverlayResourceFails
  infer_instance

/-! ### Overlay layers over time (constructor, update sequences, `renderOverlay`) -/

/-- The renderer as the constructor `DXVA2Renderer::DXVA2Renderer()` leaves it
(lines 30-50): no processor, frame index 0, non-blocking present, and both
overlay arrays zeroed by `RtlZeroMemory`. `device` is what the device created
later will answer, and `videoFormat` the value `initialize` will store. -/
def DXVA2Renderer.constructed (device : IDirect3DDevice9Ex) (videoFormat : Nat) :
    DXVA2Renderer :=
  { m_Device := device
    m_VideoFormat := videoFormat
    m_Processor := none
    m_FrameIndex := 0
    m_BlockingPresent := false
    m_OverlayTextures := List.replicate OverlayMax none
    m_OverlayVertexBuffers := List.replicate OverlayMax none }

/-- The pairing of the two overlay arrays: both have their declared length
`Overlay::OverlayMax`, and for every overlay type the texture is null exactly
when the vertex buffer is null. -/
def OverlayPaired (textures : List (Option IDirect3DTexture9))
    (vertexBuffers : List (Option IDirect3DVertexBuffer9)) : Prop :=
  textures.length = OverlayMax ∧ vertexBuffers.length = OverlayMax
  ∧ ∀ type : OverlayType, type < OverlayMax →
      ((textures.getD type none).isNone = true ↔ (vertexBuffers.getD type none).isNone = true)

instance (textures : List (Option IDirect3DTexture9))
    (vertexBuffers : List (Option IDirect3DVertexBuffer9)) :
    Decidable (OverlayPaired textures vertexBuffers) := by
  unfold OverlayPaired
  infer_instance

/-- A sequence of `notifyOverlayUpdated` calls, each with its overlay type and
the answers it gets: the renderer after the last call and the actions of all
calls in order, or `none` when one of the calls dereferences a null surface. -/
def notifyOverlayUpdates (me : DXVA2Renderer) :
    List (OverlayType × OverlayAnswers) → Option (DXVA2Renderer × List OverlayAction)
  | [] => some (me, [])
  | (type, a) :: rest =>
    match notifyOverlayUpdated me type a with
    | none => none
    | some (me', actions) =>
      (notifyOverlayUpdates me' rest).map (fun r => (r.1, actions ++ r.2))

/-- What the overlay manager and the platform answer to the calls of one
`renderOverlay`: `isOverlayEnabled`, `SDL_AtomicTryLock`, `SetTexture`,
`SetStreamSource` and `DrawPrimitive`. -/
structure RenderOverlayAnswers where
  isOverlayEnabled : Bool
  SDL_AtomicTryLock : Bool
  SetTexture : HRESULT
  SetStreamSource : HRESULT
  DrawPrimitive : HRESULT
  deriving DecidableEq, Repr

/-- The outward actions of `renderOverlay`, in the order it performs them. -/
inductive OverlayDrawAction where
  | SDL_AtomicTryLock
  | SDL_AtomicUnlock
  | AddRefTexture (texture : IDirect3DTexture9)
  | AddRefVertexBuffer (vertexBuffer : IDirect3DVertexBuffer9)
  | SetTexture (texture : IDirect3DTexture9)
  | SetStreamSource (vertexBuffer : IDirect3DVertexBuffer9)
  | DrawPrimitive
  | ReleaseTexture (texture : IDirect3DTexture9)
  | ReleaseVertexBuffer (vertexBuffer : IDirect3DVertexBuffer9)
  deriving DecidableEq, Repr

/-- `DXVA2Renderer::renderOverlay` (lines 932-988): the actions performed, or
`none` when `SDL_assert(overlayVertexBuffer != nullptr)` (line 955) fails. The
function writes no member of the renderer. -/
def renderOverlay (me : DXVA2Renderer) (type : OverlayType) (a : RenderOverlayAnswers) :
    Option (List OverlayDrawAction) :=
  if !a.isOverlayEnabled then
    some []
  else if !a.SDL_AtomicTryLock then
    some [OverlayDrawAction.SDL_AtomicTryLock]
  else
    match me.m_OverlayTextures.getD type none with
    | none => some [OverlayDrawAction.SDL_AtomicTryLock, OverlayDrawAction.SDL_AtomicUnlock]
    | some overlayTexture =>
      match me.m_OverlayVertexBuffers.getD type none with
      | none => none
      | some overlayVertexBuffer =>
        let done := [OverlayDrawAction.SDL_AtomicTryLock,
          OverlayDrawAction.AddRefTexture overlayTexture,
          OverlayDrawAction.AddRefVertexBuffer overlayVertexBuffer,
          OverlayDrawAction.SDL_AtomicUnlock,
          OverlayDrawAction.SetTexture overlayTexture]
        let Exit := [OverlayDrawAction.ReleaseTexture overlayTexture,
          OverlayDrawAction.ReleaseVertexBuffer overlayVertexBuffer]
        if FAILED a.SetTexture then
          some (done ++ Exit)
        else if FAILED a.SetStreamSource then
          some (done ++ [OverlayDrawAction.SetStreamSource overlayVertexBuffer] ++ Exit)
        else
          some (done ++ [OverlayDrawAction.SetStreamSource overlayVertexBuffer,
            OverlayDrawAction.DrawPrimitive] ++ Exit)

/-! ### Concrete inputs -/

/-- Every allocation of `av_buffer_create` succeeds. -/
def allocationNeverFails : Nat → Bool := fun _ => true

/-- The allocation of `av_buffer_create` fails in the second call of
`ffPoolAlloc` and succeeds in every other call. -/
def secondAllocationFails : Nat → Bool := fun k => decide (k ≠ 1)

/-- The allocation of `av_buffer_create` fails in the first call of
`ffPoolAlloc` and succeeds in every other call. -/
def firstAllocationFails : Nat → Bool := fun k => decide (k ≠ 0)

/-- An environment in which no variable is set. -/
def emptyEnvironment : Environment := fun _ => ""

/-- A renderer whose adapter queries all succeed (`S_OK`) and report the given
vendor id, device id and low part of the driver version, initialised for the
given video format, with no video processor. -/
def rendererOn (vendorId deviceId driverLowPart videoFormat : Nat) : DXVA2Renderer :=
  { m_Device :=
      { GetDirect3D := 0
        GetDeviceCaps := 0
        GetAdapterIdentifier := 0
        id := { VendorId := vendorId
                DeviceId := deviceId
                DriverVersion := { HighPart := 0, LowPart := driverLowPart } } }
    m_VideoFormat := videoFormat
    m_Processor := none
    m_FrameIndex := 0
    m_BlockingPresent := false }

/-- A stand-in for `StreamUtils::scaleSourceToDestinationSurface` that leaves
`dst` as it is (right when source and display have the same shape). -/
def keepDestination : SDL_Rect → SDL_Rect → SDL_Rect := fun _ dst => dst

/-- A renderer on an AMD adapter (`0x1002`) streaming HEVC Main at 1280x720 to
a 1280x720 display, holding a video processor. -/
def amdRendererWithProcessor : DXVA2Renderer :=
  { rendererOn 0x1002 0x73BF 0 limelightH.VIDEO_FORMAT_H265 with
    m_Processor := some 5
    m_VideoWidth := 1280
    m_VideoHeight := 720
    m_DisplayWidth := 1280
    m_DisplayHeight := 720 }

/-- Device answers of a frame in which every call succeeds at once. -/
def allSucceed : FrameAnswers :=
  { Clear := 0, BeginScene := 0, VideoProcessBlt := 0, StretchRect := 0, EndScene := 0,
    PresentEx := [0] }

/-- Device answers of a frame in which `VideoProcessBlt` fails (`E_FAIL`) and
every other call succeeds. -/
def processorFails : FrameAnswers :=
  { allSucceed with VideoProcessBlt := -2147467259 }

/-- A frame tagged full range, BT.470BG primaries, sRGB transfer, SMPTE170M
matrix and left chroma siting. -/
def taggedFrame : AVFrame :=
  { data3 := 77
    color_range := AVCOL_RANGE_JPEG
    color_primaries := AVCOL_PRI_BT470BG
    color_trc := AVCOL_TRC_IEC61966_2_1
    colorspace := AVCOL_SPC_SMPTE170M
    chroma_location := AVCHROMA_LOC_LEFT }

/-- Device answers of a frame whose `Clear` fails (`E_FAIL`). -/
def clearFails : FrameAnswers :=
  { allSucceed with Clear := -2147467259 }

/-- Device answers of a frame whose `EndScene` fails (`E_FAIL`). -/
def endSceneFails : FrameAnswers :=
  { allSucceed with EndScene := -2147467259 }

/-- Answers of the platform for a windowed 1280x720 window under DWM
composition on an AMD adapter, every call succeeding. -/
def windowedComposited : DeviceAnswers :=
  { Direct3DCreate9Ex := 0
    windowFlags := 0
    DevCaps := D3DDEVCAPS_HWTRANSFORMANDLIGHT
    currentMode := { Width := 1920, Height := 1080, RefreshRate := 60, Format := 22 }
    CheckDeviceType := 0
    windowWidth := 1280
    windowHeight := 720
    window := 1
    dwmEnabled := true
    CreateDeviceEx := 0
    device := (rendererOn 0x1002 0x73BF 0 limelightH.VIDEO_FORMAT_H265).m_Device
    SetMaximumFrameLatency := 0 }

/-- Answers of the platform to `initializeDecoder` for a device that offers
H.264 (Intel-specific and standard) and HEVC Main profiles, every call
succeeding. -/
def decoderSucceeds : DecoderAnswers :=
  { DXVA2CreateVideoService := 0
    GetDecoderDeviceGuids := 0
    guids := [DXVADDI_Intel_ModeH264_E, DXVA2_ModeH264_E, DXVA2_ModeHEVC_VLD_Main]
    GetDecoderConfigurations := 0
    configs := [{ guidConfigBitstreamEncryption := DXVA2_NoEncrypt, ConfigBitstreamRaw := 1 }]
    CreateSurface := 0
    CreateVideoDecoder := 0 }

/-- Answers of the platform to `initializeRenderer` for a hardware processor
that converts YUV to RGB and stretches both ways, every call succeeding. -/
def rendererSucceeds : RendererAnswers :=
  { GetBackBuffer := 0
    renderTargetWidth := 1280
    renderTargetHeight := 720
    DXVA2CreateVideoService := 0
    GetVideoProcessorCaps := 0
    caps := { DeviceCaps := DXVA2_VPDev_HardwareDevice, VideoProcessorOperations := 0x87 }
    CreateVideoProcessor := 0
    processor := 5 }

/-- Answers of the platform to `initializeRenderer` when the capability query
reports a processor that is not hardware-backed (`DXVA2_VPDev_SoftwareDevice`). -/
def softwareProcessor : RendererAnswers :=
  { rendererSucceeds with caps := { DeviceCaps := 0x0004, VideoProcessorOperations := 0x87 } }

/-- Answers of the platform with which all three stages of `initialize`
succeed. -/
def initializeSucceeds : InitializeAnswers :=
  { device := windowedComposited, decoder := decoderSucceeds, renderer := rendererSucceeds }

/-- Answers of the platform with which device and decoder come up and the
capability query reports a processor that is not hardware-backed. -/
def initializeWithSoftwareProcessor : InitializeAnswers :=
  { initializeSucceeds with renderer := softwareProcessor }

/-- A freshly constructed renderer (no processor, frame index 0) on an AMD
adapter. -/
def freshRenderer : DXVA2Renderer := rendererOn 0x1002 0x73BF 0 0

/-- A renderer whose debug overlay layer holds texture 11 and vertex buffer 12. -/
def rendererWithOverlay : DXVA2Renderer :=
  { freshRenderer with
    m_DisplayWidth := 1280
    m_DisplayHeight := 720
    m_OverlayTextures := [some 11, none]
    m_OverlayVertexBuffers := [some 12, none] }

/-- An overlay update with a fresh 200x50 surface, the overlay enabled, whose
`CreateTexture` fails (`E_FAIL`). -/
def overlayTextureFails : OverlayAnswers :=
  { getUpdatedOverlaySurface := some { w := 200, h := 50, pitch := 800 }
    isOverlayEnabled := true
    isOverlayEnabledAgain := true
    CreateTexture := -2147467259
    newTexture := 21
    LockRect := 0
    lockedPitch := 800
    CreateVertexBuffer := 0
    newVertexBuffer := 22
    Lock := 0 }

/-- A 1920x1080 HEVC Main stream with V-sync. -/
def hevc1080p : DECODER_PARAMETERS :=
  { videoFormat := limelightH.VIDEO_FORMAT_H265, width := 1920, height := 1080,
    enableVsync := true }

/-- An overlay update with a fresh 200x50 surface, the overlay enabled, in
which every call succeeds and the locked texture has a wider pitch. -/
def overlaySucceeds : OverlayAnswers :=
  { overlayTextureFails with CreateTexture := 0, lockedPitch := 1024 }

/-- An overlay update after the overlay was switched off: no fresh surface and
`isOverlayEnabled` answering false both times. -/
def overlayDisabled : OverlayAnswers :=
  { overlayTextureFails with
    getUpdatedOverlaySurface := none
    isOverlayEnabled := false
    isOverlayEnabledAgain := false }

/-- A `renderOverlay` call with the overlay enabled, the lock free and every
device call succeeding. -/
def drawSucceeds : RenderOverlayAnswers :=
  { isOverlayEnabled := true
    SDL_AtomicTryLock := true
    SetTexture := 0
    SetStreamSource := 0
    DrawPrimitive := 0 }

/-- An environment in which only `DXVA2_DISABLE_DECODER_BLACKLIST` is set, to `1`. -/
def decoderBlacklistDisabled : Environment :=
  qputenv emptyEnvironment "DXVA2_DISABLE_DECODER_BLACKLIST" "1"

/-- An environment in which only `DXVA2_DISABLE_VIDPROC_BLACKLIST` is set, to `1`. -/
def vidprocBlacklistDisabled : Environment :=
  qputenv emptyEnvironment "DXVA2_DISABLE_VIDPROC_BLACKLIST" "1"

/-- Low part of an Intel driver version `x.x.15.4300`, older than build 4836. -/
def oldIntelDriver : Nat := 15 * 0x10000 + 4300

/-- Low part of an Intel driver version `x.x.101.2111`, after the version rollover. -/
def newIntelDriver : Nat := 101 * 0x10000 + 2111

/-! ## Theorems -/

/-! ### Decode surface pool -/

theorem ffPoolAllocState_surfaces (me : SurfacePool) (allocates : Nat → Bool) (n : Nat) :
    (ffPoolAllocState me allocates n).m_DecSurfaces = me.m_DecSurfaces := by
  induction n with
  | zero => rfl
  | succ n ih =>
    simp only [ffPoolAllocState, ffPoolAlloc]
    split <;> simp [ih]

theorem ffPoolAllocState_fresh_used (surfaces : List LPDIRECT3DSURFACE9)
    (allocates : Nat → Bool) (n : Nat) :
    (ffPoolAllocState (SurfacePool.fresh surfaces) allocates n).m_SurfacesUsed
      = min n surfaces.length := by
  induction n with
  | zero => simp [ffPoolAllocState, SurfacePool.fresh]
  | succ n ih =>
    have hs := ffPoolAllocState_surfaces (SurfacePool.fresh surfaces) allocates n
    simp only [ffPoolAllocState, ffPoolAlloc]
    split
    · rename_i h
      rw [ih, hs] at h
      simp only [SurfacePool.fresh] at h
      simp only [ih]
      omega
    · rename_i h
      rw [ih, hs] at h
      simp only [SurfacePool.fresh] at h
      rw [ih]
      omega

theorem ffPoolAllocState_used_mono (me : SurfacePool) (allocates : Nat → Bool) (n m : Nat)
    (h : n ≤ m) :
    (ffPoolAllocState me allocates n).m_SurfacesUsed
      ≤ (ffPoolAllocState me allocates m).m_SurfacesUsed := by
  induction m with
  | zero =>
    have hn : n = 0 := by omega
    subst hn
    exact Nat.le_refl _
  | succ m ih =>
    by_cases hnm : n = m + 1
    · subst hnm
      exact Nat.le_refl _
    · have hle := ih (by omega)
      have hstep : (ffPoolAllocState me allocates m).m_SurfacesUsed
          ≤ (ffPoolAllocState me allocates (m + 1)).m_SurfacesUsed := by
        simp only [ffPoolAllocState, ffPoolAlloc]
        split
        · exact Nat.le_succ _
        · exact Nat.le_refl _
      exact Nat.le_trans hle hstep

theorem ffPoolAllocNth_fresh (surfaces : List LPDIRECT3DSURFACE9) (allocates : Nat → Bool)
    (n : Nat) :
    ffPoolAllocNth (SurfacePool.fresh surfaces) allocates n
      = if h : n < surfaces.length then av_buffer_create (surfaces.get ⟨n, h⟩) (allocates n)
        else none := by
  have hs : (ffPoolAllocState (SurfacePool.fresh surfaces) allocates n).m_DecSurfaces
      = surfaces :=
    ffPoolAllocState_surfaces (SurfacePool.fresh surfaces) allocates n
  have hu := ffPoolAllocState_fresh_used surfaces allocates n
  unfold ffPoolAllocNth
  generalize ffPoolAllocState (SurfacePool.fresh surfaces) allocates n = st at hs hu
  obtain ⟨ds, used⟩ := st
  simp only at hs hu
  subst hs
  simp only [ffPoolAlloc]
  by_cases h : n < ds.length
  · have hmin : used = n := by omega
    subst hmin
    simp [h]
  · have hmin : used = ds.length := by omega
    subst hmin
    simp [h]

theorem ffPoolAllocResults_succ (me : SurfacePool) (allocates : Nat → Bool) (n : Nat) :
    ffPoolAllocResults me allocates (n + 1)
      = ffPoolAllocResults me allocates n ++ [ffPoolAllocNth me allocates n] := by
  simp [ffPoolAllocResults, List.range_succ]

theorem ffPoolAllocResults_fresh (surfaces : List LPDIRECT3DSURFACE9) (allocates : Nat → Bool)
    (hall : ∀ k : Nat, k < surfaces.length → allocates k = true) (m : Nat) :
    ffPoolAllocResults (SurfacePool.fresh surfaces) allocates (surfaces.length + m)
      = surfaces.map (fun s => some ⟨s⟩) ++ List.replicate m none := by
  apply List.ext_getElem
  · simp [ffPoolAllocResults]
  · intro i h1 h2
    simp only [ffPoolAllocResults, List.getElem_map, List.getElem_range, ffPoolAllocNth_fresh]
    by_cases h : i < surfaces.length
    · simp [h, List.getElem_append_left, av_buffer_create, hall i h]
    · have hle : (List.map (fun s => (some ⟨s⟩ : Option AVBufferRef)) surfaces).length ≤ i := by
        simp only [List.length_map]
        omega
      rw [List.getElem_append_right hle]
      simp [h]

theorem ffPoolAllocResults_fresh_count (surfaces : List LPDIRECT3DSURFACE9)
    (allocates : Nat → Bool) (n : Nat) :
    ((ffPoolAllocResults (SurfacePool.fresh surfaces) allocates n).filter Option.isSome).length
      = ((List.range (min n surfaces.length)).filter allocates).length := by
  induction n with
  | zero => simp [ffPoolAllocResults]
  | succ n ih =>
    rw [ffPoolAllocResults_succ, List.filter_append, List.length_append, ih,
      ffPoolAllocNth_fresh]
    by_cases h : n < surfaces.length
    · have h1 : min (n + 1) surfaces.length = n + 1 := by omega
      have h2 : min n surfaces.length = n := by omega
      rw [h1, h2, List.range_succ, List.filter_append, List.length_append, dif_pos h]
      cases ha : allocates n <;> simp [av_buffer_create, ha]
    · have h1 : min (n + 1) surfaces.length = min n surfaces.length := by omega
      rw [h1, dif_neg h]
      rfl

theorem ffPoolAlloc_indexRead_count (surfaces : List LPDIRECT3DSURFACE9)
    (allocates : Nat → Bool) (n : Nat) :
    ((List.range n).filter (fun k =>
        (ffPoolAlloc_indexRead
          (ffPoolAllocState (SurfacePool.fresh surfaces) allocates k)).isSome)).length
      = min n surfaces.length := by
  have hread : ∀ k : Nat,
      (ffPoolAlloc_indexRead
        (ffPoolAllocState (SurfacePool.fresh surfaces) allocates k)).isSome
        = decide (k < surfaces.length) := by
    intro k
    unfold ffPoolAlloc_indexRead
    rw [ffPoolAllocState_surfaces, ffPoolAllocState_fresh_used]
    simp only [SurfacePool.fresh]
    by_cases h : k < surfaces.length
    · have h' : min k surfaces.length < surfaces.length := by omega
      rw [if_pos h']
      simp [h]
    · have h' : ¬ min k surfaces.length < surfaces.length := by omega
      rw [if_neg h']
      simp [h]
  simp only [hread]
  induction n with
  | zero => simp
  | succ n ih =>
    rw [List.range_succ, List.filter_append, List.length_append, ih]
    by_cases h : n < surfaces.length
    · simp [h]
      omega
    · simp [h]
      omega

/-- C1, as stated, fails: on a fresh pool of capacity 4 the second call, in
which `av_buffer_create` cannot allocate, returns `NULL` although slot 1 is
within the array; slot 1 is consumed all the same, and only three of the calls
return a surface. -/
theorem ffPoolAlloc_allocation_failure_skips_slot :
    ffPoolAllocResults (SurfacePool.fresh [10, 11, 12, 13]) secondAllocationFails 5
      = [some ⟨10⟩, none, some ⟨12⟩, some ⟨13⟩, none]
    ∧ ffPoolAllocNth (SurfacePool.fresh [10, 11, 12, 13]) secondAllocationFails 1 = none
    ∧ (ffPoolAllocState (SurfacePool.fresh [10, 11, 12, 13]) secondAllocationFails
        2).m_SurfacesUsed = 2
    ∧ ((ffPoolAllocResults (SurfacePool.fresh [10, 11, 12, 13]) secondAllocationFails
        5).filter Option.isSome).length = 3 := by
  decide

/-- C1, amended: on a fresh pool over the decode-surface array `surfaces`
(capacity `N = surfaces.length`), call number `n + 1` of `ffPoolAlloc` returns
the surface in array slot `n` when `n + 1 ≤ N` and `av_buffer_create` allocates
in that call, and `NULL` when `n + 1 > N` or the allocation fails; the slot is
consumed either way, the cursor after `n` calls being `min n N`. Among the first
`n` calls those that return a surface are the ones within the array whose
allocation succeeds, at most `N`. When no allocation within the array fails, the
first `N + m` calls return the `N` slots in array order followed by `m` times
`NULL`, and exactly `min n N` of the first `n` calls return a surface. -/
theorem ffPoolAlloc_fresh_sequence (surfaces : List LPDIRECT3DSURFACE9)
    (allocates : Nat → Bool) (n m : Nat) :
    ffPoolAllocNth (SurfacePool.fresh surfaces) allocates n
        = (if h : n < surfaces.length then
            (if allocates n = true then some ⟨surfaces.get ⟨n, h⟩⟩ else none)
           else none)
    ∧ (ffPoolAllocState (SurfacePool.fresh surfaces) allocates n).m_SurfacesUsed
        = min n surfaces.length
    ∧ ((ffPoolAllocResults (SurfacePool.fresh surfaces) allocates n).filter
          Option.isSome).length
        = ((List.range (min n surfaces.length)).filter allocates).length
    ∧ ((ffPoolAllocResults (SurfacePool.fresh surfaces) allocates n).filter
          Option.isSome).length ≤ surfaces.length
    ∧ ((∀ k : Nat, k < surfaces.length → allocates k = true) →
        ffPoolAllocResults (SurfacePool.fresh surfaces) allocates (surfaces.length + m)
            = surfaces.map (fun s => some ⟨s⟩) ++ List.replicate m none
        ∧ ((ffPoolAllocResults (SurfacePool.fresh surfaces) allocates n).filter
              Option.isSome).length = min n surfaces.length) := by
  have hcount := ffPoolAllocResults_fresh_count surfaces allocates n
  have hle : ((List.range (min n surfaces.length)).filter allocates).length
      ≤ min n surfaces.length := by
    have := List.length_filter_le allocates (List.range (min n surfaces.length))
    rwa [List.length_range] at this
  refine ⟨?_, ffPoolAllocState_fresh_used surfaces allocates n, hcount, ?_, ?_⟩
  · rw [ffPoolAllocNth_fresh]
    rfl
  · rw [hcount]
    exact Nat.le_trans hle (Nat.min_le_right _ _)
  · intro hall
    refine ⟨ffPoolAllocResults_fresh surfaces allocates hall m, ?_⟩
    rw [hcount]
    have hfull : ((List.range (min n surfaces.length)).filter allocates).length
        = (List.range (min n surfaces.length)).length := by
      rw [List.filter_length_eq_length]
      intro k hk
      exact hall k (Nat.lt_of_lt_of_le (List.mem_range.mp hk) (Nat.min_le_right _ _))
    rw [hfull, List.length_range]

/-- C1, witness (scenario E): with capacity 4 and no allocation failing, five
calls give slots 0, 1, 2, 3 and then `NULL`, and four of them return a
surface. -/
theorem ffPoolAlloc_fresh_sequence_witness :
    ffPoolAllocResults (SurfacePool.fresh [10, 11, 12, 13]) allocationNeverFails 5
      = [some ⟨10⟩, some ⟨11⟩, some ⟨12⟩, some ⟨13⟩, none]
    ∧ ((ffPoolAllocResults (SurfacePool.fresh [10, 11, 12, 13]) allocationNeverFails
        5).filter Option.isSome).length = 4 :=
  (ffPoolAlloc_fresh_sequence [10, 11, 12, 13] allocationNeverFails 5 1).2.2.2.2
    (fun _ _ => rfl)

/-- Scenario E: with capacity 4, five calls give slots 0, 1, 2, 3 and then `NULL`. -/
theorem ffPoolAlloc_capacity_four :
    ffPoolAllocResults (SurfacePool.fresh [10, 11, 12, 13]) allocationNeverFails 5
      = [some ⟨10⟩, some ⟨11⟩, some ⟨12⟩, some ⟨13⟩, none] := by
  decide

/-! ### Codec-disable policy -/

theorem Limelight.mask_ne_zero_iff (c : Limelight) (hc : c.WellFormed) (videoFormat : Nat)
    (hf : c.IsCodec videoFormat) :
    videoFormat &&& c.VIDEO_FORMAT_MASK_H265 ≠ 0 ↔ c.IsHEVC videoFormat := by
  obtain ⟨h264, h265, h10, _⟩ := hc
  unfold Limelight.IsHEVC
  rcases hf with h | h | h
  · constructor
    · intro hm
      rw [h] at hm
      exact absurd h264 hm
    · intro hh
      rcases hh with hh | hh
      · rw [h] at hh
        rw [hh] at h264
        exact absurd h264 h265
      · rw [h] at hh
        rw [hh] at h264
        exact absurd h264 h10
  · constructor
    · intro _
      exact Or.inl h
    · intro _
      rw [h]
      exact h265
  · constructor
    · intro _
      exact Or.inr h
    · intro _
      rw [h]
      exact h10

theorem isDecoderBlacklisted_intel (c : Limelight) (qgetenv : Environment) (me : DXVA2Renderer)
    (henv : qgetenv "DXVA2_DISABLE_DECODER_BLACKLIST" ≠ "1")
    (hq : AdapterQueriesSucceed me.m_Device)
    (hv : me.m_Device.id.VendorId = 0x8086) :
    isDecoderBlacklisted c qgetenv me =
      (if me.m_Device.id.DeviceId &&& 0xFF00 = 0x0400 ∨ me.m_Device.id.DeviceId &&& 0xFF00 = 0x0A00
          ∨ me.m_Device.id.DeviceId &&& 0xFF00 = 0x0D00 ∨ me.m_Device.id.DeviceId &&& 0xFF00 = 0x1600
          ∨ me.m_Device.id.DeviceId &&& 0xFF00 = 0x2200 then
        decide (me.m_VideoFormat &&& c.VIDEO_FORMAT_MASK_H265 ≠ 0)
      else if me.m_Device.id.DeviceId &&& 0xFF00 = 0x1900
          ∧ me.m_VideoFormat = c.VIDEO_FORMAT_H265_MAIN10 then
        false
      else if BelowIntelDriverThreshold me.m_Device.id then
        decide (me.m_VideoFormat &&& c.VIDEO_FORMAT_MASK_H265 ≠ 0)
      else
        false) := by
  obtain ⟨h1, h2, h3⟩ := hq
  unfold isDecoderBlacklisted BelowIntelDriverThreshold
  rw [if_neg henv, if_pos h1, if_pos h2, if_pos h3]
  simp only [hv, if_true]

theorem isDecoderBlacklisted_nvidia (c : Limelight) (qgetenv : Environment) (me : DXVA2Renderer)
    (henv : qgetenv "DXVA2_DISABLE_DECODER_BLACKLIST" ≠ "1")
    (hq : AdapterQueriesSucceed me.m_Device)
    (hv : me.m_Device.id.VendorId = 0x10DE) :
    isDecoderBlacklisted c qgetenv me =
      (if InNvidiaHybridRanges me.m_Device.id.DeviceId then
        decide (me.m_VideoFormat &&& c.VIDEO_FORMAT_MASK_H265 ≠ 0)
      else
        false) := by
  obtain ⟨h1, h2, h3⟩ := hq
  unfold isDecoderBlacklisted
  rw [if_neg henv, if_pos h1, if_pos h2, if_pos h3]
  simp only [hv]
  rw [if_neg (by decide), if_pos trivial]
  generalize me.m_Device.id.DeviceId = d
  have hiff : ((0x1180 ≤ d ∧ d ≤ 0x11BF) ∨ (0x11C0 ≤ d ∧ d ≤ 0x11FF) ∨
      (0x0FC0 ≤ d ∧ d ≤ 0x0FFF) ∨ (0x1000 ≤ d ∧ d ≤ 0x103F) ∨
      (0x1280 ≤ d ∧ d ≤ 0x12BF) ∨ (0x1340 ≤ d ∧ d ≤ 0x137F) ∨
      (0x1380 ≤ d ∧ d ≤ 0x13BF) ∨ (0x13C0 ≤ d ∧ d ≤ 0x13FF) ∨
      (0x1617 ≤ d ∧ d ≤ 0x161A) ∨ (d = 0x1667) ∨
      (0x17C0 ≤ d ∧ d ≤ 0x17FF)) ↔ InNvidiaHybridRanges d := by
    unfold InNvidiaHybridRanges
    omega
  by_cases hr : InNvidiaHybridRanges d
  · rw [if_pos (hiff.mpr hr), if_pos hr]
  · rw [if_neg (fun h => hr (hiff.mp h)), if_neg hr]

/-- C2: with the decoder-blacklist override unset and the adapter queries
succeeding, for vendor `0x8086` and a device id whose value masked with `0xFF00`
is one of `0x0400`, `0x0A00`, `0x0D00`, `0x1600`, `0x2200`, `isDecoderBlacklisted`
is true if and only if the requested codec is HEVC Main or HEVC Main10, whatever
the driver version. -/
theorem isDecoderBlacklisted_intel_hybrid (c : Limelight) (hc : c.WellFormed)
    (qgetenv : Environment) (me : DXVA2Renderer)
    (henv : qgetenv "DXVA2_DISABLE_DECODER_BLACKLIST" ≠ "1")
    (hq : AdapterQueriesSucceed me.m_Device)
    (hv : me.m_Device.id.VendorId = 0x8086)
    (hs : me.m_Device.id.DeviceId &&& 0xFF00 = 0x0400 ∨ me.m_Device.id.DeviceId &&& 0xFF00 = 0x0A00
      ∨ me.m_Device.id.DeviceId &&& 0xFF00 = 0x0D00 ∨ me.m_Device.id.DeviceId &&& 0xFF00 = 0x1600
      ∨ me.m_Device.id.DeviceId &&& 0xFF00 = 0x2200)
    (hf : c.IsCodec me.m_VideoFormat) :
    isDecoderBlacklisted c qgetenv me = true ↔ c.IsHEVC me.m_VideoFormat := by
  rw [isDecoderBlacklisted_intel c qgetenv me henv hq hv, if_pos hs, decide_eq_true_iff]
  exact c.mask_ne_zero_iff hc _ hf

/-- Scenario A: a Broadwell adapter (masked id `0x1600`) asked for HEVC Main10 is
blacklisted. -/
theorem isDecoderBlacklisted_intel_hybrid_witness :
    isDecoderBlacklisted limelightH emptyEnvironment
      (rendererOn 0x8086 0x1616 newIntelDriver limelightH.VIDEO_FORMAT_H265_MAIN10) = true :=
  (isDecoderBlacklisted_intel_hybrid limelightH (by decide) emptyEnvironment
    (rendererOn 0x8086 0x1616 newIntelDriver limelightH.VIDEO_FORMAT_H265_MAIN10)
    (by decide) (by decide) rfl (by decide) (Or.inr (Or.inr rfl))).mpr (Or.inr rfl)

/-- C3, as stated, fails: a Skylake adapter (`0x191E & 0xFF00 = 0x1900`) with
driver `x.x.15.4300` asked for HEVC Main is blacklisted. -/
theorem isDecoderBlacklisted_skylake_main_old_driver :
    (rendererOn 0x8086 0x191E oldIntelDriver limelightH.VIDEO_FORMAT_H265).m_Device.id.DeviceId
        &&& 0xFF00 = 0x1900
    ∧ isDecoderBlacklisted limelightH emptyEnvironment
        (rendererOn 0x8086 0x191E oldIntelDriver limelightH.VIDEO_FORMAT_H265) = true := by
  decide

/-- C3, amended: with the override unset and the adapter queries succeeding, for
vendor `0x8086`, a device id with `(id & 0xFF00) = 0x1900` and codec HEVC Main,
`isDecoderBlacklisted` is true exactly when the driver is below the buggy-driver
threshold (third component below 100 and fourth below 4836), and false for every
other driver version. -/
theorem isDecoderBlacklisted_skylake_main (c : Limelight) (hc : c.WellFormed)
    (qgetenv : Environment) (me : DXVA2Renderer)
    (henv : qgetenv "DXVA2_DISABLE_DECODER_BLACKLIST" ≠ "1")
    (hq : AdapterQueriesSucceed me.m_Device)
    (hv : me.m_Device.id.VendorId = 0x8086)
    (hs : me.m_Device.id.DeviceId &&& 0xFF00 = 0x1900)
    (hf : me.m_VideoFormat = c.VIDEO_FORMAT_H265) :
    (isDecoderBlacklisted c qgetenv me = true ↔ BelowIntelDriverThreshold me.m_Device.id)
    ∧ (isDecoderBlacklisted c qgetenv me = false ↔ ¬ BelowIntelDriverThreshold me.m_Device.id) := by
  have hmask : me.m_VideoFormat &&& c.VIDEO_FORMAT_MASK_H265 ≠ 0 := by
    rw [hf]
    exact hc.2.1
  have hne : ¬ (me.m_Device.id.DeviceId &&& 0xFF00 = 0x1900
      ∧ me.m_VideoFormat = c.VIDEO_FORMAT_H265_MAIN10) := by
    intro h
    exact hc.2.2.2 (hf.symm.trans h.2)
  have hnh : ¬ (me.m_Device.id.DeviceId &&& 0xFF00 = 0x0400
      ∨ me.m_Device.id.DeviceId &&& 0xFF00 = 0x0A00
      ∨ me.m_Device.id.DeviceId &&& 0xFF00 = 0x0D00 ∨ me.m_Device.id.DeviceId &&& 0xFF00 = 0x1600
      ∨ me.m_Device.id.DeviceId &&& 0xFF00 = 0x2200) := by
    rw [hs]
    decide
  rw [isDecoderBlacklisted_intel c qgetenv me henv hq hv, if_neg hnh, if_neg hne]
  by_cases hd : BelowIntelDriverThreshold me.m_Device.id
  · rw [if_pos hd]
    simp [hmask, hd]
  · rw [if_neg hd]
    simp [hd]

/-- A Skylake adapter with driver `x.x.101.2111` asked for HEVC Main is not
blacklisted, and with driver `x.x.15.4300` it is. -/
theorem isDecoderBlacklisted_skylake_main_witness :
    (isDecoderBlacklisted limelightH emptyEnvironment
        (rendererOn 0x8086 0x191E newIntelDriver limelightH.VIDEO_FORMAT_H265) = false
      ↔ ¬ BelowIntelDriverThreshold
          (rendererOn 0x8086 0x191E newIntelDriver limelightH.VIDEO_FORMAT_H265).m_Device.id)
    ∧ ¬ BelowIntelDriverThreshold
          (rendererOn 0x8086 0x191E newIntelDriver limelightH.VIDEO_FORMAT_H265).m_Device.id :=
  ⟨(isDecoderBlacklisted_skylake_main limelightH (by decide) emptyEnvironment
      (rendererOn 0x8086 0x191E newIntelDriver limelightH.VIDEO_FORMAT_H265)
      (by decide) (by decide) rfl (by decide) rfl).2, by decide⟩

/-- What `case 0x1900` does for HEVC Main10: whatever the environment and the
driver version, a Skylake adapter asked for HEVC Main10 is reported as not
blacklisted. -/
theorem isDecoderBlacklisted_skylake_main10_false (c : Limelight) (qgetenv : Environment)
    (me : DXVA2Renderer)
    (hv : me.m_Device.id.VendorId = 0x8086)
    (hs : me.m_Device.id.DeviceId &&& 0xFF00 = 0x1900)
    (hf : me.m_VideoFormat = c.VIDEO_FORMAT_H265_MAIN10) :
    isDecoderBlacklisted c qgetenv me = false := by
  unfold isDecoderBlacklisted
  simp only [hv, hs, hf]
  split_ifs <;> first | rfl | simp_all

/-- C4, on the code: a Skylake adapter (`0x191E`) with driver `x.x.101.2111`,
override unset and adapter queries succeeding, asked for HEVC Main10, is
reported as not blacklisted. -/
theorem isDecoderBlacklisted_skylake_main10_new_driver :
    (rendererOn 0x8086 0x191E newIntelDriver limelightH.VIDEO_FORMAT_H265_MAIN10).m_Device.id.DeviceId
        &&& 0xFF00 = 0x1900
    ∧ isDecoderBlacklisted limelightH emptyEnvironment
        (rendererOn 0x8086 0x191E newIntelDriver limelightH.VIDEO_FORMAT_H265_MAIN10) = false := by
  decide

/-- C5, on the code: a Skylake adapter (`0x191E`) with driver `x.x.15.4300`,
below the buggy-driver threshold, is reported as not blacklisted for HEVC
Main10, while the same adapter is blacklisted for HEVC Main. -/
theorem isDecoderBlacklisted_skylake_main10_old_driver :
    BelowIntelDriverThreshold
        (rendererOn 0x8086 0x191E oldIntelDriver limelightH.VIDEO_FORMAT_H265_MAIN10).m_Device.id
    ∧ isDecoderBlacklisted limelightH emptyEnvironment
        (rendererOn 0x8086 0x191E oldIntelDriver limelightH.VIDEO_FORMAT_H265_MAIN10) = false
    ∧ isDecoderBlacklisted limelightH emptyEnvironment
        (rendererOn 0x8086 0x191E oldIntelDriver limelightH.VIDEO_FORMAT_H265) = true := by
  decide

/-- C6, as stated, fails: for vendor `0x10DE`, device id `0x1200` and codec HEVC
Main, with the override unset and the adapter queries succeeding,
`isDecoderBlacklisted` is false. -/
theorem isDecoderBlacklisted_nvidia_0x1200 :
    isDecoderBlacklisted limelightH emptyEnvironment
      (rendererOn 0x10DE 0x1200 0 limelightH.VIDEO_FORMAT_H265) = false := by
  decide

/-- C6, amended: with the override unset and the adapter queries succeeding, for
vendor `0x10DE` and codec HEVC Main, `isDecoderBlacklisted` is true for every
device id of the GK104 range `0x1180-0x11BF` and false for device id `0x1200`,
which lies in none of the blacklisted ranges. -/
theorem isDecoderBlacklisted_nvidia_gk104 (c : Limelight) (hc : c.WellFormed)
    (qgetenv : Environment) (me : DXVA2Renderer)
    (henv : qgetenv "DXVA2_DISABLE_DECODER_BLACKLIST" ≠ "1")
    (hq : AdapterQueriesSucceed me.m_Device)
    (hv : me.m_Device.id.VendorId = 0x10DE)
    (hf : me.m_VideoFormat = c.VIDEO_FORMAT_H265) :
    (0x1180 ≤ me.m_Device.id.DeviceId ∧ me.m_Device.id.DeviceId ≤ 0x11BF →
        isDecoderBlacklisted c qgetenv me = true)
    ∧ (me.m_Device.id.DeviceId = 0x1200 → isDecoderBlacklisted c qgetenv me = false) := by
  have hmask : me.m_VideoFormat &&& c.VIDEO_FORMAT_MASK_H265 ≠ 0 := by
    rw [hf]
    exact hc.2.1
  rw [isDecoderBlacklisted_nvidia c qgetenv me henv hq hv]
  constructor
  · intro hr
    have hin : InNvidiaHybridRanges me.m_Device.id.DeviceId := by
      unfold InNvidiaHybridRanges
      omega
    rw [if_pos hin]
    simp [hmask]
  · intro hd
    have hout : ¬ InNvidiaHybridRanges me.m_Device.id.DeviceId := by
      unfold InNvidiaHybridRanges
      omega
    rw [if_neg hout]

/-- Device id `0x1180`, the first of the GK104 range, asked for HEVC Main is
blacklisted. -/
theorem isDecoderBlacklisted_nvidia_gk104_witness :
    isDecoderBlacklisted limelightH emptyEnvironment
      (rendererOn 0x10DE 0x1180 0 limelightH.VIDEO_FORMAT_H265) = true :=
  (isDecoderBlacklisted_nvidia_gk104 limelightH (by decide) emptyEnvironment
    (rendererOn 0x10DE 0x1180 0 limelightH.VIDEO_FORMAT_H265)
    (by decide) (by decide) rfl rfl).1 (by decide)

/-- C7: with the override unset and the adapter queries succeeding, for vendor
`0x10DE`: a device id outside the listed ranges gives false for every video
format; for the three codecs the result is true if and only if the codec is an
HEVC variant and the device id lies in one of the listed ranges; and replacing
the driver version by any other leaves the result unchanged. -/
theorem isDecoderBlacklisted_nvidia_iff (c : Limelight) (qgetenv : Environment)
    (me : DXVA2Renderer)
    (henv : qgetenv "DXVA2_DISABLE_DECODER_BLACKLIST" ≠ "1")
    (hq : AdapterQueriesSucceed me.m_Device)
    (hv : me.m_Device.id.VendorId = 0x10DE) :
    (¬ InNvidiaHybridRanges me.m_Device.id.DeviceId → isDecoderBlacklisted c qgetenv me = false)
    ∧ (c.WellFormed → c.IsCodec me.m_VideoFormat →
        (isDecoderBlacklisted c qgetenv me = true
          ↔ c.IsHEVC me.m_VideoFormat ∧ InNvidiaHybridRanges me.m_Device.id.DeviceId))
    ∧ (∀ v : LARGE_INTEGER,
        isDecoderBlacklisted c qgetenv (me.withDriverVersion v)
          = isDecoderBlacklisted c qgetenv me) := by
  refine ⟨?_, ?_, ?_⟩
  · intro hout
    rw [isDecoderBlacklisted_nvidia c qgetenv me henv hq hv, if_neg hout]
  · intro hc hf
    rw [isDecoderBlacklisted_nvidia c qgetenv me henv hq hv]
    by_cases hin : InNvidiaHybridRanges me.m_Device.id.DeviceId
    · rw [if_pos hin, decide_eq_true_iff, c.mask_ne_zero_iff hc _ hf]
      exact ⟨fun h => ⟨h, hin⟩, fun h => h.1⟩
    · rw [if_neg hin]
      exact ⟨fun h => absurd h (by decide), fun h => absurd h.2 hin⟩
  · intro v
    exact (isDecoderBlacklisted_nvidia c qgetenv (me.withDriverVersion v) henv hq hv).trans
      (isDecoderBlacklisted_nvidia c qgetenv me henv hq hv).symm

/-- A GM107 adapter (`0x1380`) is blacklisted for HEVC Main10; device id `0x1200`,
outside the ranges, is not. -/
theorem isDecoderBlacklisted_nvidia_iff_witness :
    isDecoderBlacklisted limelightH emptyEnvironment
        (rendererOn 0x10DE 0x1380 0 limelightH.VIDEO_FORMAT_H265_MAIN10) = true
    ∧ isDecoderBlacklisted limelightH emptyEnvironment
        (rendererOn 0x10DE 0x1200 0 limelightH.VIDEO_FORMAT_H265_MAIN10) = false :=
  ⟨((isDecoderBlacklisted_nvidia_iff limelightH emptyEnvironment
      (rendererOn 0x10DE 0x1380 0 limelightH.VIDEO_FORMAT_H265_MAIN10)
      (by decide) (by decide) rfl).2.1 (by decide) (Or.inr (Or.inr rfl))).mpr
      ⟨Or.inr rfl, by decide⟩,
   (isDecoderBlacklisted_nvidia_iff limelightH emptyEnvironment
      (rendererOn 0x10DE 0x1200 0 limelightH.VIDEO_FORMAT_H265_MAIN10)
      (by decide) (by decide) rfl).1 (by decide)⟩

/-- C8: for every vendor id other than `0x8086` and `0x10DE`, `isDecoderBlacklisted`
is false, for every device id, driver version, video format, environment and
outcome of the adapter queries. -/
theorem isDecoderBlacklisted_other_vendor (c : Limelight) (qgetenv : Environment)
    (me : DXVA2Renderer)
    (hintel : me.m_Device.id.VendorId ≠ 0x8086)
    (hnvidia : me.m_Device.id.VendorId ≠ 0x10DE) :
    isDecoderBlacklisted c qgetenv me = false := by
  unfold isDecoderBlacklisted
  simp only [if_neg hintel, if_neg hnvidia]
  split_ifs <;> rfl

/-- Scenario D: vendor `0x1002` asked for HEVC Main10 is not blacklisted. -/
theorem isDecoderBlacklisted_other_vendor_witness :
    isDecoderBlacklisted limelightH emptyEnvironment
      (rendererOn 0x1002 0x73BF 0 limelightH.VIDEO_FORMAT_H265_MAIN10) = false :=
  isDecoderBlacklisted_other_vendor limelightH emptyEnvironment
    (rendererOn 0x1002 0x73BF 0 limelightH.VIDEO_FORMAT_H265_MAIN10) (by decide) (by decide)

/-! ### Processor-avoidance policy and default colorspace -/

theorem isDXVideoProcessorAPIBlacklisted_congr (qgetenv : Environment) (me me' : DXVA2Renderer)
    (hd : me'.m_Device = me.m_Device) :
    isDXVideoProcessorAPIBlacklisted qgetenv me' = isDXVideoProcessorAPIBlacklisted qgetenv me := by
  unfold isDXVideoProcessorAPIBlacklisted
  rw [hd]

theorem renderFrame_finish_state (me me' : DXVA2Renderer) (sample : DXVA2_VideoSample)
    (a : FrameAnswers) (done actions : List Action)
    (h : renderFrame_finish me sample a done = some (me', actions)) : me' = me := by
  unfold renderFrame_finish at h
  dsimp only at h
  repeat' split at h
  all_goals first | exact ((Prod.mk.inj (Option.some.inj h)).1).symm | cases h

theorem renderFrame_processor_state (me : DXVA2Renderer) (bltParams : DXVA2_VideoProcessBltParams)
    (sample : DXVA2_VideoSample) (hr : HRESULT) :
    (renderFrame_processor me bltParams sample hr).1
      = { me with m_Processor := (renderFrame_processor me bltParams sample hr).1.m_Processor } := by
  rcases me with ⟨d, vf, proc, fi, bp, vw, vh, dw, dh, desc, ctx, cfg, ot, ov⟩
  unfold renderFrame_processor
  cases proc with
  | none => rfl
  | some p =>
    dsimp only
    cases FAILED hr <;> rfl

/-- The state a returning `renderFrame` call leaves for a non-null frame: the
prepared renderer, with the processor as the `VideoProcessBlt` step left it. -/
theorem renderFrame_some_state (scale : SDL_Rect → SDL_Rect → SDL_Rect) (me me' : DXVA2Renderer)
    (f : AVFrame) (a : FrameAnswers) (actions : List Action)
    (h : renderFrame scale me (some f) a = some (me', actions)) :
    me' = { renderFrame_prepared me f with m_Processor := me'.m_Processor } := by
  simp only [renderFrame] at h
  split_ifs at h
  · rw [← (Prod.mk.inj (Option.some.inj h)).1]
  · rw [← (Prod.mk.inj (Option.some.inj h)).1]
  · have hfin := renderFrame_finish_state _ _ _ _ _ _ h
    rw [hfin]
    exact renderFrame_processor_state _ _ _ _

theorem renderFrame_device (scale : SDL_Rect → SDL_Rect → SDL_Rect) (me me' : DXVA2Renderer)
    (frame : Option AVFrame) (a : FrameAnswers)
    (actions : List Action) (h : renderFrame scale me frame a = some (me', actions)) :
    me'.m_Device = me.m_Device := by
  cases frame with
  | none =>
    simp only [renderFrame, Option.some.injEq, Prod.mk.injEq] at h
    rw [← h.1]
  | some f =>
    rw [renderFrame_some_state scale me me' f a actions h]
    rfl

/-- C9: with the video-processor override unset and the adapter queries
succeeding, `isDXVideoProcessorAPIBlacklisted` is true if and only if the vendor
id is `0x8086` or `0x4d4f4351`; any two renderers whose adapters report the same
vendor id get the same answer, whatever their device id, driver version and
video format. -/
theorem isDXVideoProcessorAPIBlacklisted_iff (qgetenv : Environment) (me : DXVA2Renderer)
    (henv : qgetenv "DXVA2_DISABLE_VIDPROC_BLACKLIST" ≠ "1")
    (hq : AdapterQueriesSucceed me.m_Device) :
    (isDXVideoProcessorAPIBlacklisted qgetenv me = true
      ↔ me.m_Device.id.VendorId = 0x8086 ∨ me.m_Device.id.VendorId = 0x4d4f4351)
    ∧ (∀ me' : DXVA2Renderer, AdapterQueriesSucceed me'.m_Device →
        me'.m_Device.id.VendorId = me.m_Device.id.VendorId →
        isDXVideoProcessorAPIBlacklisted qgetenv me' = isDXVideoProcessorAPIBlacklisted qgetenv me) := by
  have key : ∀ r : DXVA2Renderer, AdapterQueriesSucceed r.m_Device →
      isDXVideoProcessorAPIBlacklisted qgetenv r
        = decide (r.m_Device.id.VendorId = 0x8086 ∨ r.m_Device.id.VendorId = 0x4d4f4351) := by
    intro r hr
    obtain ⟨h1, h2, h3⟩ := hr
    unfold isDXVideoProcessorAPIBlacklisted
    rw [if_neg henv, if_pos h1, if_pos h2, if_pos h3]
    by_cases hi : r.m_Device.id.VendorId = 0x8086
    · simp [hi]
    · by_cases hqc : r.m_Device.id.VendorId = 0x4d4f4351
      · simp [hqc]
      · simp [hi, hqc]
  constructor
  · rw [key me hq, decide_eq_true_iff]
  · intro me' hq' hsame
    rw [key me hq, key me' hq', hsame]

/-- The processor is avoided on a Qualcomm adapter (`0x4d4f4351`) and used on an
AMD adapter (`0x1002`). -/
theorem isDXVideoProcessorAPIBlacklisted_iff_witness :
    isDXVideoProcessorAPIBlacklisted emptyEnvironment
      (rendererOn 0x4d4f4351 0 0 limelightH.VIDEO_FORMAT_H264) = true :=
  (isDXVideoProcessorAPIBlacklisted_iff emptyEnvironment
    (rendererOn 0x4d4f4351 0 0 limelightH.VIDEO_FORMAT_H264) (by decide) (by decide)).1.mpr
    (Or.inr rfl)

/-- C10: `getDecoderColorspace` returns `COLORSPACE_REC_601` when
`isDXVideoProcessorAPIBlacklisted` is true and `COLORSPACE_REC_709` otherwise
(exactly then, the two constants being different); the answer is the same
whatever `m_Processor` holds; and it is the same after any `renderFrame` call as
before it, in particular after a call in which `VideoProcessBlt` failed and the
processor was dropped. -/
theorem getDecoderColorspace_spec (c : Limelight) (qgetenv : Environment) (me : DXVA2Renderer) :
    getDecoderColorspace c qgetenv me
        = (if isDXVideoProcessorAPIBlacklisted qgetenv me = true then c.COLORSPACE_REC_601
           else c.COLORSPACE_REC_709)
    ∧ (c.COLORSPACE_REC_601 ≠ c.COLORSPACE_REC_709 →
        (getDecoderColorspace c qgetenv me = c.COLORSPACE_REC_601
          ↔ isDXVideoProcessorAPIBlacklisted qgetenv me = true))
    ∧ (∀ p : Option IDirectXVideoProcessor,
        getDecoderColorspace c qgetenv { me with m_Processor := p }
          = getDecoderColorspace c qgetenv me)
    ∧ (∀ (scale : SDL_Rect → SDL_Rect → SDL_Rect) (frame : Option AVFrame) (a : FrameAnswers)
        (me' : DXVA2Renderer) (actions : List Action),
        renderFrame scale me frame a = some (me', actions) →
        getDecoderColorspace c qgetenv me' = getDecoderColorspace c qgetenv me) := by
  refine ⟨rfl, ?_, ?_, ?_⟩
  · intro hne
    unfold getDecoderColorspace
    by_cases hb : isDXVideoProcessorAPIBlacklisted qgetenv me = true
    · simp [hb]
    · simp only [hb, if_false]
      exact ⟨fun h => absurd h.symm hne, fun h => absurd h (by simp)⟩
  · intro p
    unfold getDecoderColorspace
    rw [isDXVideoProcessorAPIBlacklisted_congr qgetenv me { me with m_Processor := p } rfl]
  · intro scale frame a me' actions h
    unfold getDecoderColorspace
    rw [isDXVideoProcessorAPIBlacklisted_congr qgetenv me me'
      (renderFrame_device scale me me' frame a actions h)]

/-- Scenario F on an AMD adapter: a frame whose `VideoProcessBlt` fails leaves
the renderer without processor, and the default colorspace is
`COLORSPACE_REC_709` after the call as before it. -/
theorem getDecoderColorspace_spec_witness :
    (renderFrame keepDestination amdRendererWithProcessor (some { data3 := 77 })
        processorFails).map (fun r => r.1.m_Processor) = some none
    ∧ getDecoderColorspace limelightH emptyEnvironment amdRendererWithProcessor = 1
    ∧ (renderFrame keepDestination amdRendererWithProcessor (some { data3 := 77 })
        processorFails).map (fun r => getDecoderColorspace limelightH emptyEnvironment r.1)
        = some 1 := by
  have hbefore : getDecoderColorspace limelightH emptyEnvironment amdRendererWithProcessor = 1 := by
    decide
  have hsome : (renderFrame keepDestination amdRendererWithProcessor (some { data3 := 77 })
      processorFails).isSome = true := by decide
  obtain ⟨r, hr⟩ := Option.isSome_iff_exists.mp hsome
  refine ⟨by decide, hbefore, ?_⟩
  rw [hr, Option.map_some']
  exact congrArg some
    (((getDecoderColorspace_spec limelightH emptyEnvironment amdRendererWithProcessor).2.2.2
      keepDestination _ _ r.1 r.2 hr).trans hbefore)

/-! ### Colour description of a frame -/

theorem renderFrame_some_SampleFormat (scale : SDL_Rect → SDL_Rect → SDL_Rect)
    (me me' : DXVA2Renderer) (f : AVFrame) (a : FrameAnswers) (actions : List Action)
    (h : renderFrame scale me (some f) a = some (me', actions)) :
    me'.m_Desc.SampleFormat = renderFrame_SampleFormat f me.m_Desc.SampleFormat := by
  rw [renderFrame_some_state scale me me' f a actions h]
  rfl

/-- C11: the colour mapping of `renderFrame` is the documented table. Range:
JPEG gives `0_255`, MPEG `16_235`. Primaries: BT709, BT470M, BT470BG, SMPTE170M,
SMPTE240M give `BT709`, `BT470_2_SysM`, `BT470_2_SysBG`, `SMPTE170M`,
`SMPTE240M`. Transfer: SMPTE170M and BT709 give `709`, LINEAR `10`, GAMMA22
`22`, GAMMA28 `28`, SMPTE240M `240M`, IEC61966_2_1 `sRGB`. Matrix: BT709 gives
`BT709`, BT470BG and SMPTE170M `BT601`, SMPTE240M `SMPTE240M`. Every other value
of a field gives that field's `Unknown`. After every `renderFrame` call that
returns for a non-null frame, the four fields of `m_Desc.SampleFormat` hold the
values of the table for that frame. -/
theorem renderFrame_colour_table :
    (SampleFormat_NominalRange AVCOL_RANGE_JPEG = DXVA2_NominalRange_0_255
      ∧ SampleFormat_NominalRange AVCOL_RANGE_MPEG = DXVA2_NominalRange_16_235
      ∧ ∀ v : Int, v ≠ AVCOL_RANGE_JPEG → v ≠ AVCOL_RANGE_MPEG →
          SampleFormat_NominalRange v = DXVA2_NominalRange_Unknown)
    ∧ (SampleFormat_VideoPrimaries AVCOL_PRI_BT709 = DXVA2_VideoPrimaries_BT709
      ∧ SampleFormat_VideoPrimaries AVCOL_PRI_BT470M = DXVA2_VideoPrimaries_BT470_2_SysM
      ∧ SampleFormat_VideoPrimaries AVCOL_PRI_BT470BG = DXVA2_VideoPrimaries_BT470_2_SysBG
      ∧ SampleFormat_VideoPrimaries AVCOL_PRI_SMPTE170M = DXVA2_VideoPrimaries_SMPTE170M
      ∧ SampleFormat_VideoPrimaries AVCOL_PRI_SMPTE240M = DXVA2_VideoPrimaries_SMPTE240M
      ∧ ∀ v : Int, v ≠ AVCOL_PRI_BT709 → v ≠ AVCOL_PRI_BT470M → v ≠ AVCOL_PRI_BT470BG →
          v ≠ AVCOL_PRI_SMPTE170M → v ≠ AVCOL_PRI_SMPTE240M →
          SampleFormat_VideoPrimaries v = DXVA2_VideoPrimaries_Unknown)
    ∧ (SampleFormat_VideoTransferFunction AVCOL_TRC_SMPTE170M = DXVA2_VideoTransFunc_709
      ∧ SampleFormat_VideoTransferFunction AVCOL_TRC_BT709 = DXVA2_VideoTransFunc_709
      ∧ SampleFormat_VideoTransferFunction AVCOL_TRC_LINEAR = DXVA2_VideoTransFunc_10
      ∧ SampleFormat_VideoTransferFunction AVCOL_TRC_GAMMA22 = DXVA2_VideoTransFunc_22
      ∧ SampleFormat_VideoTransferFunction AVCOL_TRC_GAMMA28 = DXVA2_VideoTransFunc_28
      ∧ SampleFormat_VideoTransferFunction AVCOL_TRC_SMPTE240M = DXVA2_VideoTransFunc_240M
      ∧ SampleFormat_VideoTransferFunction AVCOL_TRC_IEC61966_2_1 = DXVA2_VideoTransFunc_sRGB
      ∧ ∀ v : Int, v ≠ AVCOL_TRC_SMPTE170M → v ≠ AVCOL_TRC_BT709 → v ≠ AVCOL_TRC_LINEAR →
          v ≠ AVCOL_TRC_GAMMA22 → v ≠ AVCOL_TRC_GAMMA28 → v ≠ AVCOL_TRC_SMPTE240M →
          v ≠ AVCOL_TRC_IEC61966_2_1 →
          SampleFormat_VideoTransferFunction v = DXVA2_VideoTransFunc_Unknown)
    ∧ (SampleFormat_VideoTransferMatrix AVCOL_SPC_BT709 = DXVA2_VideoTransferMatrix_BT709
      ∧ SampleFormat_VideoTransferMatrix AVCOL_SPC_BT470BG = DXVA2_VideoTransferMatrix_BT601
      ∧ SampleFormat_VideoTransferMatrix AVCOL_SPC_SMPTE170M = DXVA2_VideoTransferMatrix_BT601
      ∧ SampleFormat_VideoTransferMatrix AVCOL_SPC_SMPTE240M = DXVA2_VideoTransferMatrix_SMPTE240M
      ∧ ∀ v : Int, v ≠ AVCOL_SPC_BT709 → v ≠ AVCOL_SPC_BT470BG → v ≠ AVCOL_SPC_SMPTE170M →
          v ≠ AVCOL_SPC_SMPTE240M →
          SampleFormat_VideoTransferMatrix v = DXVA2_VideoTransferMatrix_Unknown)
    ∧ (∀ (scale : SDL_Rect → SDL_Rect → SDL_Rect) (me me' : DXVA2Renderer) (f : AVFrame)
        (a : FrameAnswers) (actions : List Action),
        renderFrame scale me (some f) a = some (me', actions) →
        me'.m_Desc.SampleFormat.NominalRange = SampleFormat_NominalRange f.color_range
        ∧ me'.m_Desc.SampleFormat.VideoPrimaries = SampleFormat_VideoPrimaries f.color_primaries
        ∧ me'.m_Desc.SampleFormat.VideoTransferFunction
            = SampleFormat_VideoTransferFunction f.color_trc
        ∧ me'.m_Desc.SampleFormat.VideoTransferMatrix
            = SampleFormat_VideoTransferMatrix f.colorspace) := by
  refine ⟨⟨by decide, by decide, ?_⟩, ⟨by decide, by decide, by decide, by decide, by decide, ?_⟩,
    ⟨by decide, by decide, by decide, by decide, by decide, by decide, by decide, ?_⟩,
    ⟨by decide, by decide, by decide, by decide, ?_⟩, ?_⟩
  · intro v h1 h2
    simp [SampleFormat_NominalRange, h1, h2]
  · intro v h1 h2 h3 h4 h5
    simp [SampleFormat_VideoPrimaries, h1, h2, h3, h4, h5]
  · intro v h1 h2 h3 h4 h5 h6 h7
    simp [SampleFormat_VideoTransferFunction, h1, h2, h3, h4, h5, h6, h7]
  · intro v h1 h2 h3 h4
    simp [SampleFormat_VideoTransferMatrix, h1, h2, h3, h4]
  · intro scale me me' f a actions h
    rw [renderFrame_some_SampleFormat scale me me' f a actions h]
    exact ⟨rfl, rfl, rfl, rfl⟩

/-- A frame tagged full range, BT.470BG, sRGB and SMPTE170M is described as
`0_255`, `BT470_2_SysBG`, `sRGB` and `BT601`. -/
theorem renderFrame_colour_table_witness :
    (renderFrame keepDestination amdRendererWithProcessor (some taggedFrame) allSucceed).map
        (fun r => (r.1.m_Desc.SampleFormat.NominalRange, r.1.m_Desc.SampleFormat.VideoPrimaries,
          r.1.m_Desc.SampleFormat.VideoTransferFunction,
          r.1.m_Desc.SampleFormat.VideoTransferMatrix))
      = some (DXVA2_NominalRange_0_255, DXVA2_VideoPrimaries_BT470_2_SysBG,
          DXVA2_VideoTransFunc_sRGB, DXVA2_VideoTransferMatrix_BT601) := by
  have hsome : (renderFrame keepDestination amdRendererWithProcessor (some taggedFrame)
      allSucceed).isSome = true := by decide
  obtain ⟨r, hr⟩ := Option.isSome_iff_exists.mp hsome
  obtain ⟨h1, h2, h3, h4⟩ :=
    renderFrame_colour_table.2.2.2.2 keepDestination amdRendererWithProcessor r.1 taggedFrame
      allSucceed r.2 hr
  rw [hr, Option.map_some', h1, h2, h3, h4]
  rfl

/-- C12: the chroma-siting mapping of `renderFrame`. LEFT gives exactly
`Horizontally_Cosited | Vertically_AlignedChromaPlanes`, CENTER exactly
`Vertically_AlignedChromaPlanes`, TOPLEFT exactly
`Horizontally_Cosited | Vertically_Cosited`, every other value `Unknown`; and
after every `renderFrame` call that returns for a non-null frame,
`m_Desc.SampleFormat.VideoChromaSubsampling` holds that value. -/
theorem renderFrame_chroma_table :
    SampleFormat_VideoChromaSubsampling AVCHROMA_LOC_LEFT
        = DXVA2_VideoChromaSubsampling_Horizontally_Cosited
          ||| DXVA2_VideoChromaSubsampling_Vertically_AlignedChromaPlanes
    ∧ SampleFormat_VideoChromaSubsampling AVCHROMA_LOC_CENTER
        = DXVA2_VideoChromaSubsampling_Vertically_AlignedChromaPlanes
    ∧ SampleFormat_VideoChromaSubsampling AVCHROMA_LOC_TOPLEFT
        = DXVA2_VideoChromaSubsampling_Horizontally_Cosited
          ||| DXVA2_VideoChromaSubsampling_Vertically_Cosited
    ∧ (∀ v : Int, v ≠ AVCHROMA_LOC_LEFT → v ≠ AVCHROMA_LOC_CENTER → v ≠ AVCHROMA_LOC_TOPLEFT →
        SampleFormat_VideoChromaSubsampling v = DXVA2_VideoChromaSubsampling_Unknown)
    ∧ (∀ (scale : SDL_Rect → SDL_Rect → SDL_Rect) (me me' : DXVA2Renderer) (f : AVFrame)
        (a : FrameAnswers) (actions : List Action),
        renderFrame scale me (some f) a = some (me', actions) →
        me'.m_Desc.SampleFormat.VideoChromaSubsampling
          = SampleFormat_VideoChromaSubsampling f.chroma_location) := by
  refine ⟨by decide, by decide, by decide, ?_, ?_⟩
  · intro v h1 h2 h3
    simp [SampleFormat_VideoChromaSubsampling, h1, h2, h3]
  · intro scale me me' f a actions h
    rw [renderFrame_some_SampleFormat scale me me' f a actions h]
    rfl

/-- A frame with left chroma siting is described with the two flags
`Horizontally_Cosited` and `Vertically_AlignedChromaPlanes`, value 5. -/
theorem renderFrame_chroma_table_witness :
    (renderFrame keepDestination amdRendererWithProcessor (some taggedFrame) allSucceed).map
        (fun r => r.1.m_Desc.SampleFormat.VideoChromaSubsampling)
      = some 5 := by
  have hsome : (renderFrame keepDestination amdRendererWithProcessor (some taggedFrame)
      allSucceed).isSome = true := by decide
  obtain ⟨r, hr⟩ := Option.isSome_iff_exists.mp hsome
  rw [hr, Option.map_some',
    renderFrame_chroma_table.2.2.2.2 keepDestination amdRendererWithProcessor r.1 taggedFrame
      allSucceed r.2 hr]
  rfl

/-! ### The frame index -/

theorem renderFrame_frameIndex (scale : SDL_Rect → SDL_Rect → SDL_Rect) (me me' : DXVA2Renderer)
    (frame : Option AVFrame) (a : FrameAnswers) (actions : List Action)
    (h : renderFrame scale me frame a = some (me', actions)) :
    me'.m_FrameIndex = me.m_FrameIndex + (if frame.isSome then 1 else 0) := by
  cases frame with
  | none =>
    simp only [renderFrame, Option.some.injEq, Prod.mk.injEq] at h
    rw [← h.1]
    rfl
  | some f =>
    rw [renderFrame_some_state scale me me' f a actions h]
    rfl

theorem wasPresented_nil : wasPresented [] = false := rfl

theorem renderFrames_cons_some (scale : SDL_Rect → SDL_Rect → SDL_Rect) (me me' : DXVA2Renderer)
    (frame : Option AVFrame) (a : FrameAnswers) (rest : List (Option AVFrame × FrameAnswers))
    (traces : List (List Action))
    (h : renderFrames scale me ((frame, a) :: rest) = some (me', traces)) :
    ∃ (m1 : DXVA2Renderer) (t1 : List Action) (ts : List (List Action)),
      renderFrame scale me frame a = some (m1, t1)
      ∧ renderFrames scale m1 rest = some (me', ts) ∧ traces = t1 :: ts := by
  simp only [renderFrames] at h
  cases hstep : renderFrame scale me frame a with
  | none =>
    rw [hstep] at h
    cases h
  | some r =>
    obtain ⟨m1, t1⟩ := r
    rw [hstep] at h
    dsimp only at h
    cases hrest : renderFrames scale m1 rest with
    | none =>
      rw [hrest] at h
      cases h
    | some r2 =>
      obtain ⟨m2, ts⟩ := r2
      rw [hrest] at h
      simp only [Option.map_some', Option.some.injEq, Prod.mk.injEq] at h
      exact ⟨m1, t1, ts, rfl, by rw [← h.1]; exact hrest, h.2.symm⟩

theorem renderFrames_frameIndex (scale : SDL_Rect → SDL_Rect → SDL_Rect)
    (inputs : List (Option AVFrame × FrameAnswers)) :
    ∀ (me me' : DXVA2Renderer) (traces : List (List Action)),
      renderFrames scale me inputs = some (me', traces) →
      me'.m_FrameIndex = me.m_FrameIndex + nonNullFrames inputs
      ∧ (traces.filter wasPresented).length ≤ nonNullFrames inputs := by
  induction inputs with
  | nil =>
    intro me me' traces h
    simp only [renderFrames, Option.some.injEq, Prod.mk.injEq] at h
    rw [← h.1, ← h.2]
    exact ⟨rfl, Nat.le_refl _⟩
  | cons i rest ih =>
    intro me me' traces h
    obtain ⟨frame, a⟩ := i
    obtain ⟨m1, t1, ts, hstep, hrest, htr⟩ := renderFrames_cons_some scale me me' frame a rest traces h
    obtain ⟨ih1, ih2⟩ := ih m1 me' ts hrest
    have hidx := renderFrame_frameIndex scale me m1 frame a t1 hstep
    rw [htr, ih1, hidx]
    cases frame with
    | none =>
      simp only [renderFrame, Option.some.injEq, Prod.mk.injEq] at hstep
      rw [← hstep.2]
      simp only [nonNullFrames, List.filter, Option.isSome, wasPresented_nil] at ih2 ⊢
      exact ⟨by simp, ih2⟩
    | some f =>
      simp only [nonNullFrames, List.filter, Option.isSome, List.length_cons] at ih2 ⊢
      refine ⟨by simp; omega, ?_⟩
      cases wasPresented t1
      · simp only [List.length]
        omega
      · simp only [List.length_cons]
        omega

/-- C18, as stated, fails: a frame dropped because `Clear` failed advances the
frame index from 0 to 1 although no frame was presented. -/
theorem renderFrames_index_counts_dropped_frame :
    (renderFrames keepDestination amdRendererWithProcessor
        [(some { data3 := 77 }, clearFails)]).map
      (fun r => (r.1.m_FrameIndex, (r.2.filter wasPresented).length))
      = some (1, 0)
    ∧ amdRendererWithProcessor.m_FrameIndex = 0 := by
  decide

/-- C18, amended: after any sequence of `renderFrame` calls that have returned,
the frame index equals its value before the sequence plus the number of
non-null frames passed in, whether they were presented or dropped (an
end-of-stream call does not advance it); the number of frames successfully
presented is at most that number. -/
theorem renderFrames_index_counts_frames (scale : SDL_Rect → SDL_Rect → SDL_Rect)
    (me me' : DXVA2Renderer) (inputs : List (Option AVFrame × FrameAnswers))
    (traces : List (List Action))
    (h : renderFrames scale me inputs = some (me', traces)) :
    me'.m_FrameIndex = me.m_FrameIndex + nonNullFrames inputs
    ∧ (traces.filter wasPresented).length ≤ nonNullFrames inputs :=
  renderFrames_frameIndex scale inputs me me' traces h

/-- Three calls, one presented, one at end of stream, one dropped at `Clear`:
the frame index is 2 and one frame was presented. -/
theorem renderFrames_index_counts_frames_witness :
    (renderFrames keepDestination amdRendererWithProcessor
        [(some { data3 := 77 }, allSucceed), (none, allSucceed),
         (some { data3 := 78 }, clearFails)]).map
      (fun r => (r.1.m_FrameIndex, (r.2.filter wasPresented).length))
      = some (2, 1) := by
  have hsome : (renderFrames keepDestination amdRendererWithProcessor
      [(some { data3 := 77 }, allSucceed), (none, allSucceed),
       (some { data3 := 78 }, clearFails)]).isSome = true := by decide
  obtain ⟨r, hr⟩ := Option.isSome_iff_exists.mp hsome
  have hidx := (renderFrames_index_counts_frames keepDestination amdRendererWithProcessor r.1
    [(some { data3 := 77 }, allSucceed), (none, allSucceed),
     (some { data3 := 78 }, clearFails)] r.2 hr).1
  have hcount : (renderFrames keepDestination amdRendererWithProcessor
      [(some { data3 := 77 }, allSucceed), (none, allSucceed),
       (some { data3 := 78 }, clearFails)]).map
      (fun r => (r.2.filter wasPresented).length) = some 1 := by decide
  rw [hr, Option.map_some'] at hcount ⊢
  rw [hidx, Option.some.inj hcount]
  rfl

/-! ### Failure policy of a frame -/

theorem presentLoop_some (flags : Nat) (answers : List HRESULT) :
    ∀ (hr : HRESULT) (pt : List Action), presentLoop flags answers = some (hr, pt) →
      hr ≠ D3DERR_WASSTILLDRAWING
      ∧ (∀ x ∈ pt, x = Action.PresentEx flags ∨ x = Action.SDL_Delay 1)
      ∧ Action.PresentEx flags ∈ pt := by
  induction answers with
  | nil =>
    intro hr pt h
    cases h
  | cons h0 rest ih =>
    intro hr pt h
    unfold presentLoop at h
    by_cases hd : h0 = D3DERR_WASSTILLDRAWING
    · rw [if_pos hd] at h
      cases hrest : presentLoop flags rest with
      | none =>
        rw [hrest] at h
        cases h
      | some r =>
        rw [hrest] at h
        simp only [Option.map_some', Option.some.injEq, Prod.mk.injEq] at h
        obtain ⟨i1, i2, i3⟩ := ih r.1 r.2 hrest
        rw [← h.1, ← h.2]
        refine ⟨i1, ?_, ?_⟩
        · intro x hx
          simp only [List.mem_cons] at hx
          rcases hx with hx | hx | hx
          · exact Or.inl hx
          · exact Or.inr hx
          · exact i2 x hx
        · exact List.mem_cons_self _ _
    · rw [if_neg hd] at h
      simp only [Option.some.injEq, Prod.mk.injEq] at h
      rw [← h.1, ← h.2]
      refine ⟨hd, ?_, List.mem_cons_self _ _⟩
      intro x hx
      simp only [List.mem_singleton] at hx
      exact Or.inl hx

theorem presentLoop_isSome (flags : Nat) (answers : List HRESULT)
    (h : ∃ hr ∈ answers, hr ≠ D3DERR_WASSTILLDRAWING) :
    (presentLoop flags answers).isSome = true := by
  induction answers with
  | nil =>
    obtain ⟨hr, hm, _⟩ := h
    cases hm
  | cons h0 rest ih =>
    unfold presentLoop
    by_cases hd : h0 = D3DERR_WASSTILLDRAWING
    · rw [if_pos hd]
      have hrest : ∃ hr ∈ rest, hr ≠ D3DERR_WASSTILLDRAWING := by
        obtain ⟨hr, hm, hne⟩ := h
        simp only [List.mem_cons] at hm
        rcases hm with hm | hm
        · exact absurd (hm.trans hd) hne
        · exact ⟨hr, hm, hne⟩
      have := ih hrest
      cases hp : presentLoop flags rest with
      | none =>
        rw [hp] at this
        cases this
      | some r => rfl
    · rw [if_neg hd]
      rfl

theorem renderFrame_finish_stretch_fails (me : DXVA2Renderer) (sample : DXVA2_VideoSample)
    (a : FrameAnswers) (done : List Action)
    (hp : me.m_Processor = none) (hf : FAILED a.StretchRect = true) :
    renderFrame_finish me sample a done
      = some (me, done ++ [Action.StretchRect sample.SrcSurface sample.SrcRect sample.DstRect,
                           Action.SDL_PushEvent_RENDER_TARGETS_RESET]) := by
  unfold renderFrame_finish
  rw [if_pos ⟨by rw [hp]; rfl, hf⟩]

theorem renderFrame_finish_endScene_fails (me : DXVA2Renderer) (sample : DXVA2_VideoSample)
    (a : FrameAnswers) (done : List Action)
    (hd : ¬ (me.m_Processor = none ∧ FAILED a.StretchRect = true))
    (hf : FAILED a.EndScene = true) :
    renderFrame_finish me sample a done
      = some (me, drawnActions me sample done
                ++ [Action.EndScene, Action.SDL_PushEvent_RENDER_TARGETS_RESET]) := by
  have hd' : ¬ (me.m_Processor.isNone = true ∧ FAILED a.StretchRect = true) := by
    intro h
    exact hd ⟨Option.isNone_iff_eq_none.mp h.1, h.2⟩
  unfold renderFrame_finish drawnActions
  rw [if_neg hd']
  simp only [hf, if_true]

theorem renderFrame_finish_present (me : DXVA2Renderer) (sample : DXVA2_VideoSample)
    (a : FrameAnswers) (done : List Action)
    (hd : ¬ (me.m_Processor = none ∧ FAILED a.StretchRect = true))
    (hf : FAILED a.EndScene = false) :
    renderFrame_finish me sample a done
      = (presentLoop (presentFlags me) a.PresentEx).map (fun r =>
          (me, drawnActions me sample done ++ [Action.EndScene] ++ r.2
                ++ (if FAILED r.1 then [Action.SDL_PushEvent_RENDER_TARGETS_RESET] else []))) := by
  have hd' : ¬ (me.m_Processor.isNone = true ∧ FAILED a.StretchRect = true) := by
    intro h
    exact hd ⟨Option.isNone_iff_eq_none.mp h.1, h.2⟩
  unfold renderFrame_finish drawnActions presentFlags
  rw [if_neg hd']
  simp only [hf, Bool.false_eq_true, if_false]
  cases presentLoop (if me.m_BlockingPresent = true then D3DPRESENT_DONOTWAIT else 0)
      a.PresentEx with
  | none => rfl
  | some r =>
    obtain ⟨hr, pt⟩ := r
    simp only [Option.map_some']
    cases FAILED hr <;> simp

theorem renderFrame_processor_trace (me : DXVA2Renderer) (bltParams : DXVA2_VideoProcessBltParams)
    (sample : DXVA2_VideoSample) (hr : HRESULT) :
    resetEvents (renderFrame_processor me bltParams sample hr).2 = 0
    ∧ ∀ x ∈ (renderFrame_processor me bltParams sample hr).2, x.isPresentEx = false := by
  unfold renderFrame_processor
  cases me.m_Processor with
  | none => exact ⟨rfl, fun x hx => by cases hx⟩
  | some p =>
    dsimp only
    cases FAILED hr
    · simp only [Bool.false_eq_true, if_false]
      refine ⟨by simp [resetEvents], ?_⟩
      intro x hx
      simp only [List.mem_singleton] at hx
      rw [hx]
      rfl
    · simp only [if_true]
      refine ⟨by simp [resetEvents], ?_⟩
      intro x hx
      simp only [List.mem_cons, List.mem_singleton, List.not_mem_nil, or_false] at hx
      rcases hx with hx | hx <;> rw [hx] <;> rfl

theorem resetEvents_append (l1 l2 : List Action) :
    resetEvents (l1 ++ l2) = resetEvents l1 + resetEvents l2 := by
  unfold resetEvents
  exact List.count_append _ _ _

theorem resetEvents_overlays (n : Nat) :
    resetEvents ((List.range n).map Action.renderOverlay) = 0 := by
  unfold resetEvents
  rw [List.count_eq_zero]
  intro h
  obtain ⟨i, _, hi⟩ := List.mem_map.mp h
  cases hi

theorem drawnActions_trace (me : DXVA2Renderer) (sample : DXVA2_VideoSample) (done : List Action) :
    resetEvents (drawnActions me sample done) = resetEvents done
    ∧ ((∀ x ∈ done, x.isPresentEx = false) →
        ∀ x ∈ drawnActions me sample done, x.isPresentEx = false) := by
  unfold drawnActions
  constructor
  · rw [resetEvents_append, resetEvents_overlays]
    cases me.m_Processor.isNone
    · simp
    · simp only [if_true, resetEvents_append]
      rfl
  · intro hdone x hx
    rw [List.mem_append] at hx
    rcases hx with hx | hx
    · cases hn : me.m_Processor.isNone
      · rw [hn] at hx
        exact hdone x hx
      · rw [hn] at hx
        simp only [if_true, List.mem_append, List.mem_singleton] at hx
        rcases hx with hx | hx
        · exact hdone x hx
        · rw [hx]
          rfl
    · obtain ⟨i, _, hi⟩ := List.mem_map.mp hx
      rw [← hi]
      rfl

theorem presentLoop_resetEvents (flags : Nat) (answers : List HRESULT) (hr : HRESULT)
    (pt : List Action) (h : presentLoop flags answers = some (hr, pt)) :
    resetEvents pt = 0 := by
  unfold resetEvents
  rw [List.count_eq_zero]
  intro hm
  rcases (presentLoop_some flags answers hr pt h).2.1 _ hm with hx | hx <;> cases hx

theorem renderFrame_after_beginScene (scale : SDL_Rect → SDL_Rect → SDL_Rect)
    (me : DXVA2Renderer) (f : AVFrame) (a : FrameAnswers)
    (hc : FAILED a.Clear = false) (hb : FAILED a.BeginScene = false) :
    renderFrame scale me (some f) a
      = renderFrame_finish
          (renderFrame_processor (renderFrame_prepared me f)
            (renderFrame_bltParams (renderFrame_stamped me f)
              (renderFrame_sample scale (renderFrame_stamped me f) f))
            (renderFrame_sample scale (renderFrame_stamped me f) f) a.VideoProcessBlt).1
          (renderFrame_sample scale (renderFrame_stamped me f) f) a
          ([Action.Clear, Action.BeginScene] ++
            (renderFrame_processor (renderFrame_prepared me f)
              (renderFrame_bltParams (renderFrame_stamped me f)
                (renderFrame_sample scale (renderFrame_stamped me f) f))
              (renderFrame_sample scale (renderFrame_stamped me f) f) a.VideoProcessBlt).2) := by
  simp only [renderFrame, hc, hb, Bool.false_eq_true, if_false]

/-- C20: the failure policy of `renderFrame` for a non-null frame `f`, with `s`
the video sample of the frame and `B` the renderer and actions of the
`VideoProcessBlt` step. A failing `Clear`, `BeginScene`, raw-copy `StretchRect`
or `EndScene` makes the call return with the failed call followed by one
render-targets-reset event as its last two actions; a present loop that leaves
returns with the event appended exactly when its `hr` is a failure. Whenever the
call returns, it emitted at most one event, exactly one if and only if one of
these calls failed, the event is the last action, and after a failure before
`PresentEx` no `PresentEx` was issued. The call returns whenever a call before
`PresentEx` fails or the present loop gets an answer other than
`D3DERR_WASSTILLDRAWING`. -/
theorem renderFrame_failure_policy (scale : SDL_Rect → SDL_Rect → SDL_Rect)
    (me : DXVA2Renderer) (f : AVFrame) (a : FrameAnswers)
    (s : DXVA2_VideoSample) (B : DXVA2Renderer × List Action)
    (hs : s = renderFrame_sample scale (renderFrame_stamped me f) f)
    (hB : B = renderFrame_processor (renderFrame_prepared me f)
      (renderFrame_bltParams (renderFrame_stamped me f) s) s a.VideoProcessBlt) :
    (FAILED a.Clear = true →
      renderFrame scale me (some f) a
        = some (renderFrame_prepared me f,
            [Action.Clear, Action.SDL_PushEvent_RENDER_TARGETS_RESET]))
    ∧ (FAILED a.Clear = false → FAILED a.BeginScene = true →
      renderFrame scale me (some f) a
        = some (renderFrame_prepared me f,
            [Action.Clear, Action.BeginScene, Action.SDL_PushEvent_RENDER_TARGETS_RESET]))
    ∧ (FAILED a.Clear = false → FAILED a.BeginScene = false →
      B.1.m_Processor = none → FAILED a.StretchRect = true →
      renderFrame scale me (some f) a
        = some (B.1, [Action.Clear, Action.BeginScene] ++ B.2
            ++ [Action.StretchRect s.SrcSurface s.SrcRect s.DstRect,
                Action.SDL_PushEvent_RENDER_TARGETS_RESET]))
    ∧ (FAILED a.Clear = false → FAILED a.BeginScene = false →
      ¬ (B.1.m_Processor = none ∧ FAILED a.StretchRect = true) → FAILED a.EndScene = true →
      renderFrame scale me (some f) a
        = some (B.1, drawnActions B.1 s ([Action.Clear, Action.BeginScene] ++ B.2)
            ++ [Action.EndScene, Action.SDL_PushEvent_RENDER_TARGETS_RESET]))
    ∧ (FAILED a.Clear = false → FAILED a.BeginScene = false →
      ¬ (B.1.m_Processor = none ∧ FAILED a.StretchRect = true) → FAILED a.EndScene = false →
      ∀ (hr : HRESULT) (pt : List Action),
        presentLoop (presentFlags B.1) a.PresentEx = some (hr, pt) →
        renderFrame scale me (some f) a
          = some (B.1, drawnActions B.1 s ([Action.Clear, Action.BeginScene] ++ B.2)
              ++ [Action.EndScene] ++ pt
              ++ (if FAILED hr then [Action.SDL_PushEvent_RENDER_TARGETS_RESET] else [])))
    ∧ (∀ (m : DXVA2Renderer) (t : List Action), renderFrame scale me (some f) a = some (m, t) →
        resetEvents t ≤ 1
        ∧ (resetEvents t = 1 ↔ (FailsBeforePresent B.1 a ∨ PresentFails B.1 a))
        ∧ (resetEvents t = 1 →
            ∃ pre, t = pre ++ [Action.SDL_PushEvent_RENDER_TARGETS_RESET] ∧ resetEvents pre = 0)
        ∧ (FailsBeforePresent B.1 a → ∀ x ∈ t, x.isPresentEx = false))
    ∧ ((FailsBeforePresent B.1 a ∨ ∃ hr ∈ a.PresentEx, hr ≠ D3DERR_WASSTILLDRAWING) →
        (renderFrame scale me (some f) a).isSome = true) := by
  have e1 : FAILED a.Clear = true →
      renderFrame scale me (some f) a
        = some (renderFrame_prepared me f,
            [Action.Clear, Action.SDL_PushEvent_RENDER_TARGETS_RESET]) := by
    intro hc
    simp only [renderFrame, hc, if_true]
  have e2 : FAILED a.Clear = false → FAILED a.BeginScene = true →
      renderFrame scale me (some f) a
        = some (renderFrame_prepared me f,
            [Action.Clear, Action.BeginScene, Action.SDL_PushEvent_RENDER_TARGETS_RESET]) := by
    intro hc hb
    simp only [renderFrame, hc, hb, Bool.false_eq_true, if_false, if_true]
  have e0 : FAILED a.Clear = false → FAILED a.BeginScene = false →
      renderFrame scale me (some f) a
        = renderFrame_finish B.1 s a ([Action.Clear, Action.BeginScene] ++ B.2) := by
    intro hc hb
    rw [renderFrame_after_beginScene scale me f a hc hb, hB, hs]
  have e3 : FAILED a.Clear = false → FAILED a.BeginScene = false →
      B.1.m_Processor = none → FAILED a.StretchRect = true →
      renderFrame scale me (some f) a
        = some (B.1, [Action.Clear, Action.BeginScene] ++ B.2
            ++ [Action.StretchRect s.SrcSurface s.SrcRect s.DstRect,
                Action.SDL_PushEvent_RENDER_TARGETS_RESET]) := by
    intro hc hb hp hf
    rw [e0 hc hb, renderFrame_finish_stretch_fails B.1 s a _ hp hf]
  have e4 : FAILED a.Clear = false → FAILED a.BeginScene = false →
      ¬ (B.1.m_Processor = none ∧ FAILED a.StretchRect = true) → FAILED a.EndScene = true →
      renderFrame scale me (some f) a
        = some (B.1, drawnActions B.1 s ([Action.Clear, Action.BeginScene] ++ B.2)
            ++ [Action.EndScene, Action.SDL_PushEvent_RENDER_TARGETS_RESET]) := by
    intro hc hb hd hf
    rw [e0 hc hb, renderFrame_finish_endScene_fails B.1 s a _ hd hf]
  have e5 : FAILED a.Clear = false → FAILED a.BeginScene = false →
      ¬ (B.1.m_Processor = none ∧ FAILED a.StretchRect = true) → FAILED a.EndScene = false →
      renderFrame scale me (some f) a
        = (presentLoop (presentFlags B.1) a.PresentEx).map (fun r =>
            (B.1, drawnActions B.1 s ([Action.Clear, Action.BeginScene] ++ B.2)
              ++ [Action.EndScene] ++ r.2
              ++ (if FAILED r.1 then [Action.SDL_PushEvent_RENDER_TARGETS_RESET] else []))) := by
    intro hc hb hd hf
    rw [e0 hc hb, renderFrame_finish_present B.1 s a _ hd hf]
  have hB2 : resetEvents B.2 = 0 ∧ ∀ x ∈ B.2, x.isPresentEx = false := by
    rw [hB]
    exact renderFrame_processor_trace _ _ _ _
  have hdone : resetEvents ([Action.Clear, Action.BeginScene] ++ B.2) = 0
      ∧ ∀ x ∈ [Action.Clear, Action.BeginScene] ++ B.2, x.isPresentEx = false := by
    constructor
    · rw [resetEvents_append, hB2.1]
      rfl
    · intro x hx
      simp only [List.cons_append, List.nil_append, List.mem_cons] at hx
      rcases hx with hx | hx | hx
      · rw [hx]
        rfl
      · rw [hx]
        rfl
      · exact hB2.2 x hx
  have hdrawn := drawnActions_trace B.1 s ([Action.Clear, Action.BeginScene] ++ B.2)
  refine ⟨e1, e2, e3, e4, ?_, ?_, ?_⟩
  · intro hc hb hd hf hr pt hp
    rw [e5 hc hb hd hf, hp, Option.map_some']
  · intro m t h
    cases hc : FAILED a.Clear with
    | true =>
      rw [e1 hc] at h
      obtain ⟨-, rfl⟩ := Prod.mk.inj (Option.some.inj h)
      refine ⟨by decide, ⟨fun _ => Or.inl (Or.inl hc), fun _ => by decide⟩,
        fun _ => ⟨[Action.Clear], rfl, by decide⟩, ?_⟩
      intro _ x hx
      simp only [List.mem_cons, List.mem_singleton, List.not_mem_nil, or_false] at hx
      rcases hx with hx | hx <;> rw [hx] <;> rfl
    | false =>
      cases hb : FAILED a.BeginScene with
      | true =>
        rw [e2 hc hb] at h
        obtain ⟨-, rfl⟩ := Prod.mk.inj (Option.some.inj h)
        refine ⟨by decide, ⟨fun _ => Or.inl (Or.inr (Or.inl hb)), fun _ => by decide⟩,
          fun _ => ⟨[Action.Clear, Action.BeginScene], rfl, by decide⟩, ?_⟩
        intro _ x hx
        simp only [List.mem_cons, List.mem_singleton, List.not_mem_nil, or_false] at hx
        rcases hx with hx | hx | hx <;> rw [hx] <;> rfl
      | false =>
        by_cases hd : B.1.m_Processor = none ∧ FAILED a.StretchRect = true
        · rw [e3 hc hb hd.1 hd.2] at h
          obtain ⟨-, rfl⟩ := Prod.mk.inj (Option.some.inj h)
          have hcount : resetEvents ([Action.Clear, Action.BeginScene] ++ B.2
              ++ [Action.StretchRect s.SrcSurface s.SrcRect s.DstRect,
                  Action.SDL_PushEvent_RENDER_TARGETS_RESET]) = 1 := by
            rw [resetEvents_append, hdone.1]
            simp [resetEvents]
          refine ⟨by omega, ⟨fun _ => Or.inl (Or.inr (Or.inr (Or.inl hd))), fun _ => hcount⟩,
            fun _ => ⟨[Action.Clear, Action.BeginScene] ++ B.2
              ++ [Action.StretchRect s.SrcSurface s.SrcRect s.DstRect], by simp, ?_⟩, ?_⟩
          · rw [resetEvents_append, hdone.1]
            simp [resetEvents]
          · intro _ x hx
            rw [List.mem_append] at hx
            rcases hx with hx | hx
            · exact hdone.2 x hx
            · simp only [List.mem_cons, List.mem_singleton, List.not_mem_nil, or_false] at hx
              rcases hx with hx | hx <;> rw [hx] <;> rfl
        · cases he : FAILED a.EndScene with
          | true =>
            rw [e4 hc hb hd he] at h
            obtain ⟨-, rfl⟩ := Prod.mk.inj (Option.some.inj h)
            have hcount : resetEvents (drawnActions B.1 s ([Action.Clear, Action.BeginScene] ++ B.2)
                ++ [Action.EndScene, Action.SDL_PushEvent_RENDER_TARGETS_RESET]) = 1 := by
              rw [resetEvents_append, hdrawn.1, hdone.1]
              simp [resetEvents]
            refine ⟨by omega,
              ⟨fun _ => Or.inl (Or.inr (Or.inr (Or.inr he))), fun _ => hcount⟩,
              fun _ => ⟨drawnActions B.1 s ([Action.Clear, Action.BeginScene] ++ B.2)
                ++ [Action.EndScene], by simp, ?_⟩, ?_⟩
            · rw [resetEvents_append, hdrawn.1, hdone.1]
              simp [resetEvents]
            · intro _ x hx
              rw [List.mem_append] at hx
              rcases hx with hx | hx
              · exact hdrawn.2 hdone.2 x hx
              · simp only [List.mem_cons, List.mem_singleton, List.not_mem_nil, or_false] at hx
                rcases hx with hx | hx <;> rw [hx] <;> rfl
          | false =>
            have hnot : ¬ FailsBeforePresent B.1 a := by
              intro hfb
              rcases hfb with h1 | h1 | h1 | h1
              · rw [hc] at h1
                cases h1
              · rw [hb] at h1
                cases h1
              · exact hd h1
              · rw [he] at h1
                cases h1
            rw [e5 hc hb hd he] at h
            cases hp : presentLoop (presentFlags B.1) a.PresentEx with
            | none =>
              rw [hp] at h
              cases h
            | some r =>
              obtain ⟨hr, pt⟩ := r
              rw [hp, Option.map_some'] at h
              dsimp only at h
              obtain ⟨-, rfl⟩ := Prod.mk.inj (Option.some.inj h)
              have hpt := presentLoop_resetEvents _ _ _ _ hp
              have hpre : resetEvents (drawnActions B.1 s ([Action.Clear, Action.BeginScene] ++ B.2)
                  ++ [Action.EndScene] ++ pt) = 0 := by
                rw [resetEvents_append, resetEvents_append, hdrawn.1, hdone.1, hpt]
                simp [resetEvents]
              cases hfh : FAILED hr with
              | true =>
                have hcount : resetEvents (drawnActions B.1 s
                    ([Action.Clear, Action.BeginScene] ++ B.2) ++ [Action.EndScene] ++ pt
                    ++ (if true = true then [Action.SDL_PushEvent_RENDER_TARGETS_RESET] else []))
                    = 1 := by
                  rw [resetEvents_append, hpre]
                  simp [resetEvents]
                refine ⟨by omega, ⟨fun _ => Or.inr ⟨hr, pt, hp, hfh⟩, fun _ => hcount⟩,
                  fun _ => ⟨_, by simp, hpre⟩, fun hfb => absurd hfb hnot⟩
              | false =>
                have hcount : resetEvents (drawnActions B.1 s
                    ([Action.Clear, Action.BeginScene] ++ B.2) ++ [Action.EndScene] ++ pt
                    ++ (if false = true then [Action.SDL_PushEvent_RENDER_TARGETS_RESET] else []))
                    = 0 := by
                  rw [resetEvents_append, hpre]
                  simp [resetEvents]
                refine ⟨by omega, ⟨fun h1 => by omega, ?_⟩, fun h1 => by omega,
                  fun hfb => absurd hfb hnot⟩
                intro hfail
                rcases hfail with hfb | ⟨hr', pt', hp', hf'⟩
                · exact absurd hfb hnot
                · rw [hp] at hp'
                  obtain ⟨rfl, rfl⟩ := Prod.mk.inj (Option.some.inj hp')
                  rw [hfh] at hf'
                  cases hf'
  · intro hret
    cases hc : FAILED a.Clear with
    | true =>
      rw [e1 hc]
      rfl
    | false =>
      cases hb : FAILED a.BeginScene with
      | true =>
        rw [e2 hc hb]
        rfl
      | false =>
        by_cases hd : B.1.m_Processor = none ∧ FAILED a.StretchRect = true
        · rw [e3 hc hb hd.1 hd.2]
          rfl
        · cases he : FAILED a.EndScene with
          | true =>
            rw [e4 hc hb hd he]
            rfl
          | false =>
            have hex : ∃ hr ∈ a.PresentEx, hr ≠ D3DERR_WASSTILLDRAWING := by
              rcases hret with hfb | hex
              · rcases hfb with h1 | h1 | h1 | h1
                · rw [hc] at h1
                  cases h1
                · rw [hb] at h1
                  cases h1
                · exact absurd h1 hd
                · rw [he] at h1
                  cases h1
              · exact hex
            rw [e5 hc hb hd he, Option.isSome_map']
            exact presentLoop_isSome _ _ hex

/-- A witness of C20: an `EndScene` failure on a renderer with a working
processor ends the call with `EndScene` and one reset event, and nothing is
presented. -/
theorem renderFrame_failure_policy_witness :
    (renderFrame keepDestination amdRendererWithProcessor (some { data3 := 77 })
        endSceneFails).map (fun r => (resetEvents r.2, r.2.getLast?, r.2.any Action.isPresentEx))
      = some (1, some Action.SDL_PushEvent_RENDER_TARGETS_RESET, false) := by
  rw [(renderFrame_failure_policy keepDestination amdRendererWithProcessor { data3 := 77 }
    endSceneFails _ _ rfl rfl).2.2.2.1 (by decide) (by decide) (by decide) (by decide)]
  decide

/-! ### Permanence of a processor failure -/

theorem renderFrame_finish_mem (me me' : DXVA2Renderer) (sample : DXVA2_VideoSample)
    (a : FrameAnswers) (done t : List Action)
    (h : renderFrame_finish me sample a done = some (me', t)) :
    ∀ x ∈ t, x ∈ done ∨ x.isVideoProcessBlt = false := by
  have hov : ∀ x ∈ drawnActions me sample done, x ∈ done ∨ x.isVideoProcessBlt = false := by
    intro x hx
    unfold drawnActions at hx
    rw [List.mem_append] at hx
    rcases hx with hx | hx
    · cases hn : me.m_Processor.isNone
      · rw [hn] at hx
        exact Or.inl hx
      · rw [hn] at hx
        simp only [if_true, List.mem_append, List.mem_singleton] at hx
        rcases hx with hx | hx
        · exact Or.inl hx
        · rw [hx]
          exact Or.inr rfl
    · obtain ⟨i, _, hi⟩ := List.mem_map.mp hx
      rw [← hi]
      exact Or.inr rfl
  by_cases hd : me.m_Processor = none ∧ FAILED a.StretchRect = true
  · rw [renderFrame_finish_stretch_fails me sample a done hd.1 hd.2] at h
    obtain ⟨-, rfl⟩ := Prod.mk.inj (Option.some.inj h)
    intro x hx
    rw [List.mem_append] at hx
    rcases hx with hx | hx
    · exact Or.inl hx
    · simp only [List.mem_cons, List.mem_singleton, List.not_mem_nil, or_false] at hx
      rcases hx with hx | hx <;> rw [hx] <;> exact Or.inr rfl
  · cases he : FAILED a.EndScene with
    | true =>
      rw [renderFrame_finish_endScene_fails me sample a done hd he] at h
      obtain ⟨-, rfl⟩ := Prod.mk.inj (Option.some.inj h)
      intro x hx
      rw [List.mem_append] at hx
      rcases hx with hx | hx
      · exact hov x hx
      · simp only [List.mem_cons, List.mem_singleton, List.not_mem_nil, or_false] at hx
        rcases hx with hx | hx <;> rw [hx] <;> exact Or.inr rfl
    | false =>
      rw [renderFrame_finish_present me sample a done hd he] at h
      cases hp : presentLoop (presentFlags me) a.PresentEx with
      | none =>
        rw [hp] at h
        cases h
      | some r =>
        obtain ⟨hr, pt⟩ := r
        rw [hp, Option.map_some'] at h
        dsimp only at h
        obtain ⟨-, rfl⟩ := Prod.mk.inj (Option.some.inj h)
        intro x hx
        simp only [List.mem_append] at hx
        rcases hx with ((hx | hx) | hx) | hx
        · exact hov x hx
        · simp only [List.mem_singleton] at hx
          rw [hx]
          exact Or.inr rfl
        · rcases (presentLoop_some _ _ hr pt hp).2.1 x hx with hx | hx <;> rw [hx] <;>
            exact Or.inr rfl
        · cases hfh : FAILED hr
          · rw [hfh] at hx
            simp at hx
          · rw [hfh] at hx
            simp only [if_true, List.mem_singleton] at hx
            rw [hx]
            exact Or.inr rfl

theorem renderFrame_finish_rawCopy (me me' : DXVA2Renderer) (sample : DXVA2_VideoSample)
    (a : FrameAnswers) (done t : List Action) (hp : me.m_Processor = none)
    (h : renderFrame_finish me sample a done = some (me', t)) :
    (done ++ [Action.StretchRect sample.SrcSurface sample.SrcRect sample.DstRect]) <+: t := by
  have hdrawn : drawnActions me sample done
      = done ++ [Action.StretchRect sample.SrcSurface sample.SrcRect sample.DstRect]
        ++ (List.range OverlayMax).map Action.renderOverlay := by
    unfold drawnActions
    rw [hp]
    rfl
  by_cases hd : me.m_Processor = none ∧ FAILED a.StretchRect = true
  · rw [renderFrame_finish_stretch_fails me sample a done hd.1 hd.2] at h
    obtain ⟨-, rfl⟩ := Prod.mk.inj (Option.some.inj h)
    exact ⟨[Action.SDL_PushEvent_RENDER_TARGETS_RESET], by simp⟩
  · cases he : FAILED a.EndScene with
    | true =>
      rw [renderFrame_finish_endScene_fails me sample a done hd he, hdrawn] at h
      obtain ⟨-, rfl⟩ := Prod.mk.inj (Option.some.inj h)
      exact (List.prefix_append _ _).trans (List.prefix_append _ _)
    | false =>
      rw [renderFrame_finish_present me sample a done hd he, hdrawn] at h
      cases hpl : presentLoop (presentFlags me) a.PresentEx with
      | none =>
        rw [hpl] at h
        cases h
      | some r =>
        rw [hpl, Option.map_some'] at h
        obtain ⟨-, rfl⟩ := Prod.mk.inj (Option.some.inj h)
        exact (List.prefix_append _ _).trans ((List.prefix_append _ _).trans
          ((List.prefix_append _ _).trans (List.prefix_append _ _)))

theorem renderFrame_geometry (scale : SDL_Rect → SDL_Rect → SDL_Rect) (me me' : DXVA2Renderer)
    (frame : Option AVFrame) (a : FrameAnswers) (t : List Action)
    (h : renderFrame scale me frame a = some (me', t)) : SameGeometry me me' := by
  cases frame with
  | none =>
    simp only [renderFrame, Option.some.injEq, Prod.mk.injEq] at h
    rw [← h.1]
    exact ⟨rfl, rfl, rfl, rfl⟩
  | some f =>
    rw [renderFrame_some_state scale me me' f a t h]
    exact ⟨rfl, rfl, rfl, rfl⟩

theorem renderFrame_sample_rects (scale : SDL_Rect → SDL_Rect → SDL_Rect) (m m' : DXVA2Renderer)
    (f f' : AVFrame) (hg : SameGeometry m m') :
    (renderFrame_sample scale (renderFrame_stamped m' f') f').SrcRect
        = (renderFrame_sample scale (renderFrame_stamped m f) f).SrcRect
    ∧ (renderFrame_sample scale (renderFrame_stamped m' f') f').DstRect
        = (renderFrame_sample scale (renderFrame_stamped m f) f).DstRect := by
  obtain ⟨h1, h2, h3, h4⟩ := hg
  simp only [renderFrame_sample, renderFrame_stamped, h1, h2, h3, h4, and_self]

theorem renderFrame_without_processor (scale : SDL_Rect → SDL_Rect → SDL_Rect)
    (m m' : DXVA2Renderer) (frame : Option AVFrame) (a : FrameAnswers) (t : List Action)
    (hm : m.m_Processor = none) (h : renderFrame scale m frame a = some (m', t)) :
    m'.m_Processor = none
    ∧ (∀ x ∈ t, x.isVideoProcessBlt = false)
    ∧ (∀ f : AVFrame, frame = some f → FAILED a.Clear = false → FAILED a.BeginScene = false →
        Action.StretchRect f.data3
          (renderFrame_sample scale (renderFrame_stamped m f) f).SrcRect
          (renderFrame_sample scale (renderFrame_stamped m f) f).DstRect ∈ t) := by
  cases frame with
  | none =>
    simp only [renderFrame, Option.some.injEq, Prod.mk.injEq] at h
    rw [← h.1, ← h.2]
    refine ⟨hm, ?_, ?_⟩
    · intro x hx
      cases hx
    · intro f hf
      cases hf
  | some f =>
    have hprep : (renderFrame_prepared m f).m_Processor = none := hm
    cases hc : FAILED a.Clear with
    | true =>
      simp only [renderFrame, hc, if_true, Option.some.injEq, Prod.mk.injEq] at h
      rw [← h.1, ← h.2]
      refine ⟨hprep, ?_, fun f' _ hc' => by cases hc'⟩
      intro x hx
      simp only [List.mem_cons, List.mem_singleton, List.not_mem_nil, or_false] at hx
      rcases hx with hx | hx <;> rw [hx] <;> rfl
    | false =>
      cases hb : FAILED a.BeginScene with
      | true =>
        simp only [renderFrame, hc, hb, Bool.false_eq_true, if_false, if_true,
          Option.some.injEq, Prod.mk.injEq] at h
        rw [← h.1, ← h.2]
        refine ⟨hprep, ?_, fun f' _ _ hb' => by cases hb'⟩
        intro x hx
        simp only [List.mem_cons, List.mem_singleton, List.not_mem_nil, or_false] at hx
        rcases hx with hx | hx | hx <;> rw [hx] <;> rfl
      | false =>
        rw [renderFrame_after_beginScene scale m f a hc hb] at h
        have hB : ∀ (blt : DXVA2_VideoProcessBltParams) (sm : DXVA2_VideoSample),
            renderFrame_processor (renderFrame_prepared m f) blt sm a.VideoProcessBlt
              = (renderFrame_prepared m f, []) := by
          intro blt sm
          unfold renderFrame_processor
          rw [hprep]
        rw [hB] at h
        dsimp only at h
        have hst := renderFrame_finish_state _ _ _ _ _ _ h
        refine ⟨by rw [hst]; exact hprep, ?_, ?_⟩
        · intro x hx
          rcases renderFrame_finish_mem _ _ _ _ _ _ h x hx with hx | hx
          · simp only [List.append_nil, List.mem_cons, List.mem_singleton, List.not_mem_nil,
              or_false] at hx
            rcases hx with hx | hx <;> rw [hx] <;> rfl
          · exact hx
        · intro f' hf' _ _
          obtain rfl := Option.some.inj hf'
          have hpre := renderFrame_finish_rawCopy _ _ _ _ _ _ hprep h
          exact hpre.subset (by simp [renderFrame_sample])

theorem renderFrames_without_processor (scale : SDL_Rect → SDL_Rect → SDL_Rect)
    (SrcRect DstRect : RECT) (later : List (Option AVFrame × FrameAnswers)) :
    ∀ (m m2 : DXVA2Renderer) (traces : List (List Action)),
      m.m_Processor = none →
      (∀ f : AVFrame, (renderFrame_sample scale (renderFrame_stamped m f) f).SrcRect = SrcRect
        ∧ (renderFrame_sample scale (renderFrame_stamped m f) f).DstRect = DstRect) →
      renderFrames scale m later = some (m2, traces) →
      m2.m_Processor = none ∧ List.Forall₂ (DrawnByRawCopy SrcRect DstRect) later traces := by
  induction later with
  | nil =>
    intro m m2 traces hm _ h
    simp only [renderFrames, Option.some.injEq, Prod.mk.injEq] at h
    rw [← h.1, ← h.2]
    exact ⟨hm, List.Forall₂.nil⟩
  | cons i rest ih =>
    intro m m2 traces hm hrects h
    obtain ⟨frame, a⟩ := i
    obtain ⟨m1, t1, ts, hstep, hrest, htr⟩ := renderFrames_cons_some scale m m2 frame a rest traces h
    obtain ⟨hm1, hnoblt, hraw⟩ := renderFrame_without_processor scale m m1 frame a t1 hm hstep
    have hg := renderFrame_geometry scale m m1 frame a t1 hstep
    have hrects1 : ∀ f : AVFrame,
        (renderFrame_sample scale (renderFrame_stamped m1 f) f).SrcRect = SrcRect
        ∧ (renderFrame_sample scale (renderFrame_stamped m1 f) f).DstRect = DstRect := by
      intro f
      obtain ⟨e1, e2⟩ := renderFrame_sample_rects scale m m1 f f hg
      exact ⟨e1.trans (hrects f).1, e2.trans (hrects f).2⟩
    obtain ⟨hm2, hall⟩ := ih m1 m2 ts hm1 hrects1 hrest
    rw [htr]
    refine ⟨hm2, List.Forall₂.cons ⟨hnoblt, ?_⟩ hall⟩
    intro f hf hc hb
    have := hraw f hf hc hb
    rw [(hrects f).1, (hrects f).2] at this
    exact this

/-- C19: a processor failure is permanent. Let `VideoProcessBlt` be invoked and
fail in a frame (processor `p` present, `Clear` and `BeginScene` succeeded) in a
call that returns. Then the renderer has no processor after the call; the call
performed `Clear`, `BeginScene`, the failed `VideoProcessBlt` on the sample `s`,
the release of the processor, and then the raw copy `StretchRect` of the frame's
surface with the source and destination rectangles of `s`; and after any
further sequence of calls that return, the renderer still has no processor, no
call of the sequence invoked `VideoProcessBlt`, and every call with a non-null
frame whose `Clear` and `BeginScene` succeeded issued `StretchRect` with those
same rectangles. -/
theorem renderFrame_processor_failure_permanent (scale : SDL_Rect → SDL_Rect → SDL_Rect)
    (me : DXVA2Renderer) (p : IDirectXVideoProcessor) (f : AVFrame) (a : FrameAnswers)
    (s : DXVA2_VideoSample) (m1 : DXVA2Renderer) (t1 : List Action)
    (hs : s = renderFrame_sample scale (renderFrame_stamped me f) f)
    (hp : me.m_Processor = some p)
    (hc : FAILED a.Clear = false) (hb : FAILED a.BeginScene = false)
    (hblt : FAILED a.VideoProcessBlt = true)
    (h1 : renderFrame scale me (some f) a = some (m1, t1)) :
    m1.m_Processor = none
    ∧ [Action.Clear, Action.BeginScene,
        Action.VideoProcessBlt p (renderFrame_bltParams (renderFrame_stamped me f) s) s,
        Action.ReleaseProcessor p,
        Action.StretchRect f.data3 s.SrcRect s.DstRect] <+: t1
    ∧ (∀ (later : List (Option AVFrame × FrameAnswers)) (m2 : DXVA2Renderer)
        (traces : List (List Action)),
        renderFrames scale m1 later = some (m2, traces) →
        m2.m_Processor = none
        ∧ List.Forall₂ (DrawnByRawCopy s.SrcRect s.DstRect) later traces) := by
  have hprep : (renderFrame_prepared me f).m_Processor = some p := hp
  have hB : renderFrame_processor (renderFrame_prepared me f)
      (renderFrame_bltParams (renderFrame_stamped me f) s) s a.VideoProcessBlt
      = ({ renderFrame_prepared me f with m_Processor := none },
         [Action.VideoProcessBlt p (renderFrame_bltParams (renderFrame_stamped me f) s) s,
          Action.ReleaseProcessor p]) := by
    unfold renderFrame_processor
    rw [hprep]
    simp only [hblt, if_true]
  rw [renderFrame_after_beginScene scale me f a hc hb, ← hs, hB] at h1
  dsimp only at h1
  have hst := renderFrame_finish_state _ _ _ _ _ _ h1
  have hnone : m1.m_Processor = none := by
    rw [hst]
  have hpre := renderFrame_finish_rawCopy _ _ _ _ _ _ rfl h1
  have hsurf : s.SrcSurface = f.data3 := by
    rw [hs]
    rfl
  rw [hsurf] at hpre
  refine ⟨hnone, hpre, ?_⟩
  intro later m2 traces hrun
  have hg : SameGeometry me m1 := by
    rw [hst]
    exact ⟨rfl, rfl, rfl, rfl⟩
  apply renderFrames_without_processor scale s.SrcRect s.DstRect later m1 m2 traces hnone _ hrun
  intro f'
  rw [hs]
  exact renderFrame_sample_rects scale me m1 f f' hg

/-- A witness of C19: on the AMD renderer holding processor 5, a frame whose
`VideoProcessBlt` fails leaves the renderer without processor. -/
theorem renderFrame_processor_failure_permanent_witness :
    (renderFrame keepDestination amdRendererWithProcessor (some { data3 := 77 })
        processorFails).map (fun r => r.1.m_Processor) = some none := by
  have hsome : (renderFrame keepDestination amdRendererWithProcessor (some { data3 := 77 })
      processorFails).isSome = true := by decide
  obtain ⟨r, hr⟩ := Option.isSome_iff_exists.mp hsome
  rw [hr, Option.map_some']
  exact congrArg some
    (renderFrame_processor_failure_permanent keepDestination amdRendererWithProcessor 5
      { data3 := 77 } processorFails _ r.1 r.2 rfl rfl (by decide) (by decide) (by decide) hr).1

/-! ### Swap-chain decision -/

theorem initializeDevice_windowMode_Windowed (c : Limelight) (me : DXVA2Renderer)
    (a : DeviceAnswers) :
    (initializeDevice_windowMode c me a).1.Windowed
      = decide (a.windowFlags &&& SDL_WINDOW_FULLSCREEN_DESKTOP ≠ SDL_WINDOW_FULLSCREEN) := by
  unfold initializeDevice_windowMode
  by_cases hfs : a.windowFlags &&& SDL_WINDOW_FULLSCREEN_DESKTOP = SDL_WINDOW_FULLSCREEN
  · by_cases hm : me.m_VideoFormat = c.VIDEO_FORMAT_H265_MAIN10 <;> simp [hfs, hm]
  · simp [hfs]

theorem initializeDevice_reaches_create (c : Limelight) (me : DXVA2Renderer) (a : DeviceAnswers)
    (enableVsync : Bool)
    (h1 : FAILED a.Direct3DCreate9Ex = false)
    (h2 : ¬ (me.m_VideoFormat = c.VIDEO_FORMAT_H265_MAIN10 ∧ FAILED a.CheckDeviceType = true)) :
    (∃ k : CreateDeviceExCall, (initializeDevice c me a enableVsync).2.2 = some k
      ∧ k.d3dpp = (initializeDevice_swapChain (initializeDevice_windowMode c me a).1
          a.dwmEnabled enableVsync).1)
    ∧ (initializeDevice c me a enableVsync).2.1.m_BlockingPresent
        = (initializeDevice_swapChain (initializeDevice_windowMode c me a).1
            a.dwmEnabled enableVsync).2 := by
  unfold initializeDevice
  rw [h1]
  simp only [Bool.false_eq_true, if_false, if_neg h2]
  cases FAILED a.CreateDeviceEx
  · cases FAILED a.SetMaximumFrameLatency
    · exact ⟨⟨_, rfl, rfl⟩, rfl⟩
    · exact ⟨⟨_, rfl, rfl⟩, rfl⟩
  · exact ⟨⟨_, rfl, rfl⟩, rfl⟩

/-- C13: the swap-chain decision of `initializeDevice`. Whenever the function
gets as far as its decision (`Direct3DCreate9Ex` succeeded and, for HEVC Main10,
the 10-bit check passed), with `composited` meaning windowed (not exclusive
full screen) and DWM composition enabled: composited gives interval immediate,
non-blocking present, and 2 back buffers with `FLIPEX` when V-sync is asked for,
else 1 back buffer with `DISCARD`; not composited with V-sync gives 1 buffer,
`DISCARD`, interval one, blocking present; not composited without V-sync gives 1
buffer, `DISCARD`, interval immediate, non-blocking. Blocking present holds iff
the interval is one iff not composited and V-sync asked for. -/
theorem initializeDevice_swapChain_table (c : Limelight) (me : DXVA2Renderer)
    (a : DeviceAnswers) (enableVsync : Bool) (composited : Bool)
    (h1 : FAILED a.Direct3DCreate9Ex = false)
    (h2 : ¬ (me.m_VideoFormat = c.VIDEO_FORMAT_H265_MAIN10 ∧ FAILED a.CheckDeviceType = true))
    (hcomp : composited
      = (decide (a.windowFlags &&& SDL_WINDOW_FULLSCREEN_DESKTOP ≠ SDL_WINDOW_FULLSCREEN)
          && a.dwmEnabled)) :
    ∃ k : CreateDeviceExCall, (initializeDevice c me a enableVsync).2.2 = some k
      ∧ k.d3dpp.Windowed
          = decide (a.windowFlags &&& SDL_WINDOW_FULLSCREEN_DESKTOP ≠ SDL_WINDOW_FULLSCREEN)
      ∧ (composited = true →
          k.d3dpp.PresentationInterval = D3DPRESENT_INTERVAL_IMMEDIATE
          ∧ (initializeDevice c me a enableVsync).2.1.m_BlockingPresent = false
          ∧ (enableVsync = true →
              k.d3dpp.BackBufferCount = 2 ∧ k.d3dpp.SwapEffect = D3DSWAPEFFECT_FLIPEX)
          ∧ (enableVsync = false →
              k.d3dpp.BackBufferCount = 1 ∧ k.d3dpp.SwapEffect = D3DSWAPEFFECT_DISCARD))
      ∧ (composited = false → enableVsync = true →
          k.d3dpp.BackBufferCount = 1 ∧ k.d3dpp.SwapEffect = D3DSWAPEFFECT_DISCARD
          ∧ k.d3dpp.PresentationInterval = D3DPRESENT_INTERVAL_ONE
          ∧ (initializeDevice c me a enableVsync).2.1.m_BlockingPresent = true)
      ∧ (composited = false → enableVsync = false →
          k.d3dpp.BackBufferCount = 1 ∧ k.d3dpp.SwapEffect = D3DSWAPEFFECT_DISCARD
          ∧ k.d3dpp.PresentationInterval = D3DPRESENT_INTERVAL_IMMEDIATE
          ∧ (initializeDevice c me a enableVsync).2.1.m_BlockingPresent = false)
      ∧ ((initializeDevice c me a enableVsync).2.1.m_BlockingPresent = true
          ↔ k.d3dpp.PresentationInterval = D3DPRESENT_INTERVAL_ONE)
      ∧ (k.d3dpp.PresentationInterval = D3DPRESENT_INTERVAL_ONE
          ↔ (composited = false ∧ enableVsync = true)) := by
  obtain ⟨⟨k, hk, hd⟩, hbp⟩ := initializeDevice_reaches_create c me a enableVsync h1 h2
  have hw := initializeDevice_windowMode_Windowed c me a
  refine ⟨k, hk, ?_⟩
  rw [hbp, hd]
  generalize (initializeDevice_windowMode c me a).1 = d0 at hw ⊢
  generalize decide (a.windowFlags &&& SDL_WINDOW_FULLSCREEN_DESKTOP ≠ SDL_WINDOW_FULLSCREEN)
    = windowed at hw hcomp ⊢
  subst hcomp
  unfold initializeDevice_swapChain
  rw [hw]
  cases windowed <;> cases a.dwmEnabled <;> cases enableVsync <;> simp [hw] <;> decide

/-- A windowed renderer under DWM composition with V-sync requested: two back
buffers, `FLIPEX`, immediate interval, non-blocking present. -/
theorem initializeDevice_swapChain_table_witness :
    (initializeDevice limelightH amdRendererWithProcessor windowedComposited true).2.2.map
        (fun k => (k.d3dpp.BackBufferCount, k.d3dpp.SwapEffect, k.d3dpp.PresentationInterval))
      = some (2, D3DSWAPEFFECT_FLIPEX, D3DPRESENT_INTERVAL_IMMEDIATE)
    ∧ (initializeDevice limelightH amdRendererWithProcessor windowedComposited
        true).2.1.m_BlockingPresent = false := by
  obtain ⟨k, hk, _, hc, _⟩ := initializeDevice_swapChain_table limelightH
    amdRendererWithProcessor windowedComposited true true (by decide) (by decide) (by decide)
  obtain ⟨h1, h2, h3, _⟩ := hc rfl
  rw [hk, Option.map_some', (h3 rfl).1, (h3 rfl).2, h1]
  exact ⟨rfl, h2⟩

/-! ### Sample dimensions -/

theorem ldiff_two_pow_sub_one (n k : Nat) : Nat.ldiff n (2 ^ k - 1) = n - n % 2 ^ k := by
  have hq : n - n % 2 ^ k = 2 ^ k * (n / 2 ^ k) := by
    have := Nat.div_add_mod n (2 ^ k)
    omega
  rw [hq, ← Nat.shiftRight_eq_div_pow]
  apply Nat.eq_of_testBit_eq
  intro i
  rw [Nat.testBit_ldiff, Nat.testBit_two_pow_sub_one, Nat.testBit_mul_pow_two,
    Nat.testBit_shiftRight]
  by_cases h : i < k
  · have h' : ¬ k ≤ i := by omega
    simp [h, h']
  · have h' : k ≤ i := by omega
    have : k + (i - k) = i := by omega
    simp [h, h', this]

theorem FFALIGN_two_pow (x : Int) (hx : 0 ≤ x) (k : Nat) :
    FFALIGN x (2 ^ k) = (x + 2 ^ k - 1) - (x + 2 ^ k - 1) % 2 ^ k := by
  have hpos : (1 : Int) ≤ 2 ^ k := by
    have : (1 : Nat) ≤ 2 ^ k := Nat.one_le_two_pow
    exact_mod_cast this
  obtain ⟨n, hn⟩ := Int.eq_ofNat_of_zero_le (show (0 : Int) ≤ x + 2 ^ k - 1 by omega)
  have hm : ((2 : Int) ^ k - 1) = ((2 ^ k - 1 : Nat) : Int) := by
    have : 1 ≤ 2 ^ k := Nat.one_le_two_pow
    push_cast [Nat.cast_sub this]
    rfl
  unfold FFALIGN
  rw [hn, hm]
  show ((Nat.ldiff n (2 ^ k - 1) : Nat) : Int) = _
  rw [ldiff_two_pow_sub_one]
  have hle : n % 2 ^ k ≤ n := Nat.mod_le _ _
  push_cast [Nat.cast_sub hle]
  rfl

theorem FFALIGN_16 (x : Int) (hx : 0 ≤ x) : FFALIGN x 16 = (x + 15) - (x + 15) % 16 := by
  have h := FFALIGN_two_pow x hx 4
  norm_num at h
  rw [h]
  have e : x + 16 - 1 = x + 15 := by omega
  rw [e]

theorem FFALIGN_32 (x : Int) (hx : 0 ≤ x) : FFALIGN x 32 = (x + 31) - (x + 31) % 32 := by
  have h := FFALIGN_two_pow x hx 5
  norm_num at h
  rw [h]
  have e : x + 32 - 1 = x + 31 := by omega
  rw [e]

/-- The stored sample dimension for a non-negative `int` size `x`: the
smallest multiple of the alignment that is at least `x`, and a multiple of 16. -/
theorem initialize_aligned (c : Limelight) (videoFormat : Nat) (x : Int)
    (hx : 0 ≤ x) (hx' : x < 2 ^ 31) :
    initialize_alignment c videoFormat ∣ FFALIGN x (initialize_alignment c videoFormat) % 2 ^ 32
    ∧ x ≤ FFALIGN x (initialize_alignment c videoFormat) % 2 ^ 32
    ∧ (∀ m : Int, initialize_alignment c videoFormat ∣ m → x ≤ m →
        FFALIGN x (initialize_alignment c videoFormat) % 2 ^ 32 ≤ m)
    ∧ FFALIGN x (initialize_alignment c videoFormat) % 2 ^ 32 % 16 = 0 := by
  norm_num at hx' ⊢
  unfold initialize_alignment
  by_cases hm : videoFormat &&& c.VIDEO_FORMAT_MASK_H265 ≠ 0
  · rw [if_pos hm, FFALIGN_32 x hx]
    refine ⟨?_, ?_, ?_, ?_⟩
    · exact Int.dvd_of_emod_eq_zero (by omega)
    · omega
    · intro m hd hle
      obtain ⟨q, hq⟩ := hd
      omega
    · omega
  · rw [if_neg hm, FFALIGN_16 x hx]
    refine ⟨?_, ?_, ?_, ?_⟩
    · exact Int.dvd_of_emod_eq_zero (by omega)
    · omega
    · intro m hd hle
      obtain ⟨q, hq⟩ := hd
      omega
    · omega

theorem initializeDevice_state (c : Limelight) (me : DXVA2Renderer) (a : DeviceAnswers)
    (enableVsync : Bool) :
    (initializeDevice c me a enableVsync).2.1
      = { me with
          m_Device := (initializeDevice c me a enableVsync).2.1.m_Device
          m_BlockingPresent := (initializeDevice c me a enableVsync).2.1.m_BlockingPresent } := by
  unfold initializeDevice
  split_ifs <;> rfl

theorem initializeDevice_true_device (c : Limelight) (me : DXVA2Renderer) (a : DeviceAnswers)
    (enableVsync : Bool) (h : (initializeDevice c me a enableVsync).1 = true) :
    (initializeDevice c me a enableVsync).2.1.m_Device = a.device := by
  unfold initializeDevice at h ⊢
  split_ifs at h ⊢ <;> rfl

theorem initializeDecoder_state (c : Limelight) (qgetenv : Environment) (me : DXVA2Renderer)
    (a : DecoderAnswers) :
    (initializeDecoder c qgetenv me a).2.1
      = { me with
          m_DXVAContext := (initializeDecoder c qgetenv me a).2.1.m_DXVAContext
          m_Config := (initializeDecoder c qgetenv me a).2.1.m_Config } := by
  unfold initializeDecoder
  cases isDecoderBlacklisted c qgetenv me
  · cases FAILED a.DXVA2CreateVideoService
    · cases FAILED a.GetDecoderDeviceGuids
      · cases initializeDecoder_chooseGuid c me.m_VideoFormat me.m_DXVAContext.workaround
            a.guids with
        | none => rfl
        | some r =>
          cases FAILED a.GetDecoderConfigurations
          · cases initializeDecoder_chooseConfig a.configs with
            | none => rfl
            | some cfg => cases FAILED a.CreateSurface <;> cases FAILED a.CreateVideoDecoder <;> rfl
          · rfl
      · rfl
    · rfl
  · rfl

theorem initializeRenderer_state (qgetenv : Environment) (me : DXVA2Renderer)
    (a : RendererAnswers) :
    (initializeRenderer qgetenv me a).2
      = { me with
          m_DisplayWidth := (initializeRenderer qgetenv me a).2.m_DisplayWidth
          m_DisplayHeight := (initializeRenderer qgetenv me a).2.m_DisplayHeight
          m_Processor := (initializeRenderer qgetenv me a).2.m_Processor } := by
  unfold initializeRenderer
  dsimp only
  repeat' split
  all_goals rfl

theorem initializeDXVA2_desc (c : Limelight) (qgetenv : Environment) (me : DXVA2Renderer)
    (params : DECODER_PARAMETERS) (a : InitializeAnswers) :
    (initializeDXVA2 c qgetenv me params a).2.m_Desc = (initialize_desc c me params).m_Desc := by
  unfold initializeDXVA2
  dsimp only
  split_ifs
  · rw [initializeDevice_state]
  · rw [initializeDecoder_state, initializeDevice_state]
  · rw [initializeRenderer_state, initializeDecoder_state, initializeDevice_state]

/-- C14: the sample dimensions computed by `initialize` for a video width and
height that are non-negative `int`s. `SampleWidth` and `SampleHeight` are
multiples of the alignment, at least the width and the height, and no larger
than any other such multiple; the alignment is 32 exactly for the HEVC codecs
and 16 otherwise; and the conditions of the two assertions of
`initializeDecoder` hold for the renderer handed to `initializeDecoder` and for
the renderer `initialize` leaves, for every video format and all answers of the
platform. -/
theorem initialize_sample_dimensions (c : Limelight) (qgetenv : Environment)
    (me : DXVA2Renderer) (params : DECODER_PARAMETERS) (a : InitializeAnswers)
    (hw : 0 ≤ params.width) (hw' : params.width < 2 ^ 31)
    (hh : 0 ≤ params.height) (hh' : params.height < 2 ^ 31) :
    (initialize_alignment c params.videoFormat
        ∣ (initializeDXVA2 c qgetenv me params a).2.m_Desc.SampleWidth
      ∧ params.width ≤ (initializeDXVA2 c qgetenv me params a).2.m_Desc.SampleWidth
      ∧ ∀ m : Int, initialize_alignment c params.videoFormat ∣ m → params.width ≤ m →
          (initializeDXVA2 c qgetenv me params a).2.m_Desc.SampleWidth ≤ m)
    ∧ (initialize_alignment c params.videoFormat
        ∣ (initializeDXVA2 c qgetenv me params a).2.m_Desc.SampleHeight
      ∧ params.height ≤ (initializeDXVA2 c qgetenv me params a).2.m_Desc.SampleHeight
      ∧ ∀ m : Int, initialize_alignment c params.videoFormat ∣ m → params.height ≤ m →
          (initializeDXVA2 c qgetenv me params a).2.m_Desc.SampleHeight ≤ m)
    ∧ (c.WellFormed → c.IsCodec params.videoFormat →
        (initialize_alignment c params.videoFormat = 32 ↔ c.IsHEVC params.videoFormat)
        ∧ (initialize_alignment c params.videoFormat = 16 ↔ ¬ c.IsHEVC params.videoFormat))
    ∧ initializeDecoder_asserts
        (initializeDevice c (initialize_desc c me params) a.device params.enableVsync).2.1
    ∧ initializeDecoder_asserts (initializeDXVA2 c qgetenv me params a).2 := by
  obtain ⟨w1, w2, w3, w4⟩ := initialize_aligned c params.videoFormat params.width hw hw'
  obtain ⟨h1, h2, h3, h4⟩ := initialize_aligned c params.videoFormat params.height hh hh'
  have hdev : (initializeDevice c (initialize_desc c me params) a.device
      params.enableVsync).2.1.m_Desc = (initialize_desc c me params).m_Desc := by
    rw [initializeDevice_state]
  refine ⟨?_, ?_, ?_, ?_, ?_⟩
  · rw [initializeDXVA2_desc]
    exact ⟨w1, w2, w3⟩
  · rw [initializeDXVA2_desc]
    exact ⟨h1, h2, h3⟩
  · intro hc hf
    have hiff := c.mask_ne_zero_iff hc params.videoFormat hf
    unfold initialize_alignment
    by_cases hm : params.videoFormat &&& c.VIDEO_FORMAT_MASK_H265 ≠ 0
    · rw [if_pos hm]
      exact ⟨⟨fun _ => hiff.mp hm, fun _ => rfl⟩,
        ⟨fun h => absurd h (by decide), fun h => absurd (hiff.mp hm) h⟩⟩
    · rw [if_neg hm]
      exact ⟨⟨fun h => absurd h (by decide), fun h => absurd (hiff.mpr h) hm⟩,
        ⟨fun _ => fun h => hm (hiff.mpr h), fun _ => rfl⟩⟩
  · unfold initializeDecoder_asserts
    rw [hdev]
    exact ⟨w4, h4⟩
  · unfold initializeDecoder_asserts
    rw [initializeDXVA2_desc]
    exact ⟨w4, h4⟩

/-- A 1920x1080 HEVC stream: the sample height is at least 1080 and the
assertions of `initializeDecoder` hold. -/
theorem initialize_sample_dimensions_witness :
    (1080 : Int) ≤ (initializeDXVA2 limelightH emptyEnvironment amdRendererWithProcessor
        hevc1080p initializeSucceeds).2.m_Desc.SampleHeight
    ∧ initializeDecoder_asserts (initializeDXVA2 limelightH emptyEnvironment
        amdRendererWithProcessor hevc1080p initializeSucceeds).2 :=
  ⟨(initialize_sample_dimensions limelightH emptyEnvironment amdRendererWithProcessor hevc1080p
      initializeSucceeds (by decide) (by decide) (by decide) (by decide)).2.1.2.1,
   (initialize_sample_dimensions limelightH emptyEnvironment amdRendererWithProcessor hevc1080p
      initializeSucceeds (by decide) (by decide) (by decide) (by decide)).2.2.2.2⟩

/-! ### Profile selection -/

theorem initializeDecoder_chooseGuid_cons (c : Limelight) (hc : c.WellFormed)
    (videoFormat workaround : Nat) (guid : GUID) (rest : List GUID) :
    initializeDecoder_chooseGuid c videoFormat workaround (guid :: rest)
      = if AcceptableProfile c videoFormat guid then
          some (guid, if guid = DXVADDI_Intel_ModeH264_E then
            workaround ||| FF_DXVA2_WORKAROUND_INTEL_CLEARVIDEO else workaround)
        else initializeDecoder_chooseGuid c videoFormat workaround rest := by
  obtain ⟨h264, h265, h10, hne⟩ := hc
  have n45 : c.VIDEO_FORMAT_H264 ≠ c.VIDEO_FORMAT_H265 := by
    intro h
    rw [h] at h264
    exact h265 h264
  have n40 : c.VIDEO_FORMAT_H264 ≠ c.VIDEO_FORMAT_H265_MAIN10 := by
    intro h
    rw [h] at h264
    exact h10 h264
  have gEI : DXVA2_ModeH264_E ≠ DXVADDI_Intel_ModeH264_E := by decide
  have gFI : DXVA2_ModeH264_F ≠ DXVADDI_Intel_ModeH264_E := by decide
  have gMI : DXVA2_ModeHEVC_VLD_Main ≠ DXVADDI_Intel_ModeH264_E := by decide
  have gTI : DXVA2_ModeHEVC_VLD_Main10 ≠ DXVADDI_Intel_ModeH264_E := by decide
  rw [initializeDecoder_chooseGuid]
  by_cases f4 : videoFormat = c.VIDEO_FORMAT_H264
  · have f5 : videoFormat ≠ c.VIDEO_FORMAT_H265 := fun h => n45 (f4.symm.trans h)
    have f0 : videoFormat ≠ c.VIDEO_FORMAT_H265_MAIN10 := fun h => n40 (f4.symm.trans h)
    rw [if_pos f4]
    by_cases gEF : guid = DXVA2_ModeH264_E ∨ guid = DXVA2_ModeH264_F
    · have hacc : AcceptableProfile c videoFormat guid :=
        Or.inl ⟨f4, gEF.elim Or.inl (fun h => Or.inr (Or.inl h))⟩
      have hni : guid ≠ DXVADDI_Intel_ModeH264_E := by
        rcases gEF with h | h <;> rw [h]
        · exact gEI
        · exact gFI
      rw [if_pos gEF, if_pos hacc, if_neg hni]
    · rw [if_neg gEF]
      by_cases gI : guid = DXVADDI_Intel_ModeH264_E
      · have hacc : AcceptableProfile c videoFormat guid := Or.inl ⟨f4, Or.inr (Or.inr gI)⟩
        rw [if_pos gI, if_pos hacc, if_pos gI]
      · have hnacc : ¬ AcceptableProfile c videoFormat guid := by
          intro h
          rcases h with ⟨_, h | h | h⟩ | ⟨h, _⟩ | ⟨h, _⟩
          · exact gEF (Or.inl h)
          · exact gEF (Or.inr h)
          · exact gI h
          · exact f5 h
          · exact f0 h
        rw [if_neg gI, if_neg hnacc]
  · rw [if_neg f4]
    by_cases f5 : videoFormat = c.VIDEO_FORMAT_H265
    · have f0 : videoFormat ≠ c.VIDEO_FORMAT_H265_MAIN10 := fun h => hne (f5.symm.trans h)
      rw [if_pos f5]
      by_cases gM : guid = DXVA2_ModeHEVC_VLD_Main
      · have hacc : AcceptableProfile c videoFormat guid := Or.inr (Or.inl ⟨f5, gM⟩)
        have hni : guid ≠ DXVADDI_Intel_ModeH264_E := by
          rw [gM]
          exact gMI
        rw [if_pos gM, if_pos hacc, if_neg hni]
      · have hnacc : ¬ AcceptableProfile c videoFormat guid := by
          intro h
          rcases h with ⟨h, _⟩ | ⟨_, h⟩ | ⟨h, _⟩
          · exact f4 h
          · exact gM h
          · exact f0 h
        rw [if_neg gM, if_neg hnacc]
    · rw [if_neg f5]
      by_cases f0 : videoFormat = c.VIDEO_FORMAT_H265_MAIN10
      · rw [if_pos f0]
        by_cases gT : guid = DXVA2_ModeHEVC_VLD_Main10
        · have hacc : AcceptableProfile c videoFormat guid := Or.inr (Or.inr ⟨f0, gT⟩)
          have hni : guid ≠ DXVADDI_Intel_ModeH264_E := by
            rw [gT]
            exact gTI
          rw [if_pos gT, if_pos hacc, if_neg hni]
        · have hnacc : ¬ AcceptableProfile c videoFormat guid := by
            intro h
            rcases h with ⟨h, _⟩ | ⟨h, _⟩ | ⟨_, h⟩
            · exact f4 h
            · exact f5 h
            · exact gT h
          rw [if_neg gT, if_neg hnacc]
      · have hnacc : ¬ AcceptableProfile c videoFormat guid := by
          intro h
          rcases h with ⟨h, _⟩ | ⟨h, _⟩ | ⟨h, _⟩
          · exact f4 h
          · exact f5 h
          · exact f0 h
        rw [if_neg f0, if_neg hnacc]

theorem initializeDecoder_chooseGuid_spec (c : Limelight) (hc : c.WellFormed)
    (videoFormat workaround : Nat) (guids : List GUID) :
    (initializeDecoder_chooseGuid c videoFormat workaround guids).map Prod.fst
        = guids.find? (fun g => decide (AcceptableProfile c videoFormat g))
    ∧ (initializeDecoder_chooseGuid c videoFormat workaround guids = none
        ↔ ∀ g ∈ guids, ¬ AcceptableProfile c videoFormat g)
    ∧ (∀ (g : GUID) (w : Nat),
        initializeDecoder_chooseGuid c videoFormat workaround guids = some (g, w) →
        w = if g = DXVADDI_Intel_ModeH264_E then
              workaround ||| FF_DXVA2_WORKAROUND_INTEL_CLEARVIDEO else workaround) := by
  induction guids with
  | nil =>
    refine ⟨rfl, ⟨?_, fun _ => rfl⟩, ?_⟩
    · intro _ g hg
      cases hg
    · intro g w h
      cases h
  | cons guid rest ih =>
    obtain ⟨ih1, ih2, ih3⟩ := ih
    rw [initializeDecoder_chooseGuid_cons c hc]
    by_cases hacc : AcceptableProfile c videoFormat guid
    · rw [if_pos hacc]
      refine ⟨?_, ⟨?_, ?_⟩, ?_⟩
      · simp [List.find?, hacc]
      · intro h
        cases h
      · intro h
        exact absurd hacc (h guid (List.mem_cons_self _ _))
      · intro g w h
        obtain ⟨rfl, rfl⟩ := Prod.mk.inj (Option.some.inj h)
        rfl
    · rw [if_neg hacc]
      refine ⟨?_, ⟨?_, ?_⟩, ih3⟩
      · rw [ih1]
        simp [List.find?, hacc]
      · intro h g hg
        rcases List.mem_cons.mp hg with hg | hg
        · rw [hg]
          exact hacc
        · exact ih2.mp h g hg
      · intro h
        exact ih2.mpr (fun g hg => h g (List.mem_cons_of_mem _ hg))

/-- C15: profile selection in `initializeDecoder`. For every list of enumerated
profile identifiers and every video format, the loop chooses the first
identifier of the list that is acceptable for the format; it chooses none if and
only if no identifier of the list is acceptable, and then `initializeDecoder`
returns false; the workaround word it leaves is the old one with the Intel
ClearVideo flag added exactly when the chosen profile is
`DXVADDI_Intel_ModeH264_E`, so that, starting from the zeroed context of the
constructor, the flag is set if and only if that profile was chosen; and
`initializeDecoder` stores that word in `m_DXVAContext.workaround`. -/
theorem initializeDecoder_profile_selection (c : Limelight) (hc : c.WellFormed)
    (videoFormat workaround : Nat) (guids : List GUID) :
    (initializeDecoder_chooseGuid c videoFormat workaround guids).map Prod.fst
        = guids.find? (fun g => decide (AcceptableProfile c videoFormat g))
    ∧ (initializeDecoder_chooseGuid c videoFormat workaround guids = none
        ↔ ∀ g ∈ guids, ¬ AcceptableProfile c videoFormat g)
    ∧ (∀ (g : GUID) (w : Nat),
        initializeDecoder_chooseGuid c videoFormat workaround guids = some (g, w) →
        (w = if g = DXVADDI_Intel_ModeH264_E then
              workaround ||| FF_DXVA2_WORKAROUND_INTEL_CLEARVIDEO else workaround)
        ∧ (workaround = 0 →
            (w &&& FF_DXVA2_WORKAROUND_INTEL_CLEARVIDEO ≠ 0 ↔ g = DXVADDI_Intel_ModeH264_E)))
    ∧ (∀ (qgetenv : Environment) (me : DXVA2Renderer) (a : DecoderAnswers),
        me.m_VideoFormat = videoFormat → me.m_DXVAContext.workaround = workaround →
        a.guids = guids → isDecoderBlacklisted c qgetenv me = false →
        FAILED a.DXVA2CreateVideoService = false → FAILED a.GetDecoderDeviceGuids = false →
        (initializeDecoder_chooseGuid c videoFormat workaround guids = none →
          initializeDecoder c qgetenv me a = (false, me, none))
        ∧ (∀ (g : GUID) (w : Nat),
            initializeDecoder_chooseGuid c videoFormat workaround guids = some (g, w) →
            (initializeDecoder c qgetenv me a).2.2 = some g
            ∧ (initializeDecoder c qgetenv me a).2.1.m_DXVAContext.workaround = w)) := by
  obtain ⟨s1, s2, s3⟩ := initializeDecoder_chooseGuid_spec c hc videoFormat workaround guids
  refine ⟨s1, s2, ?_, ?_⟩
  · intro g w h
    have hw := s3 g w h
    refine ⟨hw, ?_⟩
    intro h0
    rw [hw, h0]
    by_cases hg : g = DXVADDI_Intel_ModeH264_E
    · rw [if_pos hg]
      exact ⟨fun _ => hg, fun _ => by decide⟩
    · rw [if_neg hg]
      exact ⟨fun h => absurd rfl h, fun h => absurd h hg⟩
  · intro qgetenv me a hf hw hg hb h1 h2
    subst hf hw hg
    constructor
    · intro hnone
      unfold initializeDecoder
      rw [hb, h1, h2, hnone]
      rfl
    · intro g w hsome
      unfold initializeDecoder
      rw [hb, h1, h2, hsome]
      simp only [Bool.false_eq_true, if_false]
      cases FAILED a.GetDecoderConfigurations
      · cases initializeDecoder_chooseConfig a.configs with
        | none => exact ⟨rfl, rfl⟩
        | some cfg =>
          cases FAILED a.CreateSurface <;> cases FAILED a.CreateVideoDecoder <;> exact ⟨rfl, rfl⟩
      · exact ⟨rfl, rfl⟩

/-- A device that lists the Intel-specific H.264 profile first: that profile is
chosen for H.264. -/
theorem initializeDecoder_profile_selection_witness :
    (initializeDecoder_chooseGuid limelightH limelightH.VIDEO_FORMAT_H264 0
        decoderSucceeds.guids).map Prod.fst = some DXVADDI_Intel_ModeH264_E :=
  (initializeDecoder_profile_selection limelightH (by decide) limelightH.VIDEO_FORMAT_H264 0
    decoderSucceeds.guids).1.trans (by decide)

/-! ### Processor capability check -/

theorem initializeRenderer_lacking (qgetenv : Environment) (me : DXVA2Renderer)
    (a : RendererAnswers)
    (hnb : isDXVideoProcessorAPIBlacklisted qgetenv me = false)
    (h1 : FAILED a.GetBackBuffer = false)
    (hbad : LacksProcessorCapability a.caps) :
    (initializeRenderer qgetenv me a).1 = false
    ∧ (initializeRenderer qgetenv me a).2.m_Processor = me.m_Processor := by
  have hnb' : isDXVideoProcessorAPIBlacklisted qgetenv
      { me with m_DisplayWidth := a.renderTargetWidth, m_DisplayHeight := a.renderTargetHeight }
      = false :=
    (isDXVideoProcessorAPIBlacklisted_congr qgetenv me _ rfl).trans hnb
  unfold initializeRenderer
  rw [h1]
  simp only [Bool.false_eq_true, if_false, hnb', Bool.not_false, if_true]
  by_cases c1 : FAILED a.DXVA2CreateVideoService = true
  · rw [if_pos c1]
    exact ⟨rfl, rfl⟩
  · rw [if_neg c1]
    by_cases c2 : FAILED a.GetVideoProcessorCaps = true
    · rw [if_pos c2]
      exact ⟨rfl, rfl⟩
    · rw [if_neg c2]
      by_cases c3 : a.caps.DeviceCaps &&& DXVA2_VPDev_HardwareDevice = 0
      · rw [if_pos c3]
        exact ⟨rfl, rfl⟩
      · rw [if_neg c3]
        by_cases c4 : a.caps.VideoProcessorOperations &&& DXVA2_VideoProcess_YUV2RGB = 0
            ∧ a.caps.VideoProcessorOperations &&& DXVA2_VideoProcess_YUV2RGBExtended = 0
        · rw [if_pos c4]
          exact ⟨rfl, rfl⟩
        · rw [if_neg c4]
          by_cases c5 : a.caps.VideoProcessorOperations &&& DXVA2_VideoProcess_StretchX = 0
              ∨ a.caps.VideoProcessorOperations &&& DXVA2_VideoProcess_StretchY = 0
          · rw [if_pos c5]
            exact ⟨rfl, rfl⟩
          · rcases hbad with h | h | h
            · exact absurd h c3
            · exact absurd h c4
            · exact absurd h c5

/-- C17, as stated, fails: on an AMD adapter (processor not avoided) whose
capability query reports a processor that is not hardware-backed,
`initializeRenderer` returns false and so does `initialize`. -/
theorem initializeRenderer_software_processor_fails :
    isDXVideoProcessorAPIBlacklisted emptyEnvironment freshRenderer = false
    ∧ softwareProcessor.caps.DeviceCaps &&& DXVA2_VPDev_HardwareDevice = 0
    ∧ (initializeRenderer emptyEnvironment freshRenderer softwareProcessor).1 = false
    ∧ (initializeDXVA2 limelightH emptyEnvironment freshRenderer hevc1080p
        initializeWithSoftwareProcessor).1 = false
    ∧ (initializeDXVA2 limelightH emptyEnvironment freshRenderer hevc1080p
        initializeSucceeds).1 = true := by
  decide

/-- C17, amended: when the processor is not avoided and the capability query
succeeds and reports a device that is not hardware-backed, or supports neither
YUV-to-RGB operation, or lacks horizontal or vertical stretch,
`initializeRenderer` returns false without creating a processor, and
`initialize`, which returns false as soon as one of its three stages does,
returns false as well. -/
theorem initializeRenderer_capability_check (qgetenv : Environment) (a : RendererAnswers)
    (h1 : FAILED a.GetBackBuffer = false)
    (hbad : LacksProcessorCapability a.caps) :
    (∀ me : DXVA2Renderer, isDXVideoProcessorAPIBlacklisted qgetenv me = false →
        (initializeRenderer qgetenv me a).1 = false
        ∧ (initializeRenderer qgetenv me a).2.m_Processor = me.m_Processor)
    ∧ (∀ (c : Limelight) (me : DXVA2Renderer) (params : DECODER_PARAMETERS)
        (ia : InitializeAnswers), ia.renderer = a →
        (∀ r : DXVA2Renderer, r.m_Device = ia.device.device →
          isDXVideoProcessorAPIBlacklisted qgetenv r = false) →
        (initializeDXVA2 c qgetenv me params ia).1 = false) := by
  constructor
  · intro me hnb
    exact initializeRenderer_lacking qgetenv me a hnb h1 hbad
  · intro c me params ia hia hnb
    unfold initializeDXVA2
    dsimp only
    cases hdev : (initializeDevice c (initialize_desc c me params) ia.device
        params.enableVsync).1 with
    | false => rfl
    | true =>
      simp only [Bool.not_true, Bool.false_eq_true, if_false]
      cases hdec : (initializeDecoder c qgetenv
          (initializeDevice c (initialize_desc c me params) ia.device params.enableVsync).2.1
          ia.decoder).1 with
      | false => rfl
      | true =>
        simp only [Bool.not_true, Bool.false_eq_true, if_false]
        rw [hia]
        apply (initializeRenderer_lacking qgetenv _ a _ h1 hbad).1
        apply hnb
        rw [initializeDecoder_state]
        exact initializeDevice_true_device c _ ia.device params.enableVsync hdev

/-- The software processor of the counterexample: `initializeRenderer` on the
fresh AMD renderer returns false and leaves it without processor. -/
theorem initializeRenderer_capability_check_witness :
    (initializeRenderer emptyEnvironment freshRenderer softwareProcessor).1 = false
    ∧ (initializeRenderer emptyEnvironment freshRenderer softwareProcessor).2.m_Processor = none :=
  (initializeRenderer_capability_check emptyEnvironment softwareProcessor (by decide)
    (by decide)).1 freshRenderer (by decide)

/-! ### C16: a failed overlay update -/

/-- C16, counterexample: the debug layer holds texture 11 and vertex buffer 12,
the overlay is enabled, a fresh surface is available and `CreateTexture` fails;
after `notifyOverlayUpdated` the layer's pair is (null, null), not the pair it
held before the call. -/
theorem notifyOverlayUpdated_failure_drops_previous :
    overlayTextureFails.getUpdatedOverlaySurface.isSome = true
    ∧ overlayTextureFails.isOverlayEnabledAgain = true
    ∧ FAILED overlayTextureFails.CreateTexture = true
    ∧ rendererWithOverlay.overlayLayer OverlayDebug = (some 11, some 12)
    ∧ (notifyOverlayUpdated rendererWithOverlay OverlayDebug overlayTextureFails).map
        (fun r => r.1.overlayLayer OverlayDebug) = some (none, none)
    ∧ (notifyOverlayUpdated rendererWithOverlay OverlayDebug overlayTextureFails).map
        (fun r => r.1.overlayLayer OverlayDebug)
      ≠ some (rendererWithOverlay.overlayLayer OverlayDebug) := by
  decide

/-- C16, amended: when `notifyOverlayUpdated(type)` is called with a fresh
surface available and the overlay enabled, and texture creation, texture
locking, vertex-buffer creation or vertex-buffer locking fails, the call
returns with the layer emptied: both of its entries are null, every other
layer and every other member is as before, and the pair the layer held before
the call was released right after the entries were cleared under the lock. -/
theorem notifyOverlayUpdated_failure_clears_layer (me : DXVA2Renderer) (type : OverlayType)
    (a : OverlayAnswers)
    (hsurface : a.getUpdatedOverlaySurface.isSome = true)
    (henabled : a.isOverlayEnabledAgain = true)
    (hfail : OverlayResourceFails a) :
    ∃ rest, notifyOverlayUpdated me type a
      = some ({ me with
                  m_OverlayTextures := me.m_OverlayTextures.set type none
                  m_OverlayVertexBuffers := me.m_OverlayVertexBuffers.set type none },
              [OverlayAction.SDL_AtomicLock,
               OverlayAction.SDL_AtomicUnlock (me.m_OverlayTextures.set type none)
                 (me.m_OverlayVertexBuffers.set type none)]
              ++ SAFE_COM_RELEASE_texture (me.m_OverlayTextures.getD type none)
              ++ SAFE_COM_RELEASE_vertexBuffer (me.m_OverlayVertexBuffers.getD type none)
              ++ rest) := by
  obtain ⟨newSurface, hs⟩ := Option.isSome_iff_exists.mp hsurface
  unfold notifyOverlayUpdated
  simp only [hs, henabled, Option.isNone_some, Bool.false_eq_true, false_and, if_false,
    Bool.not_true]
  unfold OverlayResourceFails at hfail
  by_cases h1 : FAILED a.CreateTexture = true
  · simp only [h1, if_true, List.append_assoc]
    exact ⟨_, rfl⟩
  by_cases h2 : FAILED a.LockRect = true
  · simp only [h1, h2, if_true, if_false, List.append_assoc]
    exact ⟨_, rfl⟩
  by_cases h3 : FAILED a.CreateVertexBuffer = true
  · simp only [h1, h2, h3, if_true, if_false, List.append_assoc]
    exact ⟨_, rfl⟩
  by_cases h4 : FAILED a.Lock = true
  · simp only [h1, h2, h3, h4, if_true, if_false, List.append_assoc]
    exact ⟨_, rfl⟩
  · rcases hfail with h | h | h | h
    · exact absurd h h1
    · exact absurd h h2
    · exact absurd h h3
    · exact absurd h h4

/-- C16, witness: the debug layer holding (11, 12), a fresh surface, the overlay
enabled and a failing `CreateTexture`; afterwards both entries of the layer are
null and the status layer is untouched. -/
theorem notifyOverlayUpdated_failure_clears_layer_witness :
    overlayTextureFails.getUpdatedOverlaySurface.isSome = true
    ∧ overlayTextureFails.isOverlayEnabledAgain = true
    ∧ OverlayResourceFails overlayTextureFails
    ∧ (notifyOverlayUpdated rendererWithOverlay OverlayDebug overlayTextureFails).map
        (fun r => (r.1.m_OverlayTextures, r.1.m_OverlayVertexBuffers))
      = some ([none, none], [none, none]) := by
  refine ⟨by decide, by decide, by decide, ?_⟩
  obtain ⟨rest, h⟩ := notifyOverlayUpdated_failure_clears_layer rendererWithOverlay
    OverlayDebug overlayTextureFails (by decide) (by decide) (by decide)
  rw [h]
  rfl

/-! ### C21: the cursor of the decode surface pool -/

/-- C21, as stated, fails: on a fresh pool of capacity 4 whose first call finds
`av_buffer_create` unable to allocate, the cursor is 1 after that call although
no call has returned a surface; after five calls it is 4 with three surfaces
returned. -/
theorem ffPoolAlloc_cursor_exceeds_surfaces_returned :
    (ffPoolAllocState (SurfacePool.fresh [10, 11, 12, 13]) firstAllocationFails
        1).m_SurfacesUsed = 1
    ∧ ((ffPoolAllocResults (SurfacePool.fresh [10, 11, 12, 13]) firstAllocationFails
        1).filter Option.isSome).length = 0
    ∧ (ffPoolAllocState (SurfacePool.fresh [10, 11, 12, 13]) firstAllocationFails
        5).m_SurfacesUsed = 4
    ∧ ((ffPoolAllocResults (SurfacePool.fresh [10, 11, 12, 13]) firstAllocationFails
        5).filter Option.isSome).length = 3 := by
  decide

/-- C21, amended: the cursor invariant of the decode surface pool. Starting
from the cursor 0 the constructor sets, after any number `n` of `ffPoolAlloc`
calls, whatever allocations of `av_buffer_create` fail, the array is the one the
pool started with, the cursor `m_SurfacesUsed` is at most its length `N`, is no
smaller after any further calls, and equals the number of the `n` calls that
read a slot of the array. The number of calls that returned a surface is at most
the cursor, and equals it exactly when no allocation failed in a call that read
a slot. The next call reads the array, if at all, at an index below `N`, and
returns what `av_buffer_create` makes of that slot. -/
theorem ffPoolAlloc_cursor_invariant (surfaces : List LPDIRECT3DSURFACE9)
    (allocates : Nat → Bool) (n : Nat) :
    (ffPoolAllocState (SurfacePool.fresh surfaces) allocates n).m_DecSurfaces = surfaces
    ∧ (ffPoolAllocState (SurfacePool.fresh surfaces) allocates n).m_SurfacesUsed
        ≤ surfaces.length
    ∧ (∀ m : Nat, n ≤ m →
        (ffPoolAllocState (SurfacePool.fresh surfaces) allocates n).m_SurfacesUsed
          ≤ (ffPoolAllocState (SurfacePool.fresh surfaces) allocates m).m_SurfacesUsed)
    ∧ (ffPoolAllocState (SurfacePool.fresh surfaces) allocates n).m_SurfacesUsed
        = ((List.range n).filter (fun k =>
            (ffPoolAlloc_indexRead
              (ffPoolAllocState (SurfacePool.fresh surfaces) allocates k)).isSome)).length
    ∧ ((ffPoolAllocResults (SurfacePool.fresh surfaces) allocates n).filter
          Option.isSome).length
        ≤ (ffPoolAllocState (SurfacePool.fresh surfaces) allocates n).m_SurfacesUsed
    ∧ (((ffPoolAllocResults (SurfacePool.fresh surfaces) allocates n).filter
          Option.isSome).length
        = (ffPoolAllocState (SurfacePool.fresh surfaces) allocates n).m_SurfacesUsed
        ↔ ∀ k : Nat, k < n → k < surfaces.length → allocates k = true)
    ∧ (∀ i : Nat,
        ffPoolAlloc_indexRead (ffPoolAllocState (SurfacePool.fresh surfaces) allocates n)
          = some i →
        i < surfaces.length
        ∧ ffPoolAllocNth (SurfacePool.fresh surfaces) allocates n
            = surfaces[i]?.bind (fun s => av_buffer_create s (allocates n)))
    ∧ (ffPoolAlloc_indexRead (ffPoolAllocState (SurfacePool.fresh surfaces) allocates n)
          = none →
        ffPoolAllocNth (SurfacePool.fresh surfaces) allocates n = none) := by
  have hs := ffPoolAllocState_surfaces (SurfacePool.fresh surfaces) allocates n
  have hu := ffPoolAllocState_fresh_used surfaces allocates n
  have hnth := ffPoolAllocNth_fresh surfaces allocates n
  have hcount := ffPoolAllocResults_fresh_count surfaces allocates n
  have hle : ((List.range (min n surfaces.length)).filter allocates).length
      ≤ min n surfaces.length := by
    have := List.length_filter_le allocates (List.range (min n surfaces.length))
    rwa [List.length_range] at this
  refine ⟨hs, ?_, ?_, ?_, ?_, ?_, ?_, ?_⟩
  · rw [hu]
    exact Nat.min_le_right _ _
  · intro m hm
    exact ffPoolAllocState_used_mono _ allocates n m hm
  · rw [hu, ffPoolAlloc_indexRead_count]
  · rw [hu, hcount]
    exact hle
  · rw [hu, hcount]
    have key : ((List.range (min n surfaces.length)).filter allocates).length
          = min n surfaces.length
        ↔ ∀ k ∈ List.range (min n surfaces.length), allocates k = true := by
      have hiff := @List.filter_length_eq_length _ allocates
        (List.range (min n surfaces.length))
      rwa [List.length_range] at hiff
    rw [key]
    constructor
    · intro h k hkn hkN
      exact h k (List.mem_range.mpr (by omega))
    · intro h k hk
      have hk' := List.mem_range.mp hk
      exact h k (by omega) (by omega)
  · intro i hi
    unfold ffPoolAlloc_indexRead at hi
    rw [hs, hu] at hi
    simp only [SurfacePool.fresh] at hi
    split at hi
    · rename_i hlt
      have hi' : min n surfaces.length = i := Option.some.inj hi
      have hlt' : i < surfaces.length := by omega
      have hni : n = i := by omega
      subst hni
      refine ⟨hlt', ?_⟩
      rw [hnth, dif_pos hlt', List.getElem?_eq_getElem hlt']
      rfl
    · cases hi
  · intro hi
    unfold ffPoolAlloc_indexRead at hi
    rw [hs, hu] at hi
    simp only [SurfacePool.fresh] at hi
    split at hi
    · cases hi
    · rename_i hlt
      have hn : ¬ n < surfaces.length := by omega
      rw [hnth, dif_neg hn]

/-- C21, witness: a pool of four surfaces whose first allocation fails. After
five calls the cursor is 4 and counts the four calls that read a slot, the third
call read index 2 and returned slot 2, and the fifth call read no element. With
no allocation failing the cursor equals the number of surfaces returned. -/
theorem ffPoolAlloc_cursor_invariant_witness :
    (ffPoolAllocState (SurfacePool.fresh [10, 11, 12, 13]) firstAllocationFails
        5).m_SurfacesUsed = 4
    ∧ ((ffPoolAllocResults (SurfacePool.fresh [10, 11, 12, 13]) firstAllocationFails
        5).filter Option.isSome).length
        ≤ (ffPoolAllocState (SurfacePool.fresh [10, 11, 12, 13]) firstAllocationFails
            5).m_SurfacesUsed
    ∧ ffPoolAlloc_indexRead
        (ffPoolAllocState (SurfacePool.fresh [10, 11, 12, 13]) firstAllocationFails 4) = none
    ∧ ffPoolAllocNth (SurfacePool.fresh [10, 11, 12, 13]) firstAllocationFails 2
        = some ⟨12⟩
    ∧ ((ffPoolAllocResults (SurfacePool.fresh [10, 11, 12, 13]) allocationNeverFails
        5).filter Option.isSome).length
        = (ffPoolAllocState (SurfacePool.fresh [10, 11, 12, 13]) allocationNeverFails
            5).m_SurfacesUsed :=
  ⟨by decide,
   (ffPoolAlloc_cursor_invariant [10, 11, 12, 13] firstAllocationFails 5).2.2.2.2.1,
   by decide,
   ((ffPoolAlloc_cursor_invariant [10, 11, 12, 13] firstAllocationFails 2).2.2.2.2.2.2.1 2
      (by decide)).2,
   (ffPoolAlloc_cursor_invariant [10, 11, 12, 13] allocationNeverFails 5).2.2.2.2.2.1.mpr
      (fun _ _ _ => rfl)⟩

/-! ### C22: the pairing of the overlay arrays -/

theorem getD_set_none {α : Type} (l : List (Option α)) (i j : Nat) (x : Option α) :
    (l.set i x).getD j none = if i = j ∧ i < l.length then x else l.getD j none := by
  simp only [List.getD_eq_getElem?_getD, List.getElem?_set]
  by_cases hij : i = j
  · subst hij
    by_cases hlt : i < l.length
    · simp [hlt]
    · simp [hlt, List.getElem?_eq_none (Nat.le_of_not_lt hlt)]
  · simp [hij]

theorem OverlayPaired_set (t : List (Option IDirect3DTexture9))
    (v : List (Option IDirect3DVertexBuffer9)) (type : OverlayType)
    (x : Option IDirect3DTexture9) (y : Option IDirect3DVertexBuffer9)
    (h : OverlayPaired t v) (hxy : x.isNone = true ↔ y.isNone = true) :
    OverlayPaired (t.set type x) (v.set type y) := by
  obtain ⟨ht, hv, hp⟩ := h
  refine ⟨by rw [List.length_set, ht], by rw [List.length_set, hv], ?_⟩
  intro j hj
  rw [getD_set_none, getD_set_none, ht, hv]
  by_cases hc : type = j ∧ type < OverlayMax
  · rw [if_pos hc, if_pos hc]
    exact hxy
  · rw [if_neg hc, if_neg hc]
    exact hp j hj

theorem OverlayPaired_constructed (device : IDirect3DDevice9Ex) (videoFormat : Nat) :
    OverlayPaired (DXVA2Renderer.constructed device videoFormat).m_OverlayTextures
      (DXVA2Renderer.constructed device videoFormat).m_OverlayVertexBuffers :=
  ⟨rfl, rfl, fun _ _ => Iff.rfl⟩

theorem SAFE_COM_RELEASE_texture_unlock (o : Option IDirect3DTexture9)
    (t : List (Option IDirect3DTexture9)) (v : List (Option IDirect3DVertexBuffer9)) :
    OverlayAction.SDL_AtomicUnlock t v ∉ SAFE_COM_RELEASE_texture o := by
  cases o <;> simp [SAFE_COM_RELEASE_texture]

theorem SAFE_COM_RELEASE_vertexBuffer_unlock (o : Option IDirect3DVertexBuffer9)
    (t : List (Option IDirect3DTexture9)) (v : List (Option IDirect3DVertexBuffer9)) :
    OverlayAction.SDL_AtomicUnlock t v ∉ SAFE_COM_RELEASE_vertexBuffer o := by
  cases o <;> simp [SAFE_COM_RELEASE_vertexBuffer]

theorem notifyOverlayUpdated_copyPixels_unlock (newSurface : SDL_Surface) (lockedPitch : Int)
    (t : List (Option IDirect3DTexture9)) (v : List (Option IDirect3DVertexBuffer9)) :
    OverlayAction.SDL_AtomicUnlock t v
      ∉ notifyOverlayUpdated_copyPixels newSurface lockedPitch := by
  unfold notifyOverlayUpdated_copyPixels
  split <;> simp

/-- The arrays a returning `notifyOverlayUpdated` leaves are the old ones, the
old ones with the layer cleared, or those with the new pair installed; at each
release of the lock they are one of the last two. -/
theorem notifyOverlayUpdated_arrays (me me' : DXVA2Renderer) (type : OverlayType)
    (a : OverlayAnswers) (trace : List OverlayAction)
    (h : notifyOverlayUpdated me type a = some (me', trace)) :
    ((me'.m_OverlayTextures = me.m_OverlayTextures
        ∧ me'.m_OverlayVertexBuffers = me.m_OverlayVertexBuffers)
      ∨ (me'.m_OverlayTextures = me.m_OverlayTextures.set type none
        ∧ me'.m_OverlayVertexBuffers = me.m_OverlayVertexBuffers.set type none)
      ∨ (me'.m_OverlayTextures
            = (me.m_OverlayTextures.set type none).set type (some a.newTexture)
        ∧ me'.m_OverlayVertexBuffers
            = (me.m_OverlayVertexBuffers.set type none).set type (some a.newVertexBuffer)))
    ∧ ∀ (t : List (Option IDirect3DTexture9)) (v : List (Option IDirect3DVertexBuffer9)),
        OverlayAction.SDL_AtomicUnlock t v ∈ trace →
        (t = me.m_OverlayTextures.set type none
          ∧ v = me.m_OverlayVertexBuffers.set type none)
        ∨ (t = (me.m_OverlayTextures.set type none).set type (some a.newTexture)
          ∧ v = (me.m_OverlayVertexBuffers.set type none).set type
              (some a.newVertexBuffer)) := by
  unfold notifyOverlayUpdated at h
  have hr1 := SAFE_COM_RELEASE_texture_unlock (me.m_OverlayTextures.getD type none)
  have hr2 := SAFE_COM_RELEASE_vertexBuffer_unlock (me.m_OverlayVertexBuffers.getD type none)
  split at h
  · obtain ⟨rfl, rfl⟩ := Prod.mk.inj (Option.some.inj h)
    exact ⟨Or.inl ⟨rfl, rfl⟩, fun t v hm => by cases hm⟩
  · dsimp only at h
    split at h
    · obtain ⟨rfl, rfl⟩ := Prod.mk.inj (Option.some.inj h)
      refine ⟨Or.inr (Or.inl ⟨rfl, rfl⟩), ?_⟩
      intro t v hm
      simp only [List.mem_append, List.mem_cons, List.mem_singleton, hr1, hr2, or_false,
        false_or, List.not_mem_nil, OverlayAction.SDL_AtomicUnlock.injEq, reduceCtorEq] at hm
      exact Or.inl hm
    · split at h
      · cases h
      · rename_i newSurface hsurf
        have hcp := notifyOverlayUpdated_copyPixels_unlock newSurface a.lockedPitch
        split at h
        · obtain ⟨rfl, rfl⟩ := Prod.mk.inj (Option.some.inj h)
          refine ⟨Or.inr (Or.inl ⟨rfl, rfl⟩), ?_⟩
          intro t v hm
          simp only [List.mem_append, List.mem_cons, List.mem_singleton, hr1, hr2, or_false,
            false_or, List.not_mem_nil, OverlayAction.SDL_AtomicUnlock.injEq, reduceCtorEq] at hm
          exact Or.inl hm
        · split at h
          · obtain ⟨rfl, rfl⟩ := Prod.mk.inj (Option.some.inj h)
            refine ⟨Or.inr (Or.inl ⟨rfl, rfl⟩), ?_⟩
            intro t v hm
            simp only [List.mem_append, List.mem_cons, List.mem_singleton, hr1, hr2, or_false,
              false_or, List.not_mem_nil, OverlayAction.SDL_AtomicUnlock.injEq, reduceCtorEq] at hm
            exact Or.inl hm
          · split at h
            · obtain ⟨rfl, rfl⟩ := Prod.mk.inj (Option.some.inj h)
              refine ⟨Or.inr (Or.inl ⟨rfl, rfl⟩), ?_⟩
              intro t v hm
              simp only [List.mem_append, List.mem_cons, List.mem_singleton, hr1, hr2, hcp,
                or_false, false_or, List.not_mem_nil,
                OverlayAction.SDL_AtomicUnlock.injEq, reduceCtorEq] at hm
              exact Or.inl hm
            · split at h
              · obtain ⟨rfl, rfl⟩ := Prod.mk.inj (Option.some.inj h)
                refine ⟨Or.inr (Or.inl ⟨rfl, rfl⟩), ?_⟩
                intro t v hm
                simp only [List.mem_append, List.mem_cons, List.mem_singleton, hr1, hr2, hcp,
                  or_false, false_or, List.not_mem_nil,
                  OverlayAction.SDL_AtomicUnlock.injEq, reduceCtorEq] at hm
                exact Or.inl hm
              · obtain ⟨rfl, rfl⟩ := Prod.mk.inj (Option.some.inj h)
                refine ⟨Or.inr (Or.inr ⟨rfl, rfl⟩), ?_⟩
                intro t v hm
                simp only [List.mem_append, List.mem_cons, List.mem_singleton, hr1, hr2, hcp,
                  or_false, false_or, List.not_mem_nil,
                  OverlayAction.SDL_AtomicUnlock.injEq, reduceCtorEq] at hm
                rcases hm with hm | hm
                · exact Or.inl hm
                · exact Or.inr hm

theorem notifyOverlayUpdated_paired (me me' : DXVA2Renderer) (type : OverlayType)
    (a : OverlayAnswers) (trace : List OverlayAction)
    (hp : OverlayPaired me.m_OverlayTextures me.m_OverlayVertexBuffers)
    (h : notifyOverlayUpdated me type a = some (me', trace)) :
    OverlayPaired me'.m_OverlayTextures me'.m_OverlayVertexBuffers
    ∧ ∀ (t : List (Option IDirect3DTexture9)) (v : List (Option IDirect3DVertexBuffer9)),
        OverlayAction.SDL_AtomicUnlock t v ∈ trace → OverlayPaired t v := by
  obtain ⟨hstate, hunlock⟩ := notifyOverlayUpdated_arrays me me' type a trace h
  have hcleared : OverlayPaired (me.m_OverlayTextures.set type none)
      (me.m_OverlayVertexBuffers.set type none) :=
    OverlayPaired_set _ _ type none none hp Iff.rfl
  have hinstalled : OverlayPaired
      ((me.m_OverlayTextures.set type none).set type (some a.newTexture))
      ((me.m_OverlayVertexBuffers.set type none).set type (some a.newVertexBuffer)) :=
    OverlayPaired_set _ _ type _ _ hcleared
      ⟨fun hx => (by cases hx), fun hx => (by cases hx)⟩
  constructor
  · rcases hstate with ⟨h1, h2⟩ | ⟨h1, h2⟩ | ⟨h1, h2⟩
    · rw [h1, h2]
      exact hp
    · rw [h1, h2]
      exact hcleared
    · rw [h1, h2]
      exact hinstalled
  · intro t v hm
    rcases hunlock t v hm with ⟨h1, h2⟩ | ⟨h1, h2⟩
    · rw [h1, h2]
      exact hcleared
    · rw [h1, h2]
      exact hinstalled

theorem notifyOverlayUpdates_cons_some (me me1 me' : DXVA2Renderer) (type : OverlayType)
    (a : OverlayAnswers) (rest : List (OverlayType × OverlayAnswers))
    (t1 trace : List OverlayAction)
    (h1 : notifyOverlayUpdated me type a = some (me1, t1))
    (h : notifyOverlayUpdates me ((type, a) :: rest) = some (me', trace)) :
    ∃ t2, notifyOverlayUpdates me1 rest = some (me', t2) ∧ trace = t1 ++ t2 := by
  simp only [notifyOverlayUpdates, h1] at h
  cases hrest : notifyOverlayUpdates me1 rest with
  | none =>
    rw [hrest] at h
    cases h
  | some r =>
    rw [hrest] at h
    obtain ⟨rfl, rfl⟩ := Prod.mk.inj (Option.some.inj h)
    exact ⟨r.2, rfl, rfl⟩

theorem notifyOverlayUpdates_paired (calls : List (OverlayType × OverlayAnswers))
    (me me' : DXVA2Renderer) (trace : List OverlayAction)
    (hp : OverlayPaired me.m_OverlayTextures me.m_OverlayVertexBuffers)
    (h : notifyOverlayUpdates me calls = some (me', trace)) :
    OverlayPaired me'.m_OverlayTextures me'.m_OverlayVertexBuffers
    ∧ ∀ (t : List (Option IDirect3DTexture9)) (v : List (Option IDirect3DVertexBuffer9)),
        OverlayAction.SDL_AtomicUnlock t v ∈ trace → OverlayPaired t v := by
  induction calls generalizing me trace with
  | nil =>
    simp only [notifyOverlayUpdates, Option.some.injEq, Prod.mk.injEq] at h
    obtain ⟨rfl, rfl⟩ := h
    exact ⟨hp, fun t v hm => by cases hm⟩
  | cons call rest ih =>
    obtain ⟨type, a⟩ := call
    cases h1 : notifyOverlayUpdated me type a with
    | none =>
      simp only [notifyOverlayUpdates, h1] at h
      cases h
    | some r =>
      obtain ⟨me1, t1⟩ := r
      obtain ⟨t2, h2, rfl⟩ := notifyOverlayUpdates_cons_some me me1 me' type a rest t1 trace h1 h
      obtain ⟨hp1, hu1⟩ := notifyOverlayUpdated_paired me me1 type a t1 hp h1
      obtain ⟨hp2, hu2⟩ := ih me1 t2 hp1 h2
      refine ⟨hp2, ?_⟩
      intro t v hm
      rcases List.mem_append.mp hm with hm | hm
      · exact hu1 t v hm
      · exact hu2 t v hm

theorem notifyOverlayUpdated_isSome (me : DXVA2Renderer) (type : OverlayType)
    (a : OverlayAnswers) :
    (notifyOverlayUpdated me type a).isSome = true
      ↔ ¬ (a.getUpdatedOverlaySurface = none ∧ a.isOverlayEnabled = false
            ∧ a.isOverlayEnabledAgain = true) := by
  unfold notifyOverlayUpdated
  cases hs : a.getUpdatedOverlaySurface with
  | none =>
    cases h1 : a.isOverlayEnabled <;> cases h2 : a.isOverlayEnabledAgain <;> simp
  | some newSurface =>
    simp only [Option.isNone_some, Bool.false_eq_true, false_and, if_false, reduceCtorEq,
      not_false_eq_true, iff_true]
    repeat' split
    all_goals rfl

theorem renderOverlay_paired (me : DXVA2Renderer) (type : OverlayType)
    (a : RenderOverlayAnswers)
    (hp : OverlayPaired me.m_OverlayTextures me.m_OverlayVertexBuffers) :
    (renderOverlay me type a).isSome = true := by
  unfold renderOverlay
  split
  · rfl
  · split
    · rfl
    · split
      · rfl
      · rename_i overlayTexture htex
        split
        · rename_i hvb
          by_cases hlt : type < OverlayMax
          · have := (hp.2.2 type hlt).mpr (by rw [hvb]; rfl)
            rw [htex] at this
            cases this
          · rw [List.getD_eq_getElem?_getD,
              List.getElem?_eq_none (by rw [hp.1]; exact Nat.le_of_not_lt hlt)] at htex
            cases htex
        · dsimp only
          repeat' split
          all_goals rfl

/-- C22: the pairing invariant of the overlay layers. The arrays the
constructor leaves are paired: for every overlay type the texture is null
exactly when the vertex buffer is null. A `notifyOverlayUpdated` call returns
unless it is given no surface while the overlay is reported disabled at line
800 and enabled at line 817; when it returns from paired arrays, on whichever
path, the arrays it leaves are paired and so are the arrays at each
`SDL_AtomicUnlock` of the call. Hence after any sequence of calls that starts
from the constructed renderer the arrays are paired, at the end and at every
release of the lock, and on each of those states `renderOverlay` passes its
assertion that the vertex buffer is not null, for every overlay type. -/
theorem overlay_pairing_invariant :
    (∀ (device : IDirect3DDevice9Ex) (videoFormat : Nat),
      OverlayPaired (DXVA2Renderer.constructed device videoFormat).m_OverlayTextures
        (DXVA2Renderer.constructed device videoFormat).m_OverlayVertexBuffers)
    ∧ (∀ (me : DXVA2Renderer) (type : OverlayType) (a : OverlayAnswers),
        (notifyOverlayUpdated me type a).isSome = true
          ↔ ¬ (a.getUpdatedOverlaySurface = none ∧ a.isOverlayEnabled = false
                ∧ a.isOverlayEnabledAgain = true))
    ∧ (∀ (me me' : DXVA2Renderer) (type : OverlayType) (a : OverlayAnswers)
        (trace : List OverlayAction),
        OverlayPaired me.m_OverlayTextures me.m_OverlayVertexBuffers →
        notifyOverlayUpdated me type a = some (me', trace) →
        OverlayPaired me'.m_OverlayTextures me'.m_OverlayVertexBuffers
        ∧ ∀ (t : List (Option IDirect3DTexture9)) (v : List (Option IDirect3DVertexBuffer9)),
            OverlayAction.SDL_AtomicUnlock t v ∈ trace → OverlayPaired t v)
    ∧ (∀ (device : IDirect3DDevice9Ex) (videoFormat : Nat)
        (calls : List (OverlayType × OverlayAnswers)) (me' : DXVA2Renderer)
        (trace : List OverlayAction),
        notifyOverlayUpdates (DXVA2Renderer.constructed device videoFormat) calls
          = some (me', trace) →
        (OverlayPaired me'.m_OverlayTextures me'.m_OverlayVertexBuffers
          ∧ ∀ (type : OverlayType) (d : RenderOverlayAnswers),
              (renderOverlay me' type d).isSome = true)
        ∧ ∀ (t : List (Option IDirect3DTexture9)) (v : List (Option IDirect3DVertexBuffer9)),
            OverlayAction.SDL_AtomicUnlock t v ∈ trace →
            OverlayPaired t v
            ∧ ∀ (type : OverlayType) (d : RenderOverlayAnswers),
                (renderOverlay { me' with m_OverlayTextures := t, m_OverlayVertexBuffers := v }
                  type d).isSome = true)
    ∧ (∀ (me : DXVA2Renderer) (type : OverlayType) (d : RenderOverlayAnswers),
        OverlayPaired me.m_OverlayTextures me.m_OverlayVertexBuffers →
        (renderOverlay me type d).isSome = true) := by
  refine ⟨OverlayPaired_constructed, notifyOverlayUpdated_isSome, ?_, ?_, ?_⟩
  · intro me me' type a trace hp h
    exact notifyOverlayUpdated_paired me me' type a trace hp h
  · intro device videoFormat calls me' trace h
    obtain ⟨hp, hu⟩ := notifyOverlayUpdates_paired calls _ me' trace
      (OverlayPaired_constructed device videoFormat) h
    refine ⟨⟨hp, fun type d => renderOverlay_paired me' type d hp⟩, ?_⟩
    intro t v hm
    exact ⟨hu t v hm, fun type d => renderOverlay_paired _ type d (hu t v hm)⟩
  · intro me type d hp
    exact renderOverlay_paired me type d hp

/-- C22, witness: from the constructed renderer, a successful update of the
debug layer, a status update whose `CreateTexture` fails and an update that
finds the debug overlay switched off. All three calls return, the arrays left
are paired, and a draw of the debug layer passes the assertion. An unpaired
layer (texture without vertex buffer) is what the assertion rejects. -/
theorem overlay_pairing_invariant_witness :
    (notifyOverlayUpdates (DXVA2Renderer.constructed freshRenderer.m_Device 0)
        [(OverlayDebug, overlaySucceeds), (OverlayStatusUpdate, overlayTextureFails),
         (OverlayDebug, overlayDisabled)]).map
      (fun r => (decide (OverlayPaired r.1.m_OverlayTextures r.1.m_OverlayVertexBuffers),
                 (renderOverlay r.1 OverlayDebug drawSucceeds).isSome))
      = some (true, true)
    ∧ (notifyOverlayUpdated (DXVA2Renderer.constructed freshRenderer.m_Device 0) OverlayDebug
        overlaySucceeds).map (fun r => r.1.overlayLayer OverlayDebug) = some (some 21, some 22)
    ∧ renderOverlay { freshRenderer with m_OverlayTextures := [some 11, none] } OverlayDebug
        drawSucceeds = none := by
  refine ⟨?_, by decide, by decide⟩
  obtain ⟨r, hr⟩ := Option.isSome_iff_exists.mp
    (by decide : (notifyOverlayUpdates (DXVA2Renderer.constructed freshRenderer.m_Device 0)
        [(OverlayDebug, overlaySucceeds), (OverlayStatusUpdate, overlayTextureFails),
         (OverlayDebug, overlayDisabled)]).isSome = true)
  obtain ⟨hp, hdraw⟩ := (overlay_pairing_invariant.2.2.2.1 freshRenderer.m_Device 0 _ r.1 r.2
    hr).1
  rw [hr, Option.map_some']
  simp only [hp, decide_True, hdraw OverlayDebug drawSucceeds]

/-! ### C23, C24: the two toggles and H.264 -/

/-- C23: the two diagnostic toggles. With `DXVA2_DISABLE_DECODER_BLACKLIST` set
to `1`, `isDecoderBlacklisted` is false for every adapter, driver and video
format, and `isDXVideoProcessorAPIBlacklisted` does not depend on that variable
at all: it is the same with the variable at any value and with it unset. With
`DXVA2_DISABLE_VIDPROC_BLACKLIST` set to `1`,
`isDXVideoProcessorAPIBlacklisted` is false for every adapter, and
`isDecoderBlacklisted` does not depend on that variable at all. -/
theorem blacklist_toggles_independent (c : Limelight) (qgetenv : Environment)
    (me : DXVA2Renderer) :
    (qgetenv "DXVA2_DISABLE_DECODER_BLACKLIST" = "1" →
      isDecoderBlacklisted c qgetenv me = false)
    ∧ (∀ value : String,
        isDXVideoProcessorAPIBlacklisted
            (qputenv qgetenv "DXVA2_DISABLE_DECODER_BLACKLIST" value) me
          = isDXVideoProcessorAPIBlacklisted qgetenv me)
    ∧ isDXVideoProcessorAPIBlacklisted (qunsetenv qgetenv "DXVA2_DISABLE_DECODER_BLACKLIST") me
        = isDXVideoProcessorAPIBlacklisted qgetenv me
    ∧ (qgetenv "DXVA2_DISABLE_VIDPROC_BLACKLIST" = "1" →
        isDXVideoProcessorAPIBlacklisted qgetenv me = false)
    ∧ (∀ value : String,
        isDecoderBlacklisted c (qputenv qgetenv "DXVA2_DISABLE_VIDPROC_BLACKLIST" value) me
          = isDecoderBlacklisted c qgetenv me)
    ∧ isDecoderBlacklisted c (qunsetenv qgetenv "DXVA2_DISABLE_VIDPROC_BLACKLIST") me
        = isDecoderBlacklisted c qgetenv me := by
  have hne : ("DXVA2_DISABLE_VIDPROC_BLACKLIST" : String) ≠ "DXVA2_DISABLE_DECODER_BLACKLIST" := by
    decide
  refine ⟨?_, ?_, ?_, ?_, ?_, ?_⟩
  · intro h
    unfold isDecoderBlacklisted
    rw [if_pos h]
  · intro value
    unfold isDXVideoProcessorAPIBlacklisted qputenv
    rw [if_neg hne]
  · unfold isDXVideoProcessorAPIBlacklisted qunsetenv
    rw [if_neg hne]
  · intro h
    unfold isDXVideoProcessorAPIBlacklisted
    rw [if_pos h]
  · intro value
    unfold isDecoderBlacklisted qputenv
    rw [if_neg (Ne.symm hne)]
  · unfold isDecoderBlacklisted qunsetenv
    rw [if_neg (Ne.symm hne)]

/-- C23, witness: an old Intel driver asked for HEVC Main. With no variable set
both policies answer true; the decoder toggle turns only codec-disable off and
the processor toggle turns only processor-avoidance off. -/
theorem blacklist_toggles_independent_witness :
    decoderBlacklistDisabled "DXVA2_DISABLE_DECODER_BLACKLIST" = "1"
    ∧ isDecoderBlacklisted limelightH emptyEnvironment
        (rendererOn 0x8086 0x5916 oldIntelDriver limelightH.VIDEO_FORMAT_H265) = true
    ∧ isDecoderBlacklisted limelightH decoderBlacklistDisabled
        (rendererOn 0x8086 0x5916 oldIntelDriver limelightH.VIDEO_FORMAT_H265) = false
    ∧ isDXVideoProcessorAPIBlacklisted decoderBlacklistDisabled
        (rendererOn 0x8086 0x5916 oldIntelDriver limelightH.VIDEO_FORMAT_H265) = true
    ∧ isDXVideoProcessorAPIBlacklisted vidprocBlacklistDisabled
        (rendererOn 0x8086 0x5916 oldIntelDriver limelightH.VIDEO_FORMAT_H265) = false
    ∧ isDecoderBlacklisted limelightH vidprocBlacklistDisabled
        (rendererOn 0x8086 0x5916 oldIntelDriver limelightH.VIDEO_FORMAT_H265) = true :=
  ⟨by decide, by decide,
   (blacklist_toggles_independent limelightH decoderBlacklistDisabled
      (rendererOn 0x8086 0x5916 oldIntelDriver limelightH.VIDEO_FORMAT_H265)).1 (by decide),
   by decide,
   (blacklist_toggles_independent limelightH vidprocBlacklistDisabled
      (rendererOn 0x8086 0x5916 oldIntelDriver limelightH.VIDEO_FORMAT_H265)).2.2.2.1
      (by decide),
   by decide⟩

/-- C24: H.264 is never blacklisted. For every environment, adapter, driver
version and outcome of the adapter queries, `isDecoderBlacklisted` is false when
the video format has no bit of `VIDEO_FORMAT_MASK_H265`, so it is false for
H.264; and when it is true the format has a bit of the mask, so that, among the
three codecs, it is HEVC Main or HEVC Main10. -/
theorem isDecoderBlacklisted_only_hevc (c : Limelight) (qgetenv : Environment)
    (me : DXVA2Renderer) :
    (me.m_VideoFormat &&& c.VIDEO_FORMAT_MASK_H265 = 0 →
      isDecoderBlacklisted c qgetenv me = false)
    ∧ (c.WellFormed → me.m_VideoFormat = c.VIDEO_FORMAT_H264 →
        isDecoderBlacklisted c qgetenv me = false)
    ∧ (isDecoderBlacklisted c qgetenv me = true →
        me.m_VideoFormat &&& c.VIDEO_FORMAT_MASK_H265 ≠ 0)
    ∧ (c.WellFormed → c.IsCodec me.m_VideoFormat →
        isDecoderBlacklisted c qgetenv me = true → c.IsHEVC me.m_VideoFormat) := by
  have key : me.m_VideoFormat &&& c.VIDEO_FORMAT_MASK_H265 = 0 →
      isDecoderBlacklisted c qgetenv me = false := by
    intro h
    unfold isDecoderBlacklisted
    simp only [h, ne_eq, not_true_eq_false, decide_False, ite_self]
  have key2 : isDecoderBlacklisted c qgetenv me = true →
      me.m_VideoFormat &&& c.VIDEO_FORMAT_MASK_H265 ≠ 0 := by
    intro h h0
    rw [key h0] at h
    cases h
  refine ⟨key, ?_, key2, ?_⟩
  · intro hc hf
    apply key
    rw [hf]
    exact hc.1
  · intro hc hf h
    exact (c.mask_ne_zero_iff hc me.m_VideoFormat hf).mp (key2 h)

/-- C24, witness: H.264 on an Intel Haswell adapter with an old driver, on a
blacklisted NVIDIA adapter, and HEVC Main on the same Haswell adapter. -/
theorem isDecoderBlacklisted_only_hevc_witness :
    isDecoderBlacklisted limelightH emptyEnvironment
        (rendererOn 0x8086 0x0412 oldIntelDriver limelightH.VIDEO_FORMAT_H264) = false
    ∧ isDecoderBlacklisted limelightH emptyEnvironment
        (rendererOn 0x10DE 0x1180 0 limelightH.VIDEO_FORMAT_H264) = false
    ∧ isDecoderBlacklisted limelightH emptyEnvironment
        (rendererOn 0x8086 0x0412 oldIntelDriver limelightH.VIDEO_FORMAT_H265) = true
    ∧ limelightH.IsHEVC
        (rendererOn 0x8086 0x0412 oldIntelDriver limelightH.VIDEO_FORMAT_H265).m_VideoFormat :=
  ⟨(isDecoderBlacklisted_only_hevc limelightH emptyEnvironment
      (rendererOn 0x8086 0x0412 oldIntelDriver limelightH.VIDEO_FORMAT_H264)).1 (by decide),
   (isDecoderBlacklisted_only_hevc limelightH emptyEnvironment
      (rendererOn 0x10DE 0x1180 0 limelightH.VIDEO_FORMAT_H264)).2.1 (by decide) rfl,
   by decide,
   (isDecoderBlacklisted_only_hevc limelightH emptyEnvironment
      (rendererOn 0x8086 0x0412 oldIntelDriver limelightH.VIDEO_FORMAT_H265)).2.2.2
      (by decide) (Or.inr (Or.inl rfl)) (by decide)⟩

end DXVA2
